import Mathlib

/-!
# Bird clear-sky model (go-bird, `Bird.go`)

A shallow embedding of `Bird.go` and the properties of `Calculate`.

Number model.  The source computes on `float64`.  Two readings of it are used.

Exact reading (`Bird.validate`, `Bird.Calculate`).  Every `float64` value is an element of an
arbitrary linearly ordered field `F`: comparisons, `+ - * /` and the decimal literals are those
of the field, so rounding, overflow, infinities and NaN are not represented (a division by zero
has the field's value `x / 0 = 0`).  The control-flow and formula-level properties are proved
in this reading, and the signs and ranges of the intermediate terms at `F = ℝ`.

Machine reading (`Machine.validate`, `Machine.Calculate`).  The same translation of the source
over `FloatOps F`: the bare operations and comparisons, with no law assumed about them.  What is
proved for every `FloatOps` holds whatever the arithmetic does, for rounding, overflow,
infinities and NaN alike.  `F64` is one such arithmetic, with NaN, +Inf, -Inf, the comparisons
of `float64` and the underflow of products and quotients; inputs on which the two readings
differ are evaluated in it.

The four things the source takes from Go's `math` package (`math.Pi`, `math.Cos`, `math.Exp`,
`math.Pow`) are not code of this repository and are a parameter, `MathFns F`; `realMath`
instantiates them with the real functions, `F64.goMath` with the real functions and the special
cases that Go documents.  Every definition over a field or over `FloatOps` is computable as soon
as `F` and the `MathFns` are.

State model.  `*bird` is a mutable record; a method is a function from the record before the
call to the record after it, and `Calculate` returns its `error` (`none` for `nil`, `some msg`
for `errors.New(msg)`) together with the record after the call.  `NewBird` returns the record
after its `Calculate` call (the source returns a pointer to it) and that call's error.

Layout.  `Source` is the translation of `Bird.go`; `Vocabulary` and `Reference` hold the
predicates, sample inputs and the formulas of the specification; `MachineNumbers` holds the
machine reading.  The control-flow and algebraic properties are proved for every field `F` and
every `MathFns F`; the numeric properties (signs and ranges of the intermediate terms, the
reference scenario) are proved at `F = ℝ` with `realMath`, by elementary bounds and interval
arithmetic; the properties that depend on NaN, infinities or underflow are proved in the
machine reading.
-/

namespace Bird

/-- What `Bird.go` uses from Go's `math` package. -/
structure MathFns (F : Type) where
  /-- The constant `math.Pi`. -/
  Pi : F
  /-- The function `math.Cos`. -/
  Cos : F → F
  /-- The function `math.Exp`. -/
  Exp : F → F
  /-- The function `math.Pow`, base first. -/
  Pow : F → F → F

/-- The `math` functions on the real numbers. -/
noncomputable def realMath : MathFns ℝ where
  Pi := Real.pi
  Cos := Real.cos
  Exp := Real.exp
  Pow := fun x y => Real.rpow x y

/-- The record `bird` of `Bird.go`: nine input fields, then seven output fields. -/
structure bird (F : Type) where
  zenith : F
  r : F
  pressure : F
  ozone : F
  water : F
  taua : F
  ba : F
  albedo : F
  dniMod : F
  amass : F
  directNormal : F
  globalHoriz : F
  diffuseHoriz : F
  directNormalMod : F
  globalHorizMod : F
  diffuseHorizMod : F
deriving DecidableEq

section Source

variable {F : Type} [LinearOrderedField F]

/-- The method `validate` of `Bird.go`: six range tests in source order, each with its own
message. -/
def validate (b : bird F) : Option String :=
  if b.ozone < 0 ∨ b.ozone > 100 then
    some "invalid ozone thickness [cm]"
  else if b.water < 0 ∨ b.water > 100 then
    some "invalid water vapor [cm]"
  else if b.taua < 0 ∨ b.taua > 100 then
    some "invalid broadband aerosol optical depth"
  else if b.ba < 0 ∨ b.ba > 100 then
    some "invalid forward scattering factor"
  else if b.albedo < 0 ∨ b.albedo > 100 then
    some "invalid ground reflectance"
  else if b.dniMod < 0 ∨ b.dniMod > 100 then
    some "invalid direct normal irradiance modification factor"
  else
    none

/-- The method `birdHoriz` of `Bird.go`.  The source writes its two results through the
pointers `ghi` and `dhi`; here they are returned as the pair `(ghi, dhi)` and the caller
stores them in the two fields the pointers designate. -/
def birdHoriz (dni coszen ias albedo rs : F) : F × F :=
  let dirHorz : F := dni * coszen
  let ghi : F := (dirHorz + ias) / (1 - albedo * rs)
  let dhi : F := ghi - dirHorz
  (ghi, dhi)

/-- The method `Calculate` of `Bird.go`: the returned error and the record after the call.
Each assignment to a field of `b` is a record update, in source order. -/
def Calculate (m : MathFns F) (b : bird F) : Option String × bird F :=
  match validate b with
  | some err => (some err, b)
  | none =>
    if b.zenith ≥ 0 ∧ b.zenith < 90 ∧ b.r > 0 then
      let etrn : F := 1367.0 / (b.r * b.r)
      let coszen : F := m.Cos (b.zenith * m.Pi / 180.0)
      let b1 : bird F := { b with amass := 1.0 / (coszen + 0.50572 * m.Pow (96.07995 - b.zenith) (-1.6364)) }
      let press : F := b1.pressure * b1.amass / 1013
      let oz : F := b1.ozone * b1.amass
      let wat : F := b1.water * b1.amass
      let tRayliegh : F := m.Exp (-0.0903 * m.Pow press 0.84 * (1 + press - m.Pow press 1.01))
      let tOzone : F := 1 - 0.1611 * oz * m.Pow (1 + 139.48 * oz) (-0.3034)
        - 0.002715 * oz / (1 + 0.044 * oz + 0.0003 * oz * oz)
      let tGases : F := m.Exp (-0.0127 * m.Pow press 0.26)
      let tWater : F := 1 - 2.4959 * wat / (m.Pow (1 + 79.034 * wat) 0.6828 + 6.385 * wat)
      let tAerosol : F := m.Exp (-(m.Pow b1.taua 0.873) * (1 + b1.taua - m.Pow b1.taua 0.7088)
        * m.Pow b1.amass 0.9108)
      let b2 : bird F := { b1 with
        directNormal := 0.9662 * etrn * tAerosol * tWater * tGases * tOzone * tRayliegh }
      let taa : F := 1 - 0.1 * (1 - b2.amass + m.Pow b2.amass 1.06) * (1 - tAerosol)
      let rs : F := 0.0685 + (1 - b2.ba) * (1 - tAerosol / taa)
      let ias : F := etrn * coszen * 0.79 * tOzone * tGases * tWater * taa
        * (0.5 * (1 - tRayliegh) + b2.ba * (1 - (tAerosol / taa)))
        / (1 - b2.amass + m.Pow b2.amass 1.02)
      let gd : F × F := birdHoriz b2.directNormal coszen ias b2.albedo rs
      let b3 : bird F := { b2 with globalHoriz := gd.1, diffuseHoriz := gd.2 }
      let b5 : bird F :=
        if b3.dniMod ≥ 0 then
          let b4 : bird F := { b3 with directNormalMod := b3.directNormal * b3.dniMod }
          let gdMod : F × F := birdHoriz b4.directNormalMod coszen ias b4.albedo rs
          { b4 with globalHorizMod := gdMod.1, diffuseHorizMod := gdMod.2 }
        else b3
      (none, b5)
    else
      (none, { b with
        amass := 0, directNormal := 0, globalHoriz := 0, diffuseHoriz := 0,
        directNormalMod := 0, globalHorizMod := 0, diffuseHorizMod := 0 })

/-- The getter `GetZenith` of `Bird.go`. -/
def GetZenith (b : bird F) : F := b.zenith

/-- The setter `SetZenith` of `Bird.go`: the record after the call. -/
def SetZenith (b : bird F) (zenith : F) : bird F := { b with zenith := zenith }

/-- The getter `GetR` of `Bird.go`. -/
def GetR (b : bird F) : F := b.r

/-- The setter `SetR` of `Bird.go`: the record after the call. -/
def SetR (b : bird F) (r : F) : bird F := { b with r := r }

/-- The getter `GetPressure` of `Bird.go`. -/
def GetPressure (b : bird F) : F := b.pressure

/-- The setter `SetPressure` of `Bird.go`: the record after the call. -/
def SetPressure (b : bird F) (pressure : F) : bird F := { b with pressure := pressure }

/-- The getter `GetOzone` of `Bird.go`. -/
def GetOzone (b : bird F) : F := b.ozone

/-- The setter `SetOzone` of `Bird.go`: the record after the call. -/
def SetOzone (b : bird F) (ozone : F) : bird F := { b with ozone := ozone }

/-- The getter `GetWater` of `Bird.go`. -/
def GetWater (b : bird F) : F := b.water

/-- The setter `SetWater` of `Bird.go`: the record after the call. -/
def SetWater (b : bird F) (water : F) : bird F := { b with water := water }

/-- The getter `GetTaua` of `Bird.go`. -/
def GetTaua (b : bird F) : F := b.taua

/-- The setter `SetTaua` of `Bird.go`: the record after the call. -/
def SetTaua (b : bird F) (taua : F) : bird F := { b with taua := taua }

/-- The getter `GetBa` of `Bird.go`. -/
def GetBa (b : bird F) : F := b.ba

/-- The setter `SetBa` of `Bird.go`: the record after the call. -/
def SetBa (b : bird F) (ba : F) : bird F := { b with ba := ba }

/-- The getter `GetAlbedo` of `Bird.go`. -/
def GetAlbedo (b : bird F) : F := b.albedo

/-- The setter `SetAlbedo` of `Bird.go`: the record after the call. -/
def SetAlbedo (b : bird F) (albedo : F) : bird F := { b with albedo := albedo }

/-- The getter `GetDniMod` of `Bird.go`. -/
def GetDniMod (b : bird F) : F := b.dniMod

/-- The setter `SetDniMod` of `Bird.go`: the record after the call. -/
def SetDniMod (b : bird F) (dniMod : F) : bird F := { b with dniMod := dniMod }

/-- The getter `GetAmass` of `Bird.go`. -/
def GetAmass (b : bird F) : F := b.amass

/-- The getter `GetDirectNormal` of `Bird.go`. -/
def GetDirectNormal (b : bird F) : F := b.directNormal

/-- The getter `GetGlobalHoriz` of `Bird.go`. -/
def GetGlobalHoriz (b : bird F) : F := b.globalHoriz

/-- The getter `GetDiffuseHoriz` of `Bird.go`. -/
def GetDiffuseHoriz (b : bird F) : F := b.diffuseHoriz

/-- The getter `GetDirectNormalMod` of `Bird.go`. -/
def GetDirectNormalMod (b : bird F) : F := b.directNormalMod

/-- The getter `GetGlobalHorizMod` of `Bird.go`. -/
def GetGlobalHorizMod (b : bird F) : F := b.globalHorizMod

/-- The getter `GetDiffuseHorizMod` of `Bird.go`. -/
def GetDiffuseHorizMod (b : bird F) : F := b.diffuseHorizMod

/-- The constructor `NewBird` of `Bird.go`: `var b bird` is the zero record, the nine
arguments are stored, and the result is the record after `b.Calculate()` (the source returns
the pointer `&b`) together with the error of that call. -/
def NewBird (m : MathFns F) (zenith r pressure ozone water taua ba albedo dniMod : F) :
    bird F × Option String :=
  let b : bird F :=
    { zenith := 0, r := 0, pressure := 0, ozone := 0, water := 0, taua := 0, ba := 0,
      albedo := 0, dniMod := 0, amass := 0, directNormal := 0, globalHoriz := 0,
      diffuseHoriz := 0, directNormalMod := 0, globalHorizMod := 0, diffuseHorizMod := 0 }
  let b : bird F := { b with zenith := zenith }
  let b : bird F := { b with r := r }
  let b : bird F := { b with pressure := pressure }
  let b : bird F := { b with ozone := ozone }
  let b : bird F := { b with water := water }
  let b : bird F := { b with taua := taua }
  let b : bird F := { b with ba := ba }
  let b : bird F := { b with albedo := albedo }
  let b : bird F := { b with dniMod := dniMod }
  let res : Option String × bird F := Calculate m b
  (res.2, res.1)

end Source

section Vocabulary

variable {F : Type} [LinearOrderedField F]

/-- A value lies in the closed interval `[0,100]`. -/
def inRange (x : F) : Prop := 0 ≤ x ∧ x ≤ 100

instance (x : F) : Decidable (inRange x) := by unfold inRange; infer_instance

/-- All six validated fields lie in `[0,100]`. -/
def validated (b : bird F) : Prop :=
  inRange b.ozone ∧ inRange b.water ∧ inRange b.taua ∧ inRange b.ba ∧ inRange b.albedo
    ∧ inRange b.dniMod

/-- The six validated fields in the order the specification lists them, each with the message
that `validate` gives for it. -/
def checkedFields (b : bird F) : List (F × String) :=
  [(b.ozone, "invalid ozone thickness [cm]"),
   (b.water, "invalid water vapor [cm]"),
   (b.taua, "invalid broadband aerosol optical depth"),
   (b.ba, "invalid forward scattering factor"),
   (b.albedo, "invalid ground reflectance"),
   (b.dniMod, "invalid direct normal irradiance modification factor")]

/-- Fail-fast validation as the specification words it: the message of the first field, in the
order ozone, water, taua, ba, albedo, dniMod, that lies outside `[0,100]`. -/
def firstViolation (b : bird F) : Option String :=
  ((checkedFields b).find? (fun p => decide (¬ inRange p.1))).map Prod.snd

/-- The geometry test of `Calculate`: `0 ≤ zenith < 90` and `r > 0`. -/
def fullGeometry (b : bird F) : Prop := b.zenith ≥ 0 ∧ b.zenith < 90 ∧ b.r > 0

/-- The record with all seven outputs set to zero and the inputs kept. -/
def zeroOutputs (b : bird F) : bird F :=
  { b with
    amass := 0, directNormal := 0, globalHoriz := 0, diffuseHoriz := 0,
    directNormalMod := 0, globalHorizMod := 0, diffuseHorizMod := 0 }

/-- The call of `src/examples/test_run.go`: the nine arguments of `NewBird` there, on a fresh
record (all outputs zero). -/
def exampleInput : bird F where
  zenith := 50.11162202402973
  r := 0.9965422973539708
  pressure := 820
  ozone := 0.3
  water := 1.5
  taua := 0.08
  ba := 0.85
  albedo := 0.2
  dniMod := 0
  amass := 0
  directNormal := 0
  globalHoriz := 0
  diffuseHoriz := 0
  directNormalMod := 0
  globalHorizMod := 0
  diffuseHorizMod := 0

/-- The example record after an earlier computation left values in the outputs: the seven
outputs hold 1 to 7. -/
def staleOutputs (b : bird F) : bird F :=
  { b with
    amass := 1, directNormal := 2, globalHoriz := 3, diffuseHoriz := 4,
    directNormalMod := 5, globalHorizMod := 6, diffuseHorizMod := 7 }

/-- The example inputs with dniMod set to `-1`, on a fresh record. -/
def negativeDniModInput : bird F := { (exampleInput : bird F) with dniMod := -1 }

/-- Two records agree on the nine input fields. -/
def sameInputs (b c : bird F) : Prop :=
  b.zenith = c.zenith ∧ b.r = c.r ∧ b.pressure = c.pressure ∧ b.ozone = c.ozone
    ∧ b.water = c.water ∧ b.taua = c.taua ∧ b.ba = c.ba ∧ b.albedo = c.albedo
    ∧ b.dniMod = c.dniMod

/-- Two records agree on the seven output fields. -/
def sameOutputs (b c : bird F) : Prop :=
  b.amass = c.amass ∧ b.directNormal = c.directNormal ∧ b.globalHoriz = c.globalHoriz
    ∧ b.diffuseHoriz = c.diffuseHoriz ∧ b.directNormalMod = c.directNormalMod
    ∧ b.globalHorizMod = c.globalHorizMod ∧ b.diffuseHorizMod = c.diffuseHorizMod

/-- The record `NewBird` runs `Calculate` on: the nine arguments as inputs, all seven outputs
zero. -/
def freshRecord (zenith r pressure ozone water taua ba albedo dniMod : F) : bird F :=
  { zenith := zenith, r := r, pressure := pressure, ozone := ozone, water := water,
    taua := taua, ba := ba, albedo := albedo, dniMod := dniMod, amass := 0,
    directNormal := 0, globalHoriz := 0, diffuseHoriz := 0, directNormalMod := 0,
    globalHorizMod := 0, diffuseHorizMod := 0 }

/-- The nine setters, in the order of the input fields. -/
def setter : Fin 9 → bird F → F → bird F :=
  ![SetZenith, SetR, SetPressure, SetOzone, SetWater, SetTaua, SetBa, SetAlbedo, SetDniMod]

/-- The nine input getters, in the order of the input fields. -/
def inputGetter : Fin 9 → bird F → F :=
  ![GetZenith, GetR, GetPressure, GetOzone, GetWater, GetTaua, GetBa, GetAlbedo, GetDniMod]

/-- The seven output getters, in the order of the output fields. -/
def outputGetter : Fin 7 → bird F → F :=
  ![GetAmass, GetDirectNormal, GetGlobalHoriz, GetDiffuseHoriz, GetDirectNormalMod,
    GetGlobalHorizMod, GetDiffuseHorizMod]

/-- The example inputs with no aerosol and ground reflectance 2000/137 (about 14.6), both
inside the validated range. -/
def zeroDenominatorInput : bird F :=
  { (exampleInput : bird F) with taua := 0, albedo := 2000 / 137 }

/-- The example inputs with the sun half a degree above the horizon, standard sea-level
pressure (1013 millibars) and the largest validated ozone column. -/
def extremeInput : bird F :=
  { (exampleInput : bird F) with zenith := 89.5, pressure := 1013, ozone := 100 }

/-- The degree 7 Taylor polynomial of the exponential function. -/
def expTaylor (t : F) : F :=
  1 + t + t ^ 2 / 2 + t ^ 3 / 6 + t ^ 4 / 24 + t ^ 5 / 120 + t ^ 6 / 720 + t ^ 7 / 5040

end Vocabulary

section Reference

variable {F : Type} [LinearOrderedField F]

/-- Step 1 of the specification: `etrn = 1367.0 / r²`. -/
def specEtrn (b : bird F) : F := 1367.0 / b.r ^ 2

/-- Step 2: `coszen = cos(zenith_in_radians)`, the angle being `zenith * pi / 180`. -/
def specCoszen (m : MathFns F) (b : bird F) : F := m.Cos (b.zenith * m.Pi / 180)

/-- Step 3: `amass = 1 / (coszen + 0.50572 * (96.07995 - zenith)^(-1.6364))`. -/
def specAmass (m : MathFns F) (b : bird F) : F :=
  1 / (specCoszen m b + 0.50572 * m.Pow (96.07995 - b.zenith) (-1.6364))

/-- Step 4: `press = pressure * amass / 1013`. -/
def specPress (m : MathFns F) (b : bird F) : F := b.pressure * specAmass m b / 1013

/-- Step 5: `oz = ozone * amass`. -/
def specOz (m : MathFns F) (b : bird F) : F := b.ozone * specAmass m b

/-- Step 5: `wat = water * amass`. -/
def specWat (m : MathFns F) (b : bird F) : F := b.water * specAmass m b

/-- Step 6: `tRayleigh = exp(-0.0903 * press^0.84 * (1 + press - press^1.01))`. -/
def specTRayleigh (m : MathFns F) (b : bird F) : F :=
  m.Exp (-0.0903 * m.Pow (specPress m b) 0.84
    * (1 + specPress m b - m.Pow (specPress m b) 1.01))

/-- Step 6: `tOzone = 1 - 0.1611*oz*(1+139.48*oz)^-0.3034
- 0.002715*oz/(1+0.044*oz+0.0003*oz²)`. -/
def specTOzone (m : MathFns F) (b : bird F) : F :=
  1 - 0.1611 * specOz m b * m.Pow (1 + 139.48 * specOz m b) (-0.3034)
    - 0.002715 * specOz m b / (1 + 0.044 * specOz m b + 0.0003 * specOz m b ^ 2)

/-- Step 6: `tGases = exp(-0.0127 * press^0.26)`. -/
def specTGases (m : MathFns F) (b : bird F) : F :=
  m.Exp (-0.0127 * m.Pow (specPress m b) 0.26)

/-- Step 6: `tWater = 1 - 2.4959*wat / ((1+79.034*wat)^0.6828 + 6.385*wat)`. -/
def specTWater (m : MathFns F) (b : bird F) : F :=
  1 - 2.4959 * specWat m b / (m.Pow (1 + 79.034 * specWat m b) 0.6828 + 6.385 * specWat m b)

/-- Step 6: `tAerosol = exp(-(taua^0.873) * (1 + taua - taua^0.7088) * amass^0.9108)`. -/
def specTAerosol (m : MathFns F) (b : bird F) : F :=
  m.Exp (-(m.Pow b.taua 0.873) * (1 + b.taua - m.Pow b.taua 0.7088)
    * m.Pow (specAmass m b) 0.9108)

/-- Step 7: `directNormal = 0.9662 * etrn * tAerosol * tWater * tGases * tOzone * tRayleigh`. -/
def specDirectNormal (m : MathFns F) (b : bird F) : F :=
  0.9662 * specEtrn b * specTAerosol m b * specTWater m b * specTGases m b * specTOzone m b
    * specTRayleigh m b

/-- Step 8: `taa = 1 - 0.1*(1 - amass + amass^1.06)*(1 - tAerosol)`. -/
def specTaa (m : MathFns F) (b : bird F) : F :=
  1 - 0.1 * (1 - specAmass m b + m.Pow (specAmass m b) 1.06) * (1 - specTAerosol m b)

/-- Step 8: `rs = 0.0685 + (1 - ba)*(1 - tAerosol/taa)`. -/
def specRs (m : MathFns F) (b : bird F) : F :=
  0.0685 + (1 - b.ba) * (1 - specTAerosol m b / specTaa m b)

/-- Step 8: `ias = etrn * coszen * 0.79 * tOzone * tGases * tWater * taa
* (0.5*(1-tRayleigh) + ba*(1-tAerosol/taa)) / (1 - amass + amass^1.02)`. -/
def specIas (m : MathFns F) (b : bird F) : F :=
  specEtrn b * specCoszen m b * 0.79 * specTOzone m b * specTGases m b * specTWater m b
    * specTaa m b
    * (0.5 * (1 - specTRayleigh m b) + b.ba * (1 - specTAerosol m b / specTaa m b))
    / (1 - specAmass m b + m.Pow (specAmass m b) 1.02)

/-- Step 9: `globalHoriz = (dni * coszen + ias) / (1 - albedo * rs)`. -/
def specGlobalHoriz (m : MathFns F) (b : bird F) (dni : F) : F :=
  (dni * specCoszen m b + specIas m b) / (1 - b.albedo * specRs m b)

/-- Step 9: `diffuseHoriz = globalHoriz - dni * coszen`. -/
def specDiffuseHoriz (m : MathFns F) (b : bird F) (dni : F) : F :=
  specGlobalHoriz m b dni - dni * specCoszen m b

end Reference


section MachineNumbers

/-- The operations and comparisons that `Bird.go` applies to `float64` values, with no law
assumed about them.  What is proved for every `FloatOps` holds whatever the arithmetic does:
rounding, overflow, infinities and NaN included. -/
class FloatOps (F : Type) extends Zero F, One F, NatCast F, OfScientific F, Add F, Sub F, Mul F,
    Div F, Neg F, LT F, LE F where
  /-- The comparison `<` can be evaluated. -/
  decLt : ∀ x y : F, Decidable (x < y)
  /-- The comparison `<=` can be evaluated. -/
  decLe : ∀ x y : F, Decidable (x ≤ y)

instance (priority := low) FloatOps.instDecLt {F : Type} [FloatOps F] (x y : F) :
    Decidable (x < y) :=
  FloatOps.decLt x y

instance (priority := low) FloatOps.instDecLe {F : Type} [FloatOps F] (x y : F) :
    Decidable (x ≤ y) :=
  FloatOps.decLe x y

namespace Machine

variable {F : Type} [FloatOps F]

/-- The method `validate` of `Bird.go` on machine numbers: the same six tests, in source
order. -/
def validate (b : bird F) : Option String :=
  if b.ozone < 0 ∨ b.ozone > 100 then
    some "invalid ozone thickness [cm]"
  else if b.water < 0 ∨ b.water > 100 then
    some "invalid water vapor [cm]"
  else if b.taua < 0 ∨ b.taua > 100 then
    some "invalid broadband aerosol optical depth"
  else if b.ba < 0 ∨ b.ba > 100 then
    some "invalid forward scattering factor"
  else if b.albedo < 0 ∨ b.albedo > 100 then
    some "invalid ground reflectance"
  else if b.dniMod < 0 ∨ b.dniMod > 100 then
    some "invalid direct normal irradiance modification factor"
  else
    none

/-- The method `birdHoriz` of `Bird.go` on machine numbers, its results returned as the pair
`(ghi, dhi)`. -/
def birdHoriz (dni coszen ias albedo rs : F) : F × F :=
  let dirHorz : F := dni * coszen
  let ghi : F := (dirHorz + ias) / (1 - albedo * rs)
  let dhi : F := ghi - dirHorz
  (ghi, dhi)

/-- The method `Calculate` of `Bird.go` on machine numbers: the returned error and the record
after the call, statement by statement as in `Bird.Calculate`. -/
def Calculate (m : MathFns F) (b : bird F) : Option String × bird F :=
  match validate b with
  | some err => (some err, b)
  | none =>
    if b.zenith ≥ 0 ∧ b.zenith < 90 ∧ b.r > 0 then
      let etrn : F := 1367.0 / (b.r * b.r)
      let coszen : F := m.Cos (b.zenith * m.Pi / 180.0)
      let b1 : bird F := { b with amass := 1.0 / (coszen + 0.50572 * m.Pow (96.07995 - b.zenith) (-1.6364)) }
      let press : F := b1.pressure * b1.amass / 1013
      let oz : F := b1.ozone * b1.amass
      let wat : F := b1.water * b1.amass
      let tRayliegh : F := m.Exp (-0.0903 * m.Pow press 0.84 * (1 + press - m.Pow press 1.01))
      let tOzone : F := 1 - 0.1611 * oz * m.Pow (1 + 139.48 * oz) (-0.3034)
        - 0.002715 * oz / (1 + 0.044 * oz + 0.0003 * oz * oz)
      let tGases : F := m.Exp (-0.0127 * m.Pow press 0.26)
      let tWater : F := 1 - 2.4959 * wat / (m.Pow (1 + 79.034 * wat) 0.6828 + 6.385 * wat)
      let tAerosol : F := m.Exp (-(m.Pow b1.taua 0.873) * (1 + b1.taua - m.Pow b1.taua 0.7088)
        * m.Pow b1.amass 0.9108)
      let b2 : bird F := { b1 with
        directNormal := 0.9662 * etrn * tAerosol * tWater * tGases * tOzone * tRayliegh }
      let taa : F := 1 - 0.1 * (1 - b2.amass + m.Pow b2.amass 1.06) * (1 - tAerosol)
      let rs : F := 0.0685 + (1 - b2.ba) * (1 - tAerosol / taa)
      let ias : F := etrn * coszen * 0.79 * tOzone * tGases * tWater * taa
        * (0.5 * (1 - tRayliegh) + b2.ba * (1 - (tAerosol / taa)))
        / (1 - b2.amass + m.Pow b2.amass 1.02)
      let gd : F × F := birdHoriz b2.directNormal coszen ias b2.albedo rs
      let b3 : bird F := { b2 with globalHoriz := gd.1, diffuseHoriz := gd.2 }
      let b5 : bird F :=
        if b3.dniMod ≥ 0 then
          let b4 : bird F := { b3 with directNormalMod := b3.directNormal * b3.dniMod }
          let gdMod : F × F := birdHoriz b4.directNormalMod coszen ias b4.albedo rs
          { b4 with globalHorizMod := gdMod.1, diffuseHorizMod := gdMod.2 }
        else b3
      (none, b5)
    else
      (none, { b with
        amass := 0, directNormal := 0, globalHoriz := 0, diffuseHoriz := 0,
        directNormalMod := 0, globalHorizMod := 0, diffuseHorizMod := 0 })

/-- Line 234 of `Bird.go`: `etrn`. -/
def etrn (b : bird F) : F := 1367.0 / (b.r * b.r)

/-- Line 236: `coszen`. -/
def coszen (m : MathFns F) (b : bird F) : F := m.Cos (b.zenith * m.Pi / 180.0)

/-- Line 237: the value assigned to `b.amass`. -/
def amass (m : MathFns F) (b : bird F) : F :=
  1.0 / (coszen m b + 0.50572 * m.Pow (96.07995 - b.zenith) (-1.6364))

/-- Line 239: `press`. -/
def press (m : MathFns F) (b : bird F) : F := b.pressure * amass m b / 1013

/-- Line 240: `oz`. -/
def oz (m : MathFns F) (b : bird F) : F := b.ozone * amass m b

/-- Line 241: `wat`. -/
def wat (m : MathFns F) (b : bird F) : F := b.water * amass m b

/-- Line 243: `tRayliegh`. -/
def tRayliegh (m : MathFns F) (b : bird F) : F :=
  m.Exp (-0.0903 * m.Pow (press m b) 0.84 * (1 + press m b - m.Pow (press m b) 1.01))

/-- Line 244: `tOzone`. -/
def tOzone (m : MathFns F) (b : bird F) : F :=
  1 - 0.1611 * oz m b * m.Pow (1 + 139.48 * oz m b) (-0.3034)
    - 0.002715 * oz m b / (1 + 0.044 * oz m b + 0.0003 * oz m b * oz m b)

/-- Line 245: `tGases`. -/
def tGases (m : MathFns F) (b : bird F) : F := m.Exp (-0.0127 * m.Pow (press m b) 0.26)

/-- Line 246: `tWater`. -/
def tWater (m : MathFns F) (b : bird F) : F :=
  1 - 2.4959 * wat m b / (m.Pow (1 + 79.034 * wat m b) 0.6828 + 6.385 * wat m b)

/-- Line 247: `tAerosol`. -/
def tAerosol (m : MathFns F) (b : bird F) : F :=
  m.Exp (-(m.Pow b.taua 0.873) * (1 + b.taua - m.Pow b.taua 0.7088) * m.Pow (amass m b) 0.9108)

/-- Line 249: the value assigned to `b.directNormal`. -/
def directNormal (m : MathFns F) (b : bird F) : F :=
  0.9662 * etrn b * tAerosol m b * tWater m b * tGases m b * tOzone m b * tRayliegh m b

/-- Line 251: `taa`. -/
def taa (m : MathFns F) (b : bird F) : F :=
  1 - 0.1 * (1 - amass m b + m.Pow (amass m b) 1.06) * (1 - tAerosol m b)

/-- Line 252: `rs`. -/
def rs (m : MathFns F) (b : bird F) : F :=
  0.0685 + (1 - b.ba) * (1 - tAerosol m b / taa m b)

/-- Line 253: `ias`. -/
def ias (m : MathFns F) (b : bird F) : F :=
  etrn b * coszen m b * 0.79 * tOzone m b * tGases m b * tWater m b * taa m b
    * (0.5 * (1 - tRayliegh m b) + b.ba * (1 - (tAerosol m b / taa m b)))
    / (1 - amass m b + m.Pow (amass m b) 1.02)

/-- The test `validate` applies to one field: `x < 0 || x > 100`. -/
def rejected (x : F) : Prop := x < 0 ∨ x > 100

instance (x : F) : Decidable (rejected x) := by unfold rejected; infer_instance

/-- A value lies in the closed interval `[0,100]`, the comparisons being those of the
machine. -/
def inRange (x : F) : Prop := 0 ≤ x ∧ x ≤ 100

instance (x : F) : Decidable (inRange x) := by unfold inRange; infer_instance

/-- The geometry test of `Calculate`. -/
def fullGeometry (b : bird F) : Prop := b.zenith ≥ 0 ∧ b.zenith < 90 ∧ b.r > 0

/-- The six validated fields in the order the specification lists them, each with the message
that `validate` gives for it. -/
def checkedFields (b : bird F) : List (F × String) :=
  [(b.ozone, "invalid ozone thickness [cm]"),
   (b.water, "invalid water vapor [cm]"),
   (b.taua, "invalid broadband aerosol optical depth"),
   (b.ba, "invalid forward scattering factor"),
   (b.albedo, "invalid ground reflectance"),
   (b.dniMod, "invalid direct normal irradiance modification factor")]

/-- The message of the first field, in the order ozone, water, taua, ba, albedo, dniMod, that
lies outside `[0,100]`. -/
def firstViolation (b : bird F) : Option String :=
  ((checkedFields b).find? (fun p => decide (¬ inRange p.1))).map Prod.snd

/-- The message of the first field, in the same order, that fails the test of `validate`. -/
def firstRejected (b : bird F) : Option String :=
  ((checkedFields b).find? (fun p => decide (rejected p.1))).map Prod.snd

/-- Two records agree on the nine input fields. -/
def sameInputs (b c : bird F) : Prop :=
  b.zenith = c.zenith ∧ b.r = c.r ∧ b.pressure = c.pressure ∧ b.ozone = c.ozone
    ∧ b.water = c.water ∧ b.taua = c.taua ∧ b.ba = c.ba ∧ b.albedo = c.albedo
    ∧ b.dniMod = c.dniMod

/-- The call of `src/examples/test_run.go` on a fresh record (all outputs zero). -/
def exampleInput : bird F where
  zenith := 50.11162202402973
  r := 0.9965422973539708
  pressure := 820
  ozone := 0.3
  water := 1.5
  taua := 0.08
  ba := 0.85
  albedo := 0.2
  dniMod := 0
  amass := 0
  directNormal := 0
  globalHoriz := 0
  diffuseHoriz := 0
  directNormalMod := 0
  globalHorizMod := 0
  diffuseHorizMod := 0

/-- A record after an earlier computation left values in the outputs: the seven outputs hold 1
to 7. -/
def staleOutputs (b : bird F) : bird F :=
  { b with
    amass := 1, directNormal := 2, globalHoriz := 3, diffuseHoriz := 4,
    directNormalMod := 5, globalHorizMod := 6, diffuseHorizMod := 7 }

/-- Sun at the zenith, mean earth-sun distance, and an atmosphere with no pressure, ozone,
water vapour or aerosol, on a fresh record. -/
def emptyAtmosphereInput : bird F where
  zenith := 0
  r := 1
  pressure := 0
  ozone := 0
  water := 0
  taua := 0
  ba := 0.85
  albedo := 0.2
  dniMod := 0
  amass := 0
  directNormal := 0
  globalHoriz := 0
  diffuseHoriz := 0
  directNormalMod := 0
  globalHorizMod := 0
  diffuseHorizMod := 0

end Machine

/-- The values of `float64` with its special values kept apart: NaN, +Inf, -Inf and the finite
values.  A finite value is a real number and `+ - * /` on finite values are exact, except that
a product or quotient of magnitude at most `2^-1075` is zero, as it is in `float64` (underflow).
Rounding and overflow are not represented, and the sign of a zero is not distinguished (a zero
divisor counts as `+0`). -/
inductive F64 where
  | nan : F64
  | posInf : F64
  | negInf : F64
  | fin (x : ℝ) : F64

namespace F64

/-- Underflow: a real number of magnitude at most `2^-1075`, half the smallest positive
`float64`, becomes zero. -/
noncomputable def flush (x : ℝ) : ℝ :=
  if -(1 / 2 ^ 1075) ≤ x ∧ x ≤ 1 / 2 ^ 1075 then 0 else x

/-- Negation. -/
noncomputable def neg : F64 → F64
  | nan => nan
  | posInf => negInf
  | negInf => posInf
  | fin a => fin (-a)

/-- Addition: NaN propagates, `+Inf + -Inf` is NaN. -/
noncomputable def add : F64 → F64 → F64
  | nan, _ => nan
  | _, nan => nan
  | posInf, negInf => nan
  | negInf, posInf => nan
  | posInf, _ => posInf
  | _, posInf => posInf
  | negInf, _ => negInf
  | _, negInf => negInf
  | fin a, fin b => fin (a + b)

/-- An infinity times a finite value: NaN for zero, else the infinity with the product of the
signs. -/
noncomputable def infTimes (positive : Bool) (a : ℝ) : F64 :=
  if a = 0 then nan else if (0 < a) ↔ (positive = true) then posInf else negInf

/-- Multiplication: NaN propagates, `Inf * 0` is NaN. -/
noncomputable def mul : F64 → F64 → F64
  | nan, _ => nan
  | _, nan => nan
  | posInf, posInf => posInf
  | posInf, negInf => negInf
  | negInf, posInf => negInf
  | negInf, negInf => posInf
  | posInf, fin a => infTimes true a
  | negInf, fin a => infTimes false a
  | fin a, posInf => infTimes true a
  | fin a, negInf => infTimes false a
  | fin a, fin b => fin (flush (a * b))

/-- Division: NaN propagates, `Inf / Inf` and `0 / 0` are NaN, a finite value divided by an
infinity is zero, a nonzero finite value divided by zero is the infinity of its sign. -/
noncomputable def div : F64 → F64 → F64
  | nan, _ => nan
  | _, nan => nan
  | fin _, posInf => fin 0
  | fin _, negInf => fin 0
  | posInf, fin a => if 0 ≤ a then posInf else negInf
  | negInf, fin a => if 0 ≤ a then negInf else posInf
  | posInf, _ => nan
  | negInf, _ => nan
  | fin a, fin b =>
    if b = 0 then (if a = 0 then nan else if 0 < a then posInf else negInf)
    else fin (flush (a / b))

/-- The comparison `<`: false as soon as one side is NaN. -/
def lt : F64 → F64 → Prop
  | fin a, fin b => a < b
  | negInf, fin _ => True
  | negInf, posInf => True
  | fin _, posInf => True
  | _, _ => False

/-- The comparison `<=`: false as soon as one side is NaN. -/
def le : F64 → F64 → Prop
  | fin a, fin b => a ≤ b
  | negInf, fin _ => True
  | negInf, posInf => True
  | fin _, posInf => True
  | negInf, negInf => True
  | posInf, posInf => True
  | _, _ => False

/-- The `float64` operations on `F64`; a literal denotes the real number it writes. -/
noncomputable instance ops : FloatOps F64 where
  zero := fin 0
  one := fin 1
  natCast := fun n => fin n
  ofScientific := fun m s e => fin (OfScientific.ofScientific m s e)
  add := add
  sub := fun x y => add x (neg y)
  mul := mul
  div := div
  neg := neg
  lt := lt
  le := le
  decLt := fun x y => Classical.propDecidable (lt x y)
  decLe := fun x y => Classical.propDecidable (le x y)

/-- A value is finite: neither NaN nor an infinity. -/
def isFinite : F64 → Prop
  | fin _ => True
  | _ => False

/-- A value is finite and lies between two real bounds. -/
def between (x : F64) (l u : ℝ) : Prop := ∃ a : ℝ, x = fin a ∧ l ≤ a ∧ a ≤ u

/-- A real number is an odd integer. -/
def isOddInteger (e : ℝ) : Prop := ∃ n : ℤ, Odd n ∧ (n : ℝ) = e

/-- A real number is an integer. -/
def isInteger (e : ℝ) : Prop := ∃ n : ℤ, (n : ℝ) = e

noncomputable instance (e : ℝ) : Decidable (isOddInteger e) := Classical.propDecidable _

noncomputable instance (e : ℝ) : Decidable (isInteger e) := Classical.propDecidable _

/-- The function `math.Pow` for a finite exponent, with the special cases Go documents:
`Pow(x, 0) = 1`, `Pow(1, y) = 1`, `Pow(NaN, y) = NaN`, the cases of a zero or infinite base, and
`Pow(x, y) = NaN` for finite `x < 0` and non-integer `y`; elsewhere the real power, subject to
underflow.  Every exponent in `Bird.go` is a finite literal; for a NaN or infinite exponent the
value here is NaN. -/
noncomputable def pow : F64 → F64 → F64
  | nan, fin e => if e = 0 then fin 1 else nan
  | posInf, fin e => if e = 0 then fin 1 else if 0 < e then posInf else fin 0
  | negInf, fin e =>
    if e = 0 then fin 1 else if 0 < e then (if isOddInteger e then negInf else posInf)
    else fin 0
  | fin a, fin e =>
    if e = 0 then fin 1 else if a = 1 then fin 1
    else if a = 0 then (if 0 < e then fin 0 else posInf)
    else if a < 0 ∧ ¬ isInteger e then nan
    else fin (flush (Real.rpow a e))
  | _, _ => nan

/-- Go's `math` functions on `F64`: `Cos` of NaN or an infinity is NaN; `Exp` of NaN is NaN, of
+Inf is +Inf, of -Inf is 0; `Pow` as in `pow`; at a finite argument the real function, subject
to underflow. -/
noncomputable def goMath : MathFns F64 where
  Pi := fin Real.pi
  Cos := fun x =>
    match x with
    | fin a => fin (Real.cos a)
    | _ => nan
  Exp := fun x =>
    match x with
    | nan => nan
    | posInf => posInf
    | negInf => fin 0
    | fin a => fin (flush (Real.exp a))
  Pow := pow

/-- The example inputs with a NaN ozone thickness. -/
noncomputable def nanOzoneInput : bird F64 :=
  { (Machine.exampleInput : bird F64) with ozone := nan }

/-- The example inputs with a NaN ozone thickness and water vapour `-1`. -/
noncomputable def nanOzoneNegativeWaterInput : bird F64 :=
  { (Machine.exampleInput : bird F64) with ozone := nan, water := -1 }

/-- The example inputs with a NaN dniMod. -/
noncomputable def nanDniModInput : bird F64 :=
  { (Machine.exampleInput : bird F64) with dniMod := nan }

/-- The example inputs, whose dniMod is 0, with a NaN pressure. -/
noncomputable def nanPressureInput : bird F64 :=
  { (Machine.exampleInput : bird F64) with pressure := nan }

/-- Sun at the zenith, no pressure, ozone or water vapour, aerosol optical depth 1, and an
earth radius vector of `1e-200`, whose square underflows. -/
noncomputable def tinyRadiusInput : bird F64 :=
  { (Machine.emptyAtmosphereInput : bird F64) with r := 1e-200, taua := 1 }

end F64

end MachineNumbers


section Lemmas

variable {F : Type} [LinearOrderedField F]

theorem not_inRange_iff (x : F) : ¬ inRange x ↔ (x < 0 ∨ x > 100) := by
  unfold inRange
  rw [not_and_or, not_le, not_le]

theorem validate_eq_none_iff (b : bird F) : validate b = none ↔ validated b := by
  unfold validate validated
  simp only [← not_inRange_iff]
  by_cases h1 : inRange b.ozone <;> by_cases h2 : inRange b.water <;>
    by_cases h3 : inRange b.taua <;> by_cases h4 : inRange b.ba <;>
    by_cases h5 : inRange b.albedo <;> by_cases h6 : inRange b.dniMod <;>
    simp [h1, h2, h3, h4, h5, h6]

theorem Calculate_fst (m : MathFns F) (b : bird F) : (Calculate m b).1 = validate b := by
  unfold Calculate
  cases h : validate b with
  | some err => rfl
  | none =>
    dsimp only
    split <;> rfl

theorem Calculate_of_error (m : MathFns F) (b : bird F) (e : String)
    (h : validate b = some e) : Calculate m b = (some e, b) := by
  unfold Calculate
  rw [h]

theorem Calculate_of_degenerate (m : MathFns F) (b : bird F) (hv : validate b = none)
    (hg : ¬ fullGeometry b) : Calculate m b = (none, zeroOutputs b) := by
  unfold fullGeometry at hg
  unfold Calculate
  rw [hv]
  dsimp only
  rw [if_neg hg]
  rfl

theorem specEtrn_eq (b : bird F) : specEtrn b = 1367.0 / (b.r * b.r) := by
  unfold specEtrn
  rw [pow_two]

theorem specCoszen_eq (m : MathFns F) (b : bird F) :
    specCoszen m b = m.Cos (b.zenith * m.Pi / 180.0) := by
  unfold specCoszen
  norm_num

theorem specAmass_eq (m : MathFns F) (b : bird F) :
    specAmass m b
      = 1.0 / (m.Cos (b.zenith * m.Pi / 180.0)
          + 0.50572 * m.Pow (96.07995 - b.zenith) (-1.6364)) := by
  unfold specAmass
  rw [specCoszen_eq]
  norm_num

theorem specTOzone_eq (m : MathFns F) (b : bird F) :
    specTOzone m b
      = 1 - 0.1611 * specOz m b * m.Pow (1 + 139.48 * specOz m b) (-0.3034)
        - 0.002715 * specOz m b
          / (1 + 0.044 * specOz m b + 0.0003 * specOz m b * specOz m b) := by
  unfold specTOzone
  rw [pow_two, mul_assoc (0.0003 : F)]

/-- The whole of `Calculate` on the full-model branch, in terms of the reference formulas. -/
theorem Calculate_of_full (m : MathFns F) (b : bird F) (hv : validate b = none)
    (hg : fullGeometry b) :
    Calculate m b =
      (none,
        if b.dniMod ≥ 0 then
          { b with
            amass := specAmass m b
            directNormal := specDirectNormal m b
            globalHoriz := specGlobalHoriz m b (specDirectNormal m b)
            diffuseHoriz := specDiffuseHoriz m b (specDirectNormal m b)
            directNormalMod := specDirectNormal m b * b.dniMod
            globalHorizMod := specGlobalHoriz m b (specDirectNormal m b * b.dniMod)
            diffuseHorizMod := specDiffuseHoriz m b (specDirectNormal m b * b.dniMod) }
        else
          { b with
            amass := specAmass m b
            directNormal := specDirectNormal m b
            globalHoriz := specGlobalHoriz m b (specDirectNormal m b)
            diffuseHoriz := specDiffuseHoriz m b (specDirectNormal m b) }) := by
  unfold fullGeometry at hg
  unfold Calculate
  rw [hv]
  dsimp only
  rw [if_pos hg]
  unfold specDiffuseHoriz specGlobalHoriz specIas specRs specTaa specDirectNormal specTAerosol
    specTWater specTGases specTRayleigh specWat specPress
  simp only [specTOzone_eq, specEtrn_eq, specCoszen_eq]
  unfold specOz
  simp only [specAmass_eq]
  rfl

/-- On success with full geometry the modified outputs are written too: validation has
established `dniMod ≥ 0`. -/
theorem Calculate_of_full_validated (m : MathFns F) (b : bird F) (hv : validated b)
    (hg : fullGeometry b) :
    Calculate m b =
      (none,
        { b with
          amass := specAmass m b
          directNormal := specDirectNormal m b
          globalHoriz := specGlobalHoriz m b (specDirectNormal m b)
          diffuseHoriz := specDiffuseHoriz m b (specDirectNormal m b)
          directNormalMod := specDirectNormal m b * b.dniMod
          globalHorizMod := specGlobalHoriz m b (specDirectNormal m b * b.dniMod)
          diffuseHorizMod := specDiffuseHoriz m b (specDirectNormal m b * b.dniMod) }) := by
  rw [Calculate_of_full m b ((validate_eq_none_iff b).mpr hv) hg]
  have hd : b.dniMod ≥ 0 := hv.2.2.2.2.2.1
  rw [if_pos hd]

theorem exampleInput_validated : validated (exampleInput : bird ℝ) := by
  unfold validated inRange exampleInput
  norm_num

theorem exampleInput_fullGeometry : fullGeometry (exampleInput : bird ℝ) := by
  unfold fullGeometry exampleInput
  norm_num

/-- The reference air mass of the example inputs is positive: the zenith angle is below a
right angle, and the power term is positive. -/
theorem specAmass_negativeDniModInput_pos :
    0 < specAmass realMath (negativeDniModInput : bird ℝ) := by
  unfold specAmass specCoszen negativeDniModInput exampleInput realMath
  dsimp only
  have hpi := Real.pi_pos
  have hcos : 0 < Real.cos (50.11162202402973 * Real.pi / 180) := by
    apply Real.cos_pos_of_mem_Ioo
    constructor <;> linarith
  have hpow : 0 < Real.rpow (96.07995 - 50.11162202402973) (-1.6364) :=
    Real.rpow_pos_of_pos (by norm_num) _
  have hden : 0 < Real.cos (50.11162202402973 * Real.pi / 180)
      + 0.50572 * Real.rpow (96.07995 - 50.11162202402973) (-1.6364) := by
    have := mul_pos (show (0 : ℝ) < 0.50572 by norm_num) hpow
    linarith
  exact one_div_pos.mpr hden

/-- Every branch of `Calculate` leaves the nine inputs as they were. -/
theorem Calculate_sameInputs (m : MathFns F) (b : bird F) : sameInputs (Calculate m b).2 b := by
  cases hv : validate b with
  | some e =>
    rw [Calculate_of_error m b e hv]
    exact ⟨rfl, rfl, rfl, rfl, rfl, rfl, rfl, rfl, rfl⟩
  | none =>
    by_cases hg : fullGeometry b
    · rw [Calculate_of_full m b hv hg]
      by_cases hd : b.dniMod ≥ 0
      · rw [if_pos hd]
        exact ⟨rfl, rfl, rfl, rfl, rfl, rfl, rfl, rfl, rfl⟩
      · rw [if_neg hd]
        exact ⟨rfl, rfl, rfl, rfl, rfl, rfl, rfl, rfl, rfl⟩
    · rw [Calculate_of_degenerate m b hv hg]
      exact ⟨rfl, rfl, rfl, rfl, rfl, rfl, rfl, rfl, rfl⟩

theorem NewBird_eq (m : MathFns F) (zenith r pressure ozone water taua ba albedo dniMod : F) :
    NewBird m zenith r pressure ozone water taua ba albedo dniMod
      = ((Calculate m (freshRecord zenith r pressure ozone water taua ba albedo dniMod)).2,
         (Calculate m (freshRecord zenith r pressure ozone water taua ba albedo dniMod)).1) :=
  rfl

end Lemmas


section Claims

variable {F : Type} [LinearOrderedField F]

/-- C3: when `Calculate` returns an error the record after the call is the record before it:
no output is modified. -/
theorem Calculate_error_state_unchanged (m : MathFns F) (b : bird F)
    (h : (Calculate m b).1 ≠ none) : (Calculate m b).2 = b := by
  rw [Calculate_fst] at h
  cases hv : validate b with
  | none => exact absurd hv h
  | some e => rw [Calculate_of_error m b e hv]

/-- Witness of C3: ozone `-1` on a record with the sun below the horizon and stale outputs
1 to 7: the call fails and the record, stale outputs included, is unchanged (not zeroed). -/
theorem Calculate_error_state_unchanged_witness :
    (Calculate realMath
        (staleOutputs { (exampleInput : bird ℝ) with ozone := -1, zenith := 95 })).1 ≠ none
    ∧ (Calculate realMath
        (staleOutputs { (exampleInput : bird ℝ) with ozone := -1, zenith := 95 })).2
        = staleOutputs { (exampleInput : bird ℝ) with ozone := -1, zenith := 95 } :=
  ⟨by rw [Calculate_fst]; simp [validate, staleOutputs, exampleInput],
   Calculate_error_state_unchanged realMath _
     (by rw [Calculate_fst]; simp [validate, staleOutputs, exampleInput])⟩

/-- C4: with the six validated fields in `[0,100]` and `zenith < 0`, or `zenith ≥ 90`, or
`r ≤ 0`, `Calculate` returns no error and sets all seven outputs to exactly 0, whatever they
held before. -/
theorem Calculate_degenerate_zero (m : MathFns F) (b : bird F) (hv : validated b)
    (hg : b.zenith < 0 ∨ b.zenith ≥ 90 ∨ b.r ≤ 0) :
    (Calculate m b).1 = none
    ∧ (Calculate m b).2.amass = 0
    ∧ (Calculate m b).2.directNormal = 0
    ∧ (Calculate m b).2.globalHoriz = 0
    ∧ (Calculate m b).2.diffuseHoriz = 0
    ∧ (Calculate m b).2.directNormalMod = 0
    ∧ (Calculate m b).2.globalHorizMod = 0
    ∧ (Calculate m b).2.diffuseHorizMod = 0 := by
  have hn : ¬ fullGeometry b := by
    unfold fullGeometry
    rintro ⟨h0, h90, hr⟩
    rcases hg with h | h | h
    · exact absurd h0 (not_le.mpr h)
    · exact absurd h90 (not_lt.mpr h)
    · exact absurd hr (not_lt.mpr h)
  rw [Calculate_of_degenerate m b ((validate_eq_none_iff b).mpr hv) hn]
  exact ⟨rfl, rfl, rfl, rfl, rfl, rfl, rfl, rfl⟩

/-- Witness of C4: the example inputs with zenith exactly 90 and stale outputs 1 to 7. -/
theorem Calculate_degenerate_zero_witness :
    validated (staleOutputs { (exampleInput : bird ℝ) with zenith := 90 })
    ∧ (staleOutputs { (exampleInput : bird ℝ) with zenith := 90 }).zenith ≥ 90
    ∧ (Calculate realMath (staleOutputs { (exampleInput : bird ℝ) with zenith := 90 })).1 = none
    ∧ (Calculate realMath (staleOutputs { (exampleInput : bird ℝ) with zenith := 90 })).2.amass
        = 0
    ∧ (Calculate realMath
        (staleOutputs { (exampleInput : bird ℝ) with zenith := 90 })).2.diffuseHorizMod = 0 :=
  have hv : validated (staleOutputs { (exampleInput : bird ℝ) with zenith := 90 }) :=
    exampleInput_validated
  have hz : (staleOutputs { (exampleInput : bird ℝ) with zenith := 90 }).zenith ≥ 90 :=
    le_refl (90 : ℝ)
  have h := Calculate_degenerate_zero realMath _ hv (Or.inr (Or.inl hz))
  ⟨hv, hz, h.1, h.2.1, h.2.2.2.2.2.2.2⟩

/-- C5: on a validated input with `0 ≤ zenith < 90` and `r > 0`, `Calculate` succeeds and
amass, directNormal, globalHoriz and diffuseHoriz are the values of the reference formulas of
the specification (steps 1 to 9). -/
theorem Calculate_full_reference (m : MathFns F) (b : bird F) (hv : validated b)
    (h0 : 0 ≤ b.zenith) (h90 : b.zenith < 90) (hr : b.r > 0) :
    (Calculate m b).1 = none
    ∧ (Calculate m b).2.amass
        = 1 / (m.Cos (b.zenith * m.Pi / 180) + 0.50572 * m.Pow (96.07995 - b.zenith) (-1.6364))
    ∧ (Calculate m b).2.directNormal
        = 0.9662 * (1367 / b.r ^ 2) * specTAerosol m b * specTWater m b * specTGases m b
            * specTOzone m b * specTRayleigh m b
    ∧ (Calculate m b).2.globalHoriz
        = ((Calculate m b).2.directNormal * specCoszen m b + specIas m b)
            / (1 - b.albedo * specRs m b)
    ∧ (Calculate m b).2.diffuseHoriz
        = (Calculate m b).2.globalHoriz - (Calculate m b).2.directNormal * specCoszen m b := by
  rw [Calculate_of_full_validated m b hv ⟨h0, h90, hr⟩]
  refine ⟨rfl, rfl, ?_, rfl, rfl⟩
  show specDirectNormal m b = _
  unfold specDirectNormal specEtrn
  norm_num

/-- Witness of C5: the call of the example program. -/
theorem Calculate_full_reference_witness :
    validated (exampleInput : bird ℝ)
    ∧ (Calculate realMath (exampleInput : bird ℝ)).1 = none
    ∧ (Calculate realMath (exampleInput : bird ℝ)).2.amass
        = 1 / (Real.cos (50.11162202402973 * Real.pi / 180)
            + 0.50572 * Real.rpow (96.07995 - 50.11162202402973) (-1.6364)) :=
  have h := Calculate_full_reference realMath (exampleInput : bird ℝ) exampleInput_validated
    exampleInput_fullGeometry.1 exampleInput_fullGeometry.2.1 exampleInput_fullGeometry.2.2
  ⟨exampleInput_validated, h.1, h.2.1⟩

/-- In exact arithmetic (a linearly ordered field) the horizontal closure identity holds on a
validated input with `0 ≤ zenith < 90` and `r > 0`: globalHoriz is
directNormal * cos(zenith*pi/180) + diffuseHoriz, and likewise for the modified outputs.  On
`float64` the subtraction and the addition round, and the difference of two infinities is
NaN, so the identity can fail there. -/
theorem Calculate_horizontal_closure_exact (m : MathFns F) (b : bird F) (hv : validated b)
    (h0 : 0 ≤ b.zenith) (h90 : b.zenith < 90) (hr : b.r > 0) :
    (Calculate m b).2.globalHoriz
        = (Calculate m b).2.directNormal * m.Cos (b.zenith * m.Pi / 180)
          + (Calculate m b).2.diffuseHoriz
    ∧ (Calculate m b).2.globalHorizMod
        = (Calculate m b).2.directNormalMod * m.Cos (b.zenith * m.Pi / 180)
          + (Calculate m b).2.diffuseHorizMod := by
  rw [Calculate_of_full_validated m b hv ⟨h0, h90, hr⟩]
  constructor
  · show specGlobalHoriz m b (specDirectNormal m b)
      = specDirectNormal m b * specCoszen m b + specDiffuseHoriz m b (specDirectNormal m b)
    unfold specDiffuseHoriz
    ring
  · show specGlobalHoriz m b (specDirectNormal m b * b.dniMod)
      = specDirectNormal m b * b.dniMod * specCoszen m b
        + specDiffuseHoriz m b (specDirectNormal m b * b.dniMod)
    unfold specDiffuseHoriz
    ring

/-- C7: on a validated input with `0 ≤ zenith < 90` and `r > 0`, after `Calculate`
directNormalMod = directNormal * dniMod, and when dniMod = 1 also
globalHorizMod = globalHoriz and diffuseHorizMod = diffuseHoriz. -/
theorem Calculate_mod_scaling (m : MathFns F) (b : bird F) (hv : validated b)
    (h0 : 0 ≤ b.zenith) (h90 : b.zenith < 90) (hr : b.r > 0) :
    (Calculate m b).2.directNormalMod = (Calculate m b).2.directNormal * b.dniMod
    ∧ (b.dniMod = 1 →
        (Calculate m b).2.globalHorizMod = (Calculate m b).2.globalHoriz
        ∧ (Calculate m b).2.diffuseHorizMod = (Calculate m b).2.diffuseHoriz) := by
  rw [Calculate_of_full_validated m b hv ⟨h0, h90, hr⟩]
  refine ⟨rfl, fun h1 => ?_⟩
  dsimp only
  rw [h1, mul_one]
  exact ⟨rfl, rfl⟩

/-- Witness of C7: the example inputs with dniMod set to 1. -/
theorem Calculate_mod_scaling_witness :
    validated { (exampleInput : bird ℝ) with dniMod := 1 }
    ∧ (Calculate realMath { (exampleInput : bird ℝ) with dniMod := 1 }).2.directNormalMod
        = (Calculate realMath { (exampleInput : bird ℝ) with dniMod := 1 }).2.directNormal * 1
    ∧ (Calculate realMath { (exampleInput : bird ℝ) with dniMod := 1 }).2.globalHorizMod
        = (Calculate realMath { (exampleInput : bird ℝ) with dniMod := 1 }).2.globalHoriz
    ∧ (Calculate realMath { (exampleInput : bird ℝ) with dniMod := 1 }).2.diffuseHorizMod
        = (Calculate realMath { (exampleInput : bird ℝ) with dniMod := 1 }).2.diffuseHoriz :=
  have hv : validated { (exampleInput : bird ℝ) with dniMod := 1 } := by
    unfold validated inRange exampleInput
    norm_num
  have h := Calculate_mod_scaling realMath { (exampleInput : bird ℝ) with dniMod := 1 } hv
    exampleInput_fullGeometry.1 exampleInput_fullGeometry.2.1 exampleInput_fullGeometry.2.2
  ⟨hv, h.1, (h.2 rfl).1, (h.2 rfl).2⟩

/-- C8 as stated fails: on the example inputs with dniMod = -1 (the other five validated fields
in range, `0 ≤ zenith < 90`, `r > 0`, fresh record) `Calculate` returns the dniMod error and
amass is not the full-model value: it is still 0, while the reference air mass is positive. -/
theorem Calculate_negative_dniMod_not_computed :
    (negativeDniModInput : bird ℝ).dniMod < 0
    ∧ inRange (negativeDniModInput : bird ℝ).ozone
    ∧ inRange (negativeDniModInput : bird ℝ).water
    ∧ inRange (negativeDniModInput : bird ℝ).taua
    ∧ inRange (negativeDniModInput : bird ℝ).ba
    ∧ inRange (negativeDniModInput : bird ℝ).albedo
    ∧ fullGeometry (negativeDniModInput : bird ℝ)
    ∧ (Calculate realMath (negativeDniModInput : bird ℝ)).1
        = some "invalid direct normal irradiance modification factor"
    ∧ (Calculate realMath (negativeDniModInput : bird ℝ)).2.amass = 0
    ∧ (Calculate realMath (negativeDniModInput : bird ℝ)).2.amass
        ≠ specAmass realMath (negativeDniModInput : bird ℝ) := by
  have hv : validate (negativeDniModInput : bird ℝ)
      = some "invalid direct normal irradiance modification factor" := by
    unfold validate negativeDniModInput exampleInput
    norm_num
  have hc := Calculate_of_error realMath (negativeDniModInput : bird ℝ) _ hv
  have ha : (Calculate realMath (negativeDniModInput : bird ℝ)).2.amass = 0 := by
    rw [hc]
    rfl
  refine ⟨?_, ?_, ?_, ?_, ?_, ?_, ?_, ?_, ha, ?_⟩
  · unfold negativeDniModInput; norm_num
  · unfold inRange negativeDniModInput exampleInput; norm_num
  · unfold inRange negativeDniModInput exampleInput; norm_num
  · unfold inRange negativeDniModInput exampleInput; norm_num
  · unfold inRange negativeDniModInput exampleInput; norm_num
  · unfold inRange negativeDniModInput exampleInput; norm_num
  · exact exampleInput_fullGeometry
  · rw [hc]
  · rw [ha]
    exact ne_of_lt specAmass_negativeDniModInput_pos

/-- C8, amended: a negative dniMod is rejected by validation.  With dniMod < 0 and the other
five validated fields in `[0,100]`, whatever zenith and r, `Calculate` returns the dniMod error
and leaves the whole record, all seven outputs included, as it was. -/
theorem Calculate_negative_dniMod_rejected (m : MathFns F) (b : bird F) (hd : b.dniMod < 0)
    (ho : inRange b.ozone) (hw : inRange b.water) (ht : inRange b.taua) (hb : inRange b.ba)
    (ha : inRange b.albedo) :
    (Calculate m b).1 = some "invalid direct normal irradiance modification factor"
    ∧ (Calculate m b).2 = b := by
  have hv : validate b = some "invalid direct normal irradiance modification factor" := by
    unfold validate
    simp only [← not_inRange_iff]
    rw [if_neg (not_not.mpr ho), if_neg (not_not.mpr hw), if_neg (not_not.mpr ht),
      if_neg (not_not.mpr hb), if_neg (not_not.mpr ha),
      if_pos ((not_inRange_iff _).mpr (Or.inl hd))]
  rw [Calculate_of_error m b _ hv]
  exact ⟨rfl, rfl⟩

/-- Witness of the amended C8: the example inputs with dniMod = -1 and stale outputs 1 to 7. -/
theorem Calculate_negative_dniMod_rejected_witness :
    (staleOutputs (negativeDniModInput : bird ℝ)).dniMod < 0
    ∧ (Calculate realMath (staleOutputs (negativeDniModInput : bird ℝ))).1
        = some "invalid direct normal irradiance modification factor"
    ∧ (Calculate realMath (staleOutputs (negativeDniModInput : bird ℝ))).2
        = staleOutputs (negativeDniModInput : bird ℝ) :=
  have hd : (staleOutputs (negativeDniModInput : bird ℝ)).dniMod < 0 := by
    unfold staleOutputs negativeDniModInput
    norm_num
  have h := Calculate_negative_dniMod_rejected realMath
    (staleOutputs (negativeDniModInput : bird ℝ)) hd
    exampleInput_validated.1 exampleInput_validated.2.1 exampleInput_validated.2.2.1
    exampleInput_validated.2.2.2.1 exampleInput_validated.2.2.2.2.1
  ⟨hd, h.1, h.2⟩

/-- C10: running `Calculate` twice in a row gives the same error result and the same record
as running it once. -/
theorem Calculate_idempotent (m : MathFns F) (b : bird F) :
    Calculate m (Calculate m b).2 = Calculate m b := by
  cases hv : validate b with
  | some e =>
    rw [Calculate_of_error m b e hv]
    exact Calculate_of_error m b e hv
  | none =>
    by_cases hg : fullGeometry b
    · rw [Calculate_of_full m b hv hg]
      by_cases hd : b.dniMod ≥ 0
      · rw [if_pos hd]
        refine (Calculate_of_full m _ ?_ ?_).trans ?_
        · exact hv
        · exact hg
        · dsimp only
          rw [if_pos hd]
          rfl
      · rw [if_neg hd]
        refine (Calculate_of_full m _ ?_ ?_).trans ?_
        · exact hv
        · exact hg
        · dsimp only
          rw [if_neg hd]
          rfl
    · rw [Calculate_of_degenerate m b hv hg]
      exact Calculate_of_degenerate m (zeroOutputs b) hv hg

/-- C14: amass is not pressure corrected: two validated inputs with the same zenith,
`0 ≤ zenith < 90`, and both with `r > 0`, get the same amass from `Calculate`, whatever their
pressure, r, ozone, water, taua, ba, albedo and dniMod. -/
theorem Calculate_amass_zenith_only (m : MathFns F) (b c : bird F) (hb : validated b)
    (hc : validated c) (hz : b.zenith = c.zenith) (h0 : 0 ≤ b.zenith) (h90 : b.zenith < 90)
    (hrb : b.r > 0) (hrc : c.r > 0) :
    (Calculate m b).2.amass = (Calculate m c).2.amass := by
  have hgc : fullGeometry c := ⟨hz ▸ h0, hz ▸ h90, hrc⟩
  rw [Calculate_of_full_validated m b hb ⟨h0, h90, hrb⟩, Calculate_of_full_validated m c hc hgc]
  show specAmass m b = specAmass m c
  unfold specAmass specCoszen
  rw [hz]

/-- Witness of C14: the example inputs, and the same zenith with every other input changed. -/
theorem Calculate_amass_zenith_only_witness :
    (exampleInput : bird ℝ).pressure
        ≠ (freshRecord 50.11162202402973 1 1013 0.1 3 0.2 0.5 0.9 1 : bird ℝ).pressure
    ∧ (Calculate realMath (exampleInput : bird ℝ)).2.amass
        = (Calculate realMath
            (freshRecord 50.11162202402973 1 1013 0.1 3 0.2 0.5 0.9 1 : bird ℝ)).2.amass :=
  ⟨by unfold exampleInput freshRecord; norm_num,
   Calculate_amass_zenith_only realMath (exampleInput : bird ℝ)
     (freshRecord 50.11162202402973 1 1013 0.1 3 0.2 0.5 0.9 1) exampleInput_validated
     (by unfold validated inRange freshRecord; norm_num) rfl
     exampleInput_fullGeometry.1 exampleInput_fullGeometry.2.1 exampleInput_fullGeometry.2.2
     (by unfold freshRecord; norm_num)⟩

/-- C16: `NewBird` stores its nine arguments in the like-named input fields, in order (each
getter returns its argument), and its result is that of `Calculate` on the record with those
inputs and all seven outputs zero: the record after that call and its error, which is an error
exactly when the six validated arguments are not all in `[0,100]`. -/
theorem NewBird_stores_and_calculates (m : MathFns F)
    (zenith r pressure ozone water taua ba albedo dniMod : F) :
    GetZenith (NewBird m zenith r pressure ozone water taua ba albedo dniMod).1 = zenith
    ∧ GetR (NewBird m zenith r pressure ozone water taua ba albedo dniMod).1 = r
    ∧ GetPressure (NewBird m zenith r pressure ozone water taua ba albedo dniMod).1 = pressure
    ∧ GetOzone (NewBird m zenith r pressure ozone water taua ba albedo dniMod).1 = ozone
    ∧ GetWater (NewBird m zenith r pressure ozone water taua ba albedo dniMod).1 = water
    ∧ GetTaua (NewBird m zenith r pressure ozone water taua ba albedo dniMod).1 = taua
    ∧ GetBa (NewBird m zenith r pressure ozone water taua ba albedo dniMod).1 = ba
    ∧ GetAlbedo (NewBird m zenith r pressure ozone water taua ba albedo dniMod).1 = albedo
    ∧ GetDniMod (NewBird m zenith r pressure ozone water taua ba albedo dniMod).1 = dniMod
    ∧ (NewBird m zenith r pressure ozone water taua ba albedo dniMod).1
        = (Calculate m (freshRecord zenith r pressure ozone water taua ba albedo dniMod)).2
    ∧ (NewBird m zenith r pressure ozone water taua ba albedo dniMod).2
        = (Calculate m (freshRecord zenith r pressure ozone water taua ba albedo dniMod)).1
    ∧ ((NewBird m zenith r pressure ozone water taua ba albedo dniMod).2 ≠ none
        ↔ ¬ (inRange ozone ∧ inRange water ∧ inRange taua ∧ inRange ba ∧ inRange albedo
              ∧ inRange dniMod)) := by
  rw [NewBird_eq]
  obtain ⟨h1, h2, h3, h4, h5, h6, h7, h8, h9⟩ :=
    Calculate_sameInputs m (freshRecord zenith r pressure ozone water taua ba albedo dniMod)
  refine ⟨h1, h2, h3, h4, h5, h6, h7, h8, h9, rfl, rfl, ?_⟩
  show (Calculate m _).1 ≠ none ↔ _
  rw [Calculate_fst, Ne, validate_eq_none_iff]
  rfl

/-- C18: `Calculate` never modifies an input: on every record, whichever branch is taken, the
nine input fields after the call are those before it. -/
theorem Calculate_keeps_inputs (m : MathFns F) (b : bird F) :
    (Calculate m b).2.zenith = b.zenith ∧ (Calculate m b).2.r = b.r
    ∧ (Calculate m b).2.pressure = b.pressure ∧ (Calculate m b).2.ozone = b.ozone
    ∧ (Calculate m b).2.water = b.water ∧ (Calculate m b).2.taua = b.taua
    ∧ (Calculate m b).2.ba = b.ba ∧ (Calculate m b).2.albedo = b.albedo
    ∧ (Calculate m b).2.dniMod = b.dniMod :=
  Calculate_sameInputs m b

end Claims

section AccessorClaims

variable {F : Type}

/-- C17: setters do not recompute: each of the nine setters makes its own getter return the
value set, and leaves the other eight input getters and all seven output getters returning
what they returned before. -/
theorem setter_changes_own_field_only (b : bird F) (v : F) :
    (∀ i j : Fin 9,
      inputGetter j (setter i b v) = if j = i then v else inputGetter j b)
    ∧ (∀ (i : Fin 9) (k : Fin 7), outputGetter k (setter i b v) = outputGetter k b) := by
  constructor
  · intro i j
    fin_cases i <;> fin_cases j <;> rfl
  · intro i k
    fin_cases i <;> fin_cases k <;> rfl

end AccessorClaims

section IntervalLemmas

/-- Bounds on a product of two bounded nonnegative quantities. -/
theorem mul_between (x y xl xu yl yu L U : ℝ) (hxl : 0 ≤ xl) (hyl : 0 ≤ yl)
    (hx : xl ≤ x ∧ x ≤ xu) (hy : yl ≤ y ∧ y ≤ yu) (hL : L ≤ xl * yl) (hU : xu * yu ≤ U) :
    L ≤ x * y ∧ x * y ≤ U :=
  ⟨le_trans hL (mul_le_mul hx.1 hy.1 hyl (le_trans hxl hx.1)),
   le_trans (mul_le_mul hx.2 hy.2 (le_trans hyl hy.1) (le_trans hxl (le_trans hx.1 hx.2))) hU⟩

/-- Bounds on a quotient of a bounded nonnegative quantity by a bounded positive one. -/
theorem div_between (x y xl xu yl yu L U : ℝ) (hxl : 0 ≤ xl) (hyl : 0 < yl)
    (hx : xl ≤ x ∧ x ≤ xu) (hy : yl ≤ y ∧ y ≤ yu) (hL : L ≤ xl / yu) (hU : xu / yl ≤ U) :
    L ≤ x / y ∧ x / y ≤ U := by
  have hy0 : 0 < y := lt_of_lt_of_le hyl hy.1
  have hx0 : 0 ≤ x := le_trans hxl hx.1
  constructor
  · exact le_trans hL (div_le_div₀ hx0 hx.1 hy0 hy.2)
  · exact le_trans (div_le_div₀ (le_trans hx0 hx.2) hx.2 hyl hy.1) hU

/-- Bounds on a rational power `x^(p/q)` of a bounded base, from `L^q ≤ xl^p` and
`xu^p ≤ U^q`. -/
theorem rpow_between (x xl xu L U e : ℝ) (p q : ℕ) (hq : q ≠ 0) (he : e = (p : ℝ) / (q : ℝ))
    (hxl : 0 ≤ xl) (hx : xl ≤ x ∧ x ≤ xu) (hL : 0 ≤ L) (hLq : L ^ q ≤ xl ^ p) (hU : 0 ≤ U)
    (hUq : xu ^ p ≤ U ^ q) :
    L ≤ Real.rpow x e ∧ Real.rpow x e ≤ U := by
  have hx0 : 0 ≤ x := le_trans hxl hx.1
  have hroot : Real.rpow x e = (x ^ p) ^ ((q : ℝ)⁻¹) := by
    rw [Real.rpow_eq_pow, he, div_eq_mul_inv, Real.rpow_mul hx0, Real.rpow_natCast]
  have hq0 : (0 : ℝ) ≤ (q : ℝ)⁻¹ := by positivity
  rw [hroot]
  constructor
  · have h3 : L ^ q ≤ x ^ p := le_trans hLq (pow_le_pow_left₀ hxl hx.1 p)
    have h4 := Real.rpow_le_rpow (by positivity) h3 hq0
    rwa [Real.pow_rpow_inv_natCast hL hq] at h4
  · have h3 : x ^ p ≤ U ^ q := le_trans (pow_le_pow_left₀ hx0 hx.2 p) hUq
    have h4 := Real.rpow_le_rpow (by positivity) h3 hq0
    rwa [Real.pow_rpow_inv_natCast hU hq] at h4

/-- Bounds on a negative rational power `x^(-(p/q))` of a bounded positive base: the
reciprocals of bounds `Lp ≤ x^(p/q) ≤ Up`. -/
theorem rpow_neg_between (x xl xu Lp Up L U e : ℝ) (p q : ℕ) (hq : q ≠ 0)
    (he : e = -((p : ℝ) / (q : ℝ))) (hxl : 0 < xl) (hx : xl ≤ x ∧ x ≤ xu) (hLp : 0 < Lp)
    (hLq : Lp ^ q ≤ xl ^ p) (hUp : 0 ≤ Up) (hUq : xu ^ p ≤ Up ^ q) (hL : L ≤ 1 / Up)
    (hU : 1 / Lp ≤ U) :
    L ≤ Real.rpow x e ∧ Real.rpow x e ≤ U := by
  have hx0 : 0 ≤ x := le_trans hxl.le hx.1
  have hb := rpow_between x xl xu Lp Up ((p : ℝ) / (q : ℝ)) p q hq rfl hxl.le hx hLp.le hLq hUp hUq
  have hpos : 0 < Real.rpow x ((p : ℝ) / (q : ℝ)) := lt_of_lt_of_le hLp hb.1
  have hneg : Real.rpow x e = (Real.rpow x ((p : ℝ) / (q : ℝ)))⁻¹ := by
    rw [Real.rpow_eq_pow, Real.rpow_eq_pow, he, Real.rpow_neg hx0]
  rw [hneg, ← one_div]
  constructor
  · exact le_trans hL (one_div_le_one_div_of_le hpos hb.2)
  · exact le_trans (one_div_le_one_div_of_le hLp hb.1) hU

/-- The exponential differs from its degree 7 Taylor polynomial by at most
`t^8 * 9/322560` on `[-1,1]`. -/
theorem exp_taylor_bound (t : ℝ) (h1 : -1 ≤ t) (h2 : t ≤ 1) :
    |Real.exp t - expTaylor t| ≤ t ^ 8 * (9 / 322560) := by
  have ht : |t| ≤ 1 := abs_le.mpr ⟨h1, h2⟩
  have h := Real.exp_bound ht (n := 8) (by norm_num)
  have hs : (∑ m ∈ Finset.range 8, t ^ m / (m.factorial : ℝ)) = expTaylor t := by
    unfold expTaylor
    simp [Finset.sum_range_succ, Nat.factorial]
  have h8 : |t| ^ 8 = t ^ 8 := Even.pow_abs (by decide) t
  rw [hs, h8] at h
  norm_num [Nat.factorial] at h
  linarith

/-- Bounds on the exponential of a bounded argument, from the Taylor polynomial at the two
bounds of the argument. -/
theorem exp_between (y yl yu L U : ℝ) (hy : yl ≤ y ∧ y ≤ yu) (hl : -1 ≤ yl) (hu : yu ≤ 1)
    (hL : L ≤ expTaylor yl - yl ^ 8 * (9 / 322560))
    (hU : expTaylor yu + yu ^ 8 * (9 / 322560) ≤ U) :
    L ≤ Real.exp y ∧ Real.exp y ≤ U := by
  have hyl1 : yl ≤ 1 := le_trans (le_trans hy.1 hy.2) hu
  have hyu1 : -1 ≤ yu := le_trans hl (le_trans hy.1 hy.2)
  have a1 := abs_le.mp (exp_taylor_bound yl hl hyl1)
  have a2 := abs_le.mp (exp_taylor_bound yu hyu1 hu)
  have m1 : Real.exp yl ≤ Real.exp y := Real.exp_le_exp.mpr hy.1
  have m2 : Real.exp y ≤ Real.exp yu := Real.exp_le_exp.mpr hy.2
  constructor <;> linarith [a1.1, a1.2, a2.1, a2.2]

/-- One angle doubling: bounds on `cos x` give bounds on `cos (2x)`. -/
theorem cos_double_between (x l u L U : ℝ) (hl0 : 0 ≤ l) (h : l ≤ Real.cos x ∧ Real.cos x ≤ u)
    (hL : L ≤ 2 * l ^ 2 - 1) (hU : 2 * u ^ 2 - 1 ≤ U) :
    L ≤ Real.cos (2 * x) ∧ Real.cos (2 * x) ≤ U := by
  rw [Real.cos_two_mul]
  have h1 : l ^ 2 ≤ Real.cos x ^ 2 := pow_le_pow_left₀ hl0 h.1 2
  have h2 : Real.cos x ^ 2 ≤ u ^ 2 := pow_le_pow_left₀ (le_trans hl0 h.1) h.2 2
  constructor <;> linarith

/-- Bounds on the cosine of a small bounded angle. -/
theorem cos_small_between (t tl tu : ℝ) (h0 : 0 ≤ tl) (h1 : tl ≤ t) (h2 : t ≤ tu) (h3 : tu ≤ 1) :
    1 - tu ^ 2 / 2 - tu ^ 4 * (5 / 96) ≤ Real.cos t
    ∧ Real.cos t ≤ 1 - tl ^ 2 / 2 + tu ^ 4 * (5 / 96) := by
  have ht0 : 0 ≤ t := le_trans h0 h1
  have habs : |t| = t := abs_of_nonneg ht0
  have hb := Real.cos_bound (x := t) (by rw [habs]; linarith)
  rw [habs] at hb
  have hb2 := abs_le.mp hb
  have p2l : tl ^ 2 ≤ t ^ 2 := pow_le_pow_left₀ h0 h1 2
  have p2u : t ^ 2 ≤ tu ^ 2 := pow_le_pow_left₀ ht0 h2 2
  have p4u : t ^ 4 ≤ tu ^ 4 := pow_le_pow_left₀ ht0 h2 4
  constructor <;> linarith [hb2.1, hb2.2]

end IntervalLemmas

section RealLemmas

/-- The cosine of a zenith angle in `[0, 90)` degrees is positive. -/
theorem specCoszen_pos (b : bird ℝ) (h0 : 0 ≤ b.zenith) (h90 : b.zenith < 90) :
    0 < specCoszen realMath b := by
  unfold specCoszen realMath
  dsimp only
  have hpi := Real.pi_pos
  apply Real.cos_pos_of_mem_Ioo
  constructor
  · have : 0 ≤ b.zenith * Real.pi / 180 := by positivity
    linarith
  · have : b.zenith * Real.pi < 90 * Real.pi := mul_lt_mul_of_pos_right h90 hpi
    linarith

/-- The denominator of the air mass is positive for a zenith angle in `[0, 90)`. -/
theorem specAmass_denominator_pos (b : bird ℝ) (h0 : 0 ≤ b.zenith) (h90 : b.zenith < 90) :
    0 < specCoszen realMath b + 0.50572 * realMath.Pow (96.07995 - b.zenith) (-1.6364) := by
  have hc := specCoszen_pos b h0 h90
  have hp : 0 < Real.rpow (96.07995 - b.zenith) (-1.6364) :=
    Real.rpow_pos_of_pos (by linarith) _
  have : 0 < 0.50572 * Real.rpow (96.07995 - b.zenith) (-1.6364) :=
    mul_pos (by norm_num) hp
  show 0 < specCoszen realMath b + 0.50572 * Real.rpow (96.07995 - b.zenith) (-1.6364)
  linarith

theorem specAmass_pos (b : bird ℝ) (h0 : 0 ≤ b.zenith) (h90 : b.zenith < 90) :
    0 < specAmass realMath b := by
  unfold specAmass
  exact one_div_pos.mpr (specAmass_denominator_pos b h0 h90)

/-- For a positive base and an exponent at least 1, `1 - a + a^e` is positive. -/
theorem one_sub_add_rpow_pos (a e : ℝ) (ha : 0 < a) (he : 1 ≤ e) : 0 < 1 - a + Real.rpow a e := by
  have hp : 0 < Real.rpow a e := Real.rpow_pos_of_pos ha e
  rcases le_or_lt a 1 with h | h
  · linarith
  · have h1 : Real.rpow a 1 ≤ Real.rpow a e := Real.rpow_le_rpow_of_exponent_le h.le he
    have h2 : Real.rpow a 1 = a := Real.rpow_one a
    linarith

/-- For `t ≥ 0` and an exponent in `[0,1]`, `t^e ≤ 1 + t`. -/
theorem one_add_sub_rpow_nonneg (t e : ℝ) (ht : 0 ≤ t) (he0 : 0 ≤ e) (he1 : e ≤ 1) :
    0 ≤ 1 + t - Real.rpow t e := by
  rcases le_or_lt t 1 with h | h
  · have : Real.rpow t e ≤ 1 := Real.rpow_le_one ht h he0
    linarith
  · have h1 : Real.rpow t e ≤ Real.rpow t 1 := Real.rpow_le_rpow_of_exponent_le h.le he1
    have h2 : Real.rpow t 1 = t := Real.rpow_one t
    linarith

/-- The aerosol transmittance lies in `(0,1]` when `taua ≥ 0` and `0 ≤ zenith < 90`. -/
theorem specTAerosol_mem (b : bird ℝ) (ht : 0 ≤ b.taua) (h0 : 0 ≤ b.zenith)
    (h90 : b.zenith < 90) :
    0 < specTAerosol realMath b ∧ specTAerosol realMath b ≤ 1 := by
  unfold specTAerosol
  show 0 < Real.exp _ ∧ Real.exp _ ≤ 1
  refine ⟨Real.exp_pos _, Real.exp_le_one_iff.mpr ?_⟩
  have h1 : 0 ≤ realMath.Pow b.taua 0.873 := Real.rpow_nonneg ht _
  have h2 : 0 ≤ 1 + b.taua - realMath.Pow b.taua 0.7088 :=
    one_add_sub_rpow_nonneg b.taua 0.7088 ht (by norm_num) (by norm_num)
  have h3 : 0 ≤ realMath.Pow (specAmass realMath b) 0.9108 :=
    Real.rpow_nonneg (specAmass_pos b h0 h90).le _
  have h4 := mul_nonneg (mul_nonneg h1 h2) h3
  linarith

/-- The water-vapour transmittance lies in `(0,1]` when `water ≥ 0` and `0 ≤ zenith < 90`. -/
theorem specTWater_mem (b : bird ℝ) (hw : 0 ≤ b.water) (h0 : 0 ≤ b.zenith)
    (h90 : b.zenith < 90) :
    0 < specTWater realMath b ∧ specTWater realMath b ≤ 1 := by
  have hwat : 0 ≤ specWat realMath b := mul_nonneg hw (specAmass_pos b h0 h90).le
  have hp : 1 ≤ realMath.Pow (1 + 79.034 * specWat realMath b) 0.6828 :=
    Real.one_le_rpow (by linarith) (by norm_num)
  have hD : 0 < realMath.Pow (1 + 79.034 * specWat realMath b) 0.6828
      + 6.385 * specWat realMath b := by linarith
  unfold specTWater
  constructor
  · have : 2.4959 * specWat realMath b / (realMath.Pow (1 + 79.034 * specWat realMath b) 0.6828
        + 6.385 * specWat realMath b) < 1 := by
      rw [div_lt_one hD]
      linarith
    linarith
  · have : 0 ≤ 2.4959 * specWat realMath b / (realMath.Pow (1 + 79.034 * specWat realMath b) 0.6828
        + 6.385 * specWat realMath b) := div_nonneg (by linarith) hD.le
    linarith

/-- The ozone transmittance is at most 1 when `ozone ≥ 0` and `0 ≤ zenith < 90`. -/
theorem specTOzone_le_one (b : bird ℝ) (ho : 0 ≤ b.ozone) (h0 : 0 ≤ b.zenith)
    (h90 : b.zenith < 90) : specTOzone realMath b ≤ 1 := by
  have hoz : 0 ≤ specOz realMath b := mul_nonneg ho (specAmass_pos b h0 h90).le
  have h1 : 0 ≤ realMath.Pow (1 + 139.48 * specOz realMath b) (-0.3034) :=
    Real.rpow_nonneg (by linarith) _
  have h2 : 0 ≤ 0.1611 * specOz realMath b
      * realMath.Pow (1 + 139.48 * specOz realMath b) (-0.3034) :=
    mul_nonneg (by linarith) h1
  have h3 : 0 ≤ 0.002715 * specOz realMath b
      / (1 + 0.044 * specOz realMath b + 0.0003 * specOz realMath b ^ 2) :=
    div_nonneg (by linarith) (by positivity)
  unfold specTOzone
  linarith

/-- A lower bound on a hundredth power: `c ≤ x^0.01` as soon as `c^100 ≤ x`. -/
theorem le_rpow_hundredth (c x : ℝ) (hc : 0 ≤ c) (h : c ^ 100 ≤ x) : c ≤ Real.rpow x 0.01 := by
  have h1 : (c ^ 100) ^ (((100 : ℕ) : ℝ)⁻¹) = c := Real.pow_rpow_inv_natCast hc (by norm_num)
  have h2 : (c ^ 100) ^ (((100 : ℕ) : ℝ)⁻¹) ≤ x ^ (((100 : ℕ) : ℝ)⁻¹) :=
    Real.rpow_le_rpow (by positivity) h (by positivity)
  have h3 : (((100 : ℕ) : ℝ)⁻¹) = 0.01 := by norm_num
  rw [h1, h3] at h2
  exact h2

/-- An upper bound on a hundredth power: `x^0.01 ≤ c` as soon as `x ≤ c^100`. -/
theorem rpow_hundredth_le (c x : ℝ) (hc : 0 ≤ c) (hx : 0 ≤ x) (h : x ≤ c ^ 100) :
    Real.rpow x 0.01 ≤ c := by
  have h1 : (c ^ 100) ^ (((100 : ℕ) : ℝ)⁻¹) = c := Real.pow_rpow_inv_natCast hc (by norm_num)
  have h2 : x ^ (((100 : ℕ) : ℝ)⁻¹) ≤ (c ^ 100) ^ (((100 : ℕ) : ℝ)⁻¹) :=
    Real.rpow_le_rpow hx h (by positivity)
  have h3 : (((100 : ℕ) : ℝ)⁻¹) = 0.01 := by norm_num
  rw [h1, h3] at h2
  exact h2

theorem rpow_one_hundredth_split (p : ℝ) (hp : 0 < p) :
    Real.rpow p 1.01 = p * Real.rpow p 0.01 := by
  have h : (1.01 : ℝ) = 1 + 0.01 := by norm_num
  rw [Real.rpow_eq_pow, Real.rpow_eq_pow, h, Real.rpow_add hp, Real.rpow_one]

/-- The Rayleigh bracket `1 + p - p^1.01` is negative for `p ≥ 31`. -/
theorem rayleigh_bracket_neg (p : ℝ) (h : 31 ≤ p) : 1 + p - Real.rpow p 1.01 < 0 := by
  have hp : 0 < p := by linarith
  have h1 : 1.033 ≤ Real.rpow p 0.01 :=
    le_rpow_hundredth 1.033 p (by norm_num) (le_trans (by norm_num) h)
  have h2 : p * 1.033 ≤ p * Real.rpow p 0.01 := mul_le_mul_of_nonneg_left h1 hp.le
  rw [rpow_one_hundredth_split p hp]
  linarith

/-- The Rayleigh transmittance exceeds 1 once the pressure path `press` is at least 31. -/
theorem specTRayleigh_gt_one_of_ge (b : bird ℝ) (h : 31 ≤ specPress realMath b) :
    1 < specTRayleigh realMath b := by
  unfold specTRayleigh
  show 1 < Real.exp _
  rw [Real.one_lt_exp_iff]
  have h1 : 0 < realMath.Pow (specPress realMath b) 0.84 :=
    Real.rpow_pos_of_pos (by linarith) _
  have h2 : 1 + specPress realMath b - realMath.Pow (specPress realMath b) 1.01 < 0 :=
    rayleigh_bracket_neg _ h
  have h3 : 0 < realMath.Pow (specPress realMath b) 0.84
      * -(1 + specPress realMath b - realMath.Pow (specPress realMath b) 1.01) :=
    mul_pos h1 (by linarith)
  linarith

/-- The first ozone term `0.1611*oz*(1+139.48*oz)^(-0.3034)` exceeds 1 once `oz ≥ 1000`. -/
theorem ozone_term_gt_one (x : ℝ) (hx : 1000 ≤ x) :
    1 < 0.1611 * x * Real.rpow (1 + 139.48 * x) (-0.3034) := by
  have hB : (0 : ℝ) < 1 + 139.48 * x := by linarith
  have hB2 : 1 + 139.48 * x ≤ 140 * x := by linarith
  have h140 : (1 : ℝ) ≤ 140 * x := by linarith
  have h140pos : (0 : ℝ) ≤ 140 * x := by linarith
  have s1 : (140 * x) ^ (-0.3034 : ℝ) ≤ (1 + 139.48 * x) ^ (-0.3034 : ℝ) :=
    Real.rpow_le_rpow_of_exponent_nonpos hB hB2 (by norm_num)
  have s2 : (140 * x) ^ (-(1 / 3) : ℝ) ≤ (140 * x) ^ (-0.3034 : ℝ) :=
    Real.rpow_le_rpow_of_exponent_le h140 (by norm_num)
  have hy0 : 0 < (140 * x) ^ (1 / 3 : ℝ) := Real.rpow_pos_of_pos (by linarith) _
  have hy3 : ((140 * x) ^ (1 / 3 : ℝ)) ^ 3 = 140 * x := by
    rw [← Real.rpow_natCast, ← Real.rpow_mul h140pos]
    norm_num
  have hy30 : 30 ≤ (140 * x) ^ (1 / 3 : ℝ) := by
    by_contra hlt
    have hlt2 : (140 * x) ^ (1 / 3 : ℝ) < 30 := not_le.mp hlt
    have h3 : ((140 * x) ^ (1 / 3 : ℝ)) ^ 3 < 30 ^ 3 :=
      pow_lt_pow_left₀ hlt2 hy0.le (by norm_num)
    rw [hy3] at h3
    norm_num at h3
    linarith
  have s3 : (140 * x) ^ (-(1 / 3) : ℝ) = ((140 * x) ^ (1 / 3 : ℝ))⁻¹ :=
    Real.rpow_neg h140pos _
  have hx0 : 0 ≤ 0.1611 * x := by linarith
  have s4 : 0.1611 * x * ((140 * x) ^ (1 / 3 : ℝ))⁻¹
      ≤ 0.1611 * x * (1 + 139.48 * x) ^ (-0.3034 : ℝ) :=
    mul_le_mul_of_nonneg_left (by rw [← s3]; exact le_trans s2 s1) hx0
  have s5 : 1 < 0.1611 * x * ((140 * x) ^ (1 / 3 : ℝ))⁻¹ := by
    have hxy : x = ((140 * x) ^ (1 / 3 : ℝ)) ^ 3 / 140 := by rw [hy3]; ring
    have hsq : x * ((140 * x) ^ (1 / 3 : ℝ))⁻¹ = ((140 * x) ^ (1 / 3 : ℝ)) ^ 2 / 140 := by
      nth_rewrite 1 [hxy]
      field_simp
      ring
    have h900 : (900 : ℝ) ≤ ((140 * x) ^ (1 / 3 : ℝ)) ^ 2 := by nlinarith
    rw [mul_assoc, hsq]
    linarith
  exact lt_of_lt_of_le s5 s4

/-- With the sun half a degree above the horizon the air mass is at least 31. -/
theorem specAmass_extremeInput_ge : 31 ≤ specAmass realMath (extremeInput : bird ℝ) := by
  have hpos := specAmass_denominator_pos (extremeInput : bird ℝ)
    (by unfold extremeInput; norm_num) (by unfold extremeInput; norm_num)
  have hcos : specCoszen realMath (extremeInput : bird ℝ) ≤ 0.00875 := by
    show Real.cos (89.5 * Real.pi / 180) ≤ 0.00875
    have h1 : Real.cos (89.5 * Real.pi / 180) = Real.sin (Real.pi / 360) := by
      rw [← Real.sin_pi_div_two_sub]
      congr 1
      ring
    have h2 : Real.sin (Real.pi / 360) < Real.pi / 360 :=
      Real.sin_lt (by have := Real.pi_pos; positivity)
    have h3 := Real.pi_lt_d2
    rw [h1]
    linarith
  have hbase : 6.57995 ≤ (96.07995 : ℝ) - (extremeInput : bird ℝ).zenith
      ∧ (96.07995 : ℝ) - (extremeInput : bird ℝ).zenith ≤ 6.57995 := by
    unfold extremeInput
    norm_num
  have hpow : 0.045 ≤ realMath.Pow (96.07995 - (extremeInput : bird ℝ).zenith) (-1.6364)
      ∧ realMath.Pow (96.07995 - (extremeInput : bird ℝ).zenith) (-1.6364) ≤ 0.0463 :=
    rpow_neg_between _ 6.57995 6.57995 21.6 22 0.045 0.0463 (-1.6364) 4091 2500
      (by norm_num) (by norm_num) (by norm_num) hbase (by norm_num) (by norm_num)
      (by norm_num) (by norm_num) (by norm_num) (by norm_num)
  have hden : specCoszen realMath (extremeInput : bird ℝ)
      + 0.50572 * realMath.Pow (96.07995 - (extremeInput : bird ℝ).zenith) (-1.6364)
      ≤ 1 / 31 := by
    have h4 := hpow.2
    norm_num at hcos h4 ⊢
    linarith
  unfold specAmass
  have := one_div_le_one_div_of_le hpos hden
  simpa using this

/-- Up to a zenith angle of 88 degrees the air mass is at most 36. -/
theorem specAmass_le_of_zenith_le (b : bird ℝ) (h0 : 0 ≤ b.zenith) (h88 : b.zenith ≤ 88) :
    specAmass realMath b ≤ 36 := by
  have hpi := Real.pi_pos
  have hpi1 := Real.pi_gt_d2
  have hpi2 := Real.pi_lt_d2
  have hcos : 1 / 36 ≤ specCoszen realMath b := by
    show 1 / 36 ≤ Real.cos (b.zenith * Real.pi / 180)
    have h1 : Real.cos (88 * Real.pi / 180) ≤ Real.cos (b.zenith * Real.pi / 180) := by
      apply Real.cos_le_cos_of_nonneg_of_le_pi
      · positivity
      · linarith
      · have : b.zenith * Real.pi ≤ 88 * Real.pi := mul_le_mul_of_nonneg_right h88 hpi.le
        linarith
    have h2 : Real.cos (88 * Real.pi / 180) = Real.sin (Real.pi / 90) := by
      rw [← Real.sin_pi_div_two_sub]
      congr 1
      ring
    have h3 : Real.pi / 90 - (Real.pi / 90) ^ 3 / 4 < Real.sin (Real.pi / 90) :=
      Real.sin_gt_sub_cube (by positivity) (by linarith)
    have h4 : (Real.pi / 90) ^ 3 ≤ (0.035 : ℝ) ^ 3 :=
      pow_le_pow_left₀ (by positivity) (by linarith) 3
    norm_num at h4
    linarith
  have hpow : 0 < realMath.Pow (96.07995 - b.zenith) (-1.6364) :=
    Real.rpow_pos_of_pos (by linarith) _
  have hden : 1 / 36 ≤ specCoszen realMath b
      + 0.50572 * realMath.Pow (96.07995 - b.zenith) (-1.6364) := by
    have := mul_pos (show (0 : ℝ) < 0.50572 by norm_num) hpow
    linarith
  unfold specAmass
  have := one_div_le_one_div_of_le (by norm_num : (0 : ℝ) < 1 / 36) hden
  simpa using this

/-- The Rayleigh bracket `1 + p - p^1.01` is nonnegative for `0 ≤ p ≤ 29`. -/
theorem rayleigh_bracket_nonneg_of_le (p : ℝ) (h0 : 0 ≤ p) (h29 : p ≤ 29) :
    0 ≤ 1 + p - Real.rpow p 1.01 := by
  rcases le_or_lt p 1 with h | h
  · have : Real.rpow p 1.01 ≤ 1 := Real.rpow_le_one h0 h (by norm_num)
    linarith
  · have hp : 0 < p := by linarith
    have h1 : Real.rpow p 0.01 ≤ 30 / 29 :=
      rpow_hundredth_le (30 / 29) p (by norm_num) h0 (le_trans h29 (by norm_num))
    have h2 : p * Real.rpow p 0.01 ≤ p * (30 / 29) := mul_le_mul_of_nonneg_left h1 h0
    rw [rpow_one_hundredth_split p hp]
    linarith

/-- The Rayleigh transmittance lies in `(0,1]` while the pressure path `press` is in
`[0,29]`. -/
theorem specTRayleigh_mem_of_le (b : bird ℝ) (h0 : 0 ≤ specPress realMath b)
    (h29 : specPress realMath b ≤ 29) :
    0 < specTRayleigh realMath b ∧ specTRayleigh realMath b ≤ 1 := by
  unfold specTRayleigh
  show 0 < Real.exp _ ∧ Real.exp _ ≤ 1
  refine ⟨Real.exp_pos _, ?_⟩
  rw [Real.exp_le_one_iff]
  have h1 : 0 ≤ realMath.Pow (specPress realMath b) 0.84 := Real.rpow_nonneg h0 _
  have h2 : 0 ≤ 1 + specPress realMath b - realMath.Pow (specPress realMath b) 1.01 :=
    rayleigh_bracket_nonneg_of_le _ h0 h29
  have h3 := mul_nonneg h1 h2
  linarith

/-- The function `x * (1 + c*x)^(-e)` is nondecreasing on `x ≥ 0` for `c ≥ 0` and `e ≤ 1`. -/
theorem mul_rpow_neg_mono (x X c e : ℝ) (hx : 0 ≤ x) (hxX : x ≤ X) (hc : 0 ≤ c) (he1 : e ≤ 1) :
    x * Real.rpow (1 + c * x) (-e) ≤ X * Real.rpow (1 + c * X) (-e) := by
  have hX : 0 ≤ X := hx.trans hxX
  have hu : 0 < 1 + c * x := by nlinarith
  have hU : 0 < 1 + c * X := by nlinarith
  have huU : 1 + c * x ≤ 1 + c * X := by nlinarith
  have hr0 : 0 < (1 + c * x) / (1 + c * X) := div_pos hu hU
  have hr1 : (1 + c * x) / (1 + c * X) ≤ 1 := (div_le_one hU).mpr huU
  have h1 : x ≤ X * ((1 + c * x) / (1 + c * X)) := by
    rw [mul_div_assoc', le_div_iff₀ hU]
    nlinarith
  have h2 : (1 + c * x) / (1 + c * X) ≤ ((1 + c * x) / (1 + c * X)) ^ e := by
    have := Real.rpow_le_rpow_of_exponent_ge hr0 hr1 he1
    rwa [Real.rpow_one] at this
  have h3 : ((1 + c * x) / (1 + c * X)) ^ e = (1 + c * x) ^ e / (1 + c * X) ^ e :=
    Real.div_rpow hu.le hU.le e
  have hue : 0 < (1 + c * x) ^ e := Real.rpow_pos_of_pos hu e
  have hUe : 0 < (1 + c * X) ^ e := Real.rpow_pos_of_pos hU e
  have h4 : x ≤ X * ((1 + c * x) ^ e / (1 + c * X) ^ e) := by
    rw [← h3]
    exact h1.trans (mul_le_mul_of_nonneg_left h2 hX)
  show x * (1 + c * x) ^ (-e) ≤ X * (1 + c * X) ^ (-e)
  rw [Real.rpow_neg hu.le, Real.rpow_neg hU.le]
  have h5 : x * ((1 + c * x) ^ e)⁻¹ ≤ X * ((1 + c * x) ^ e / (1 + c * X) ^ e)
      * ((1 + c * x) ^ e)⁻¹ :=
    mul_le_mul_of_nonneg_right h4 (inv_pos.mpr hue).le
  have h6 : X * ((1 + c * x) ^ e / (1 + c * X) ^ e) * ((1 + c * x) ^ e)⁻¹
      = X * ((1 + c * X) ^ e)⁻¹ := by
    field_simp
    ring
  rw [h6] at h5
  exact h5

/-- The first ozone term `0.1611*oz*(1+139.48*oz)^(-0.3034)` is at most 0.965 for
`0 ≤ oz ≤ 112`. -/
theorem ozone_first_term_le (x : ℝ) (hx : 0 ≤ x) (h112 : x ≤ 112) :
    0.1611 * x * Real.rpow (1 + 139.48 * x) (-0.3034) ≤ 0.965 := by
  have hmono := mul_rpow_neg_mono x 112 139.48 0.3034 hx h112 (by norm_num) (by norm_num)
  have hbase : (1 : ℝ) + 139.48 * 112 = 15622.76 := by norm_num
  rw [hbase] at hmono
  have h27 : (18.7 : ℝ) ≤ Real.rpow 15622.76 (27 / 89) :=
    (rpow_between 15622.76 15622.76 15622.76 18.7 19 (27 / 89) 27 89 (by norm_num)
      (by norm_num) (by norm_num) ⟨le_refl _, le_refl _⟩ (by norm_num) (by norm_num)
      (by norm_num) (by norm_num)).1
  have hexp : Real.rpow 15622.76 (27 / 89) ≤ Real.rpow 15622.76 0.3034 :=
    Real.rpow_le_rpow_of_exponent_le (by norm_num) (by norm_num)
  have hpos : (0 : ℝ) < Real.rpow 15622.76 0.3034 := by linarith
  have hneg : Real.rpow 15622.76 (-0.3034) = (Real.rpow 15622.76 0.3034)⁻¹ := by
    show (15622.76 : ℝ) ^ (-0.3034 : ℝ) = ((15622.76 : ℝ) ^ (0.3034 : ℝ))⁻¹
    exact Real.rpow_neg (by norm_num) _
  have hinv : Real.rpow 15622.76 (-0.3034) ≤ 1 / 18.7 := by
    rw [hneg, ← one_div]
    exact one_div_le_one_div_of_le (by norm_num) (by linarith)
  have h1 : x * Real.rpow (1 + 139.48 * x) (-0.3034) ≤ 112 * (1 / 18.7) :=
    hmono.trans (mul_le_mul_of_nonneg_left hinv (by norm_num))
  have h2 : 0.1611 * x * Real.rpow (1 + 139.48 * x) (-0.3034)
      = 0.1611 * (x * Real.rpow (1 + 139.48 * x) (-0.3034)) := by ring
  rw [h2]
  have h3 : (0.1611 : ℝ) * (112 * (1 / 18.7)) ≤ 0.965 := by norm_num
  have h4 : (0.1611 : ℝ) * (x * Real.rpow (1 + 139.48 * x) (-0.3034))
      ≤ 0.1611 * (112 * (1 / 18.7)) := mul_le_mul_of_nonneg_left h1 (by norm_num)
  linarith

/-- The second ozone term `0.002715*oz/(1+0.044*oz+0.0003*oz^2)` is at most 0.0346 for
`oz ≥ 0`. -/
theorem ozone_second_term_le (x : ℝ) (hx : 0 ≤ x) :
    0.002715 * x / (1 + 0.044 * x + 0.0003 * x ^ 2) ≤ 0.0346 := by
  have hden : 0 < 1 + 0.044 * x + 0.0003 * x ^ 2 := by positivity
  rw [div_le_iff₀ hden]
  nlinarith [sq_nonneg (x - 57.4)]

/-- The ozone transmittance is positive while the ozone path `oz` is at most 112. -/
theorem specTOzone_pos_of_le_bound (b : bird ℝ) (ho : 0 ≤ b.ozone) (h0 : 0 ≤ b.zenith)
    (h90 : b.zenith < 90) (h112 : specOz realMath b ≤ 112) : 0 < specTOzone realMath b := by
  have hoz : 0 ≤ specOz realMath b := mul_nonneg ho (specAmass_pos b h0 h90).le
  have h1 := ozone_first_term_le _ hoz h112
  have h2 := ozone_second_term_le _ hoz
  unfold specTOzone
  have h3 : realMath.Pow (1 + 139.48 * specOz realMath b) (-0.3034)
      = Real.rpow (1 + 139.48 * specOz realMath b) (-0.3034) := rfl
  rw [h3]
  linarith

/-- The exponential of a nonpositive number at least `-700` lies between `e^(-701)` and 1. -/
theorem exp_neg_mem (t : ℝ) (h0 : 0 ≤ t) :
    (0 ≤ Real.exp (-t) ∧ Real.exp (-t) ≤ 1)
    ∧ (t ≤ 700 → Real.exp (-701) ≤ Real.exp (-t)) := by
  refine ⟨⟨(Real.exp_pos _).le, Real.exp_le_one_iff.mpr (by linarith)⟩, fun h => ?_⟩
  exact Real.exp_le_exp.mpr (by linarith)

/-- For an air mass in `(0, 36]` the bracket `1 - a + a^1.06` of `taa` lies in `(0, 9.64]`. -/
theorem taa_bracket_mem (a : ℝ) (ha : 0 < a) (h36 : a ≤ 36) :
    0 < 1 - a + Real.rpow a 1.06 ∧ 1 - a + Real.rpow a 1.06 ≤ 9.64 := by
  refine ⟨one_sub_add_rpow_pos a 1.06 ha (by norm_num), ?_⟩
  have hsplit : Real.rpow a 1.06 = a * Real.rpow a 0.06 := by
    have h : (1.06 : ℝ) = 1 + 0.06 := by norm_num
    rw [Real.rpow_eq_pow, Real.rpow_eq_pow, h, Real.rpow_add ha, Real.rpow_one]
  have h1 : Real.rpow a 0.06 ≤ Real.rpow 36 0.06 :=
    Real.rpow_le_rpow ha.le h36 (by norm_num)
  have h2 : Real.rpow 36 0.06 = Real.rpow ((36 : ℝ) ^ 6) 0.01 := by
    rw [Real.rpow_eq_pow, Real.rpow_eq_pow, ← Real.rpow_natCast,
      ← Real.rpow_mul (by norm_num : (0 : ℝ) ≤ 36)]
    norm_num
  have h3 : Real.rpow ((36 : ℝ) ^ 6) 0.01 ≤ 1.24 :=
    rpow_hundredth_le 1.24 ((36 : ℝ) ^ 6) (by norm_num) (by norm_num) (by norm_num)
  have h4 : a * Real.rpow a 0.06 ≤ a * 1.24 :=
    mul_le_mul_of_nonneg_left (by linarith) ha.le
  rw [hsplit]
  linarith

/-- While the air mass is at most 36, `taa` is at least 0.036 and lies between the aerosol
transmittance and 1. -/
theorem specTaa_mem (b : bird ℝ) (ht : 0 ≤ b.taua) (h0 : 0 ≤ b.zenith) (h90 : b.zenith < 90)
    (h36 : specAmass realMath b ≤ 36) :
    0.036 ≤ specTaa realMath b ∧ specTAerosol realMath b ≤ specTaa realMath b
    ∧ specTaa realMath b ≤ 1 := by
  have ha := specAmass_pos b h0 h90
  obtain ⟨hk1, hk2⟩ := taa_bracket_mem _ ha h36
  have hA := specTAerosol_mem b ht h0 h90
  have hk2' : 1 - specAmass realMath b + realMath.Pow (specAmass realMath b) 1.06 ≤ 9.64 := hk2
  have hk1' : 0 < 1 - specAmass realMath b + realMath.Pow (specAmass realMath b) 1.06 := hk1
  have hprod : (1 - specAmass realMath b + realMath.Pow (specAmass realMath b) 1.06)
      * (1 - specTAerosol realMath b) ≤ 9.64 * (1 - specTAerosol realMath b) :=
    mul_le_mul_of_nonneg_right hk2' (by linarith)
  have hprod0 : 0 ≤ (1 - specAmass realMath b + realMath.Pow (specAmass realMath b) 1.06)
      * (1 - specTAerosol realMath b) := mul_nonneg hk1'.le (by linarith)
  unfold specTaa
  refine ⟨?_, ?_, ?_⟩ <;> linarith

/-- While the air mass is at most 36, the sky albedo `rs` is at most
`max 0.0685 (1.0685 - ba)`. -/
theorem specRs_le_max (b : bird ℝ) (ht : 0 ≤ b.taua) (h0 : 0 ≤ b.zenith) (h90 : b.zenith < 90)
    (h36 : specAmass realMath b ≤ 36) :
    specRs realMath b ≤ max 0.0685 (1.0685 - b.ba) := by
  have hA := specTAerosol_mem b ht h0 h90
  obtain ⟨hT, hle, _⟩ := specTaa_mem b ht h0 h90 h36
  have hT0 : 0 < specTaa realMath b := by linarith
  have hq0 : 0 ≤ specTAerosol realMath b / specTaa realMath b := div_nonneg hA.1.le hT0.le
  have hq1 : specTAerosol realMath b / specTaa realMath b ≤ 1 := (div_le_one hT0).mpr hle
  unfold specRs
  rcases le_or_lt b.ba 1 with hb | hb
  · have hm : (1 - b.ba) * (1 - specTAerosol realMath b / specTaa realMath b)
        ≤ (1 - b.ba) * 1 := mul_le_mul_of_nonneg_left (by linarith) (by linarith)
    exact le_max_of_le_right (by linarith)
  · have hm : (1 - b.ba) * (1 - specTAerosol realMath b / specTaa realMath b) ≤ 0 :=
      mul_nonpos_of_nonpos_of_nonneg (by linarith) (by linarith)
    exact le_max_of_le_left (by linarith)

end RealLemmas

section RealClaims

/-- C11 as stated fails: with the sun half a degree above the horizon, standard pressure 1013
and ozone 100 (all six validated fields in `[0,100]`, `0 ≤ zenith < 90`, `r > 0`) the Rayleigh
transmittance is above 1 and the ozone transmittance is below 0. -/
theorem transmittance_outside_unit_interval :
    validated (extremeInput : bird ℝ)
    ∧ fullGeometry (extremeInput : bird ℝ)
    ∧ 1 < specTRayleigh realMath (extremeInput : bird ℝ)
    ∧ specTOzone realMath (extremeInput : bird ℝ) < 0 := by
  have ha := specAmass_extremeInput_ge
  have hpress : 31 ≤ specPress realMath (extremeInput : bird ℝ) := by
    show 31 ≤ 1013 * specAmass realMath (extremeInput : bird ℝ) / 1013
    linarith
  have hoz : 1100 ≤ specOz realMath (extremeInput : bird ℝ) := by
    show 1100 ≤ 100 * specAmass realMath (extremeInput : bird ℝ)
    linarith
  refine ⟨?_, ?_, specTRayleigh_gt_one_of_ge _ hpress, ?_⟩
  · unfold validated inRange extremeInput exampleInput
    norm_num
  · unfold fullGeometry extremeInput exampleInput
    norm_num
  · have h1 := ozone_term_gt_one (specOz realMath (extremeInput : bird ℝ)) (by linarith)
    have h2 : 0 ≤ 0.002715 * specOz realMath (extremeInput : bird ℝ)
        / (1 + 0.044 * specOz realMath (extremeInput : bird ℝ)
            + 0.0003 * specOz realMath (extremeInput : bird ℝ) ^ 2) :=
      div_nonneg (by linarith) (by positivity)
    unfold specTOzone
    have h3 : realMath.Pow (1 + 139.48 * specOz realMath (extremeInput : bird ℝ)) (-0.3034)
        = Real.rpow (1 + 139.48 * specOz realMath (extremeInput : bird ℝ)) (-0.3034) := rfl
    rw [h3]
    linarith

/-- C11, amended: on an input with the six validated fields in `[0,100]`, `0 ≤ zenith < 90`,
`r > 0` and `pressure ≥ 0`: the water-vapour transmittance lies in `(0,1]`; the mixed-gas and
aerosol transmittances lie in `[0,1]`, and each is at least `e^(-701)`, hence positive, while
the magnitude of its exponent is at most 700; the Rayleigh transmittance lies in `(0,1]` while
the pressure path `press = pressure*amass/1013` is at most 29; the ozone transmittance is at
most 1, and positive while the ozone path `oz = ozone*amass` is at most 112; and directNormal
is 0.9662 * etrn times the five of them. -/
theorem transmittance_ranges (b : bird ℝ) (hv : validated b) (h0 : 0 ≤ b.zenith)
    (h90 : b.zenith < 90) (hr : b.r > 0) (hp : 0 ≤ b.pressure) :
    (0 < specTWater realMath b ∧ specTWater realMath b ≤ 1)
    ∧ (0 ≤ specTGases realMath b ∧ specTGases realMath b ≤ 1)
    ∧ (0.0127 * Real.rpow (specPress realMath b) 0.26 ≤ 700 →
        Real.exp (-701) ≤ specTGases realMath b)
    ∧ (0 ≤ specTAerosol realMath b ∧ specTAerosol realMath b ≤ 1)
    ∧ (Real.rpow b.taua 0.873 * (1 + b.taua - Real.rpow b.taua 0.7088)
          * Real.rpow (specAmass realMath b) 0.9108 ≤ 700 →
        Real.exp (-701) ≤ specTAerosol realMath b)
    ∧ (specPress realMath b ≤ 29 →
        0 < specTRayleigh realMath b ∧ specTRayleigh realMath b ≤ 1)
    ∧ specTOzone realMath b ≤ 1
    ∧ (specOz realMath b ≤ 112 → 0 < specTOzone realMath b)
    ∧ (Calculate realMath b).2.directNormal
        = 0.9662 * specEtrn b * specTAerosol realMath b * specTWater realMath b
            * specTGases realMath b * specTOzone realMath b * specTRayleigh realMath b := by
  have ha := specAmass_pos b h0 h90
  have hpress : 0 ≤ specPress realMath b :=
    div_nonneg (mul_nonneg hp ha.le) (by norm_num)
  have hg0 : 0 ≤ 0.0127 * Real.rpow (specPress realMath b) 0.26 :=
    mul_nonneg (by norm_num) (Real.rpow_nonneg hpress _)
  have hgeq : specTGases realMath b
      = Real.exp (-(0.0127 * Real.rpow (specPress realMath b) 0.26)) := by
    unfold specTGases
    show Real.exp _ = Real.exp _
    congr 1
    show -0.0127 * Real.rpow (specPress realMath b) 0.26 = _
    ring
  have ht1 : 0 ≤ Real.rpow b.taua 0.873 := Real.rpow_nonneg hv.2.2.1.1 _
  have ht2 : 0 ≤ 1 + b.taua - Real.rpow b.taua 0.7088 :=
    one_add_sub_rpow_nonneg b.taua 0.7088 hv.2.2.1.1 (by norm_num) (by norm_num)
  have ht3 : 0 ≤ Real.rpow (specAmass realMath b) 0.9108 := Real.rpow_nonneg ha.le _
  have ha0 : 0 ≤ Real.rpow b.taua 0.873 * (1 + b.taua - Real.rpow b.taua 0.7088)
      * Real.rpow (specAmass realMath b) 0.9108 := mul_nonneg (mul_nonneg ht1 ht2) ht3
  have haeq : specTAerosol realMath b
      = Real.exp (-(Real.rpow b.taua 0.873 * (1 + b.taua - Real.rpow b.taua 0.7088)
          * Real.rpow (specAmass realMath b) 0.9108)) := by
    unfold specTAerosol
    show Real.exp _ = Real.exp _
    congr 1
    show -(Real.rpow b.taua 0.873) * (1 + b.taua - Real.rpow b.taua 0.7088)
      * Real.rpow (specAmass realMath b) 0.9108 = _
    ring
  refine ⟨specTWater_mem b hv.2.1.1 h0 h90, ?_, ?_, ?_, ?_,
    fun h => specTRayleigh_mem_of_le b hpress h, specTOzone_le_one b hv.1.1 h0 h90,
    fun h => specTOzone_pos_of_le_bound b hv.1.1 h0 h90 h, ?_⟩
  · rw [hgeq]
    exact (exp_neg_mem _ hg0).1
  · rw [hgeq]
    exact (exp_neg_mem _ hg0).2
  · rw [haeq]
    exact (exp_neg_mem _ ha0).1
  · rw [haeq]
    exact (exp_neg_mem _ ha0).2
  · rw [Calculate_of_full_validated realMath b hv ⟨h0, h90, hr⟩]
    rfl

/-- Witness of the amended C11: the call of the example program. -/
theorem transmittance_ranges_witness :
    validated (exampleInput : bird ℝ) ∧ fullGeometry (exampleInput : bird ℝ)
    ∧ 0 ≤ (exampleInput : bird ℝ).pressure
    ∧ 0 < specTWater realMath (exampleInput : bird ℝ)
    ∧ specTWater realMath (exampleInput : bird ℝ) ≤ 1
    ∧ 0 ≤ specTAerosol realMath (exampleInput : bird ℝ)
    ∧ specTOzone realMath (exampleInput : bird ℝ) ≤ 1 :=
  have hp : 0 ≤ (exampleInput : bird ℝ).pressure := by
    unfold exampleInput
    norm_num
  have h := transmittance_ranges (exampleInput : bird ℝ) exampleInput_validated
    exampleInput_fullGeometry.1 exampleInput_fullGeometry.2.1 exampleInput_fullGeometry.2.2 hp
  ⟨exampleInput_validated, exampleInput_fullGeometry, hp, h.1.1, h.1.2, h.2.2.2.1.1,
   h.2.2.2.2.2.2.1⟩

/-- C12: on a validated input with `0 ≤ zenith < 90` and `r > 0` the denominator
cos(zenith*pi/180) + 0.50572*(96.07995 - zenith)^(-1.6364) of the air mass is strictly
positive, and the amass output of `Calculate` is strictly positive. -/
theorem Calculate_amass_pos (b : bird ℝ) (hv : validated b) (h0 : 0 ≤ b.zenith)
    (h90 : b.zenith < 90) (hr : b.r > 0) :
    0 < Real.cos (b.zenith * Real.pi / 180)
          + 0.50572 * Real.rpow (96.07995 - b.zenith) (-1.6364)
    ∧ 0 < (Calculate realMath b).2.amass := by
  constructor
  · exact specAmass_denominator_pos b h0 h90
  · rw [Calculate_of_full_validated realMath b hv ⟨h0, h90, hr⟩]
    exact specAmass_pos b h0 h90

/-- Witness of C12: the call of the example program. -/
theorem Calculate_amass_pos_witness :
    validated (exampleInput : bird ℝ) ∧ fullGeometry (exampleInput : bird ℝ)
    ∧ 0 < (Calculate realMath (exampleInput : bird ℝ)).2.amass :=
  ⟨exampleInput_validated, exampleInput_fullGeometry,
   (Calculate_amass_pos (exampleInput : bird ℝ) exampleInput_validated
      exampleInput_fullGeometry.1 exampleInput_fullGeometry.2.1
      exampleInput_fullGeometry.2.2).2⟩

/-- C13 as stated fails: on the example inputs with taua = 0 and albedo = 2000/137 (all six
validated fields in `[0,100]`, `0 ≤ zenith < 90`, `r > 0`) the aerosol transmittance and taa
are 1, rs is 0.0685, and the divisor `1 - albedo*rs` of the horizontal combination is 0. -/
theorem horizontal_divisor_zero :
    validated (zeroDenominatorInput : bird ℝ)
    ∧ fullGeometry (zeroDenominatorInput : bird ℝ)
    ∧ specRs realMath (zeroDenominatorInput : bird ℝ) = 0.0685
    ∧ 1 - (zeroDenominatorInput : bird ℝ).albedo
          * specRs realMath (zeroDenominatorInput : bird ℝ) = 0 := by
  have hA : specTAerosol realMath (zeroDenominatorInput : bird ℝ) = 1 := by
    unfold specTAerosol
    show Real.exp (-((0 : ℝ) ^ (0.873 : ℝ)) * (1 + 0 - (0 : ℝ) ^ (0.7088 : ℝ))
      * realMath.Pow (specAmass realMath (zeroDenominatorInput : bird ℝ)) 0.9108) = 1
    rw [Real.zero_rpow (by norm_num)]
    simp
  have hT : specTaa realMath (zeroDenominatorInput : bird ℝ) = 1 := by
    unfold specTaa
    rw [hA]
    ring
  have hR : specRs realMath (zeroDenominatorInput : bird ℝ) = 0.0685 := by
    unfold specRs
    rw [hA, hT]
    ring
  refine ⟨?_, exampleInput_fullGeometry, hR, ?_⟩
  · unfold validated inRange zeroDenominatorInput exampleInput
    norm_num
  · rw [hR]
    show (1 : ℝ) - 2000 / 137 * 0.0685 = 0
    norm_num

/-- C13, amended: on an input with the six validated fields in `[0,100]`, `0 ≤ zenith < 90`
and `r > 0`: the air mass that `Calculate` computes is at most 36 when `zenith ≤ 88`; while it
is at most 36, taa is strictly positive, and if moreover
`albedo * max 0.0685 (1.0685 - ba) ≤ 0.999` the divisor `1 - albedo*rs` is strictly positive;
and globalHoriz is the quotient of directNormal*coszen + ias by that divisor. -/
theorem divisors_pos (b : bird ℝ) (hv : validated b) (h0 : 0 ≤ b.zenith) (h90 : b.zenith < 90)
    (hr : b.r > 0) :
    (b.zenith ≤ 88 → (Calculate realMath b).2.amass ≤ 36)
    ∧ ((Calculate realMath b).2.amass ≤ 36 →
        0 < specTaa realMath b
        ∧ (b.albedo * max 0.0685 (1.0685 - b.ba) ≤ 0.999 →
            0 < 1 - b.albedo * specRs realMath b))
    ∧ (Calculate realMath b).2.globalHoriz
        = ((Calculate realMath b).2.directNormal * specCoszen realMath b + specIas realMath b)
            / (1 - b.albedo * specRs realMath b) := by
  rw [Calculate_of_full_validated realMath b hv ⟨h0, h90, hr⟩]
  refine ⟨fun h88 => specAmass_le_of_zenith_le b h0 h88, fun h36 => ?_, rfl⟩
  have h36' : specAmass realMath b ≤ 36 := h36
  have hT := specTaa_mem b hv.2.2.1.1 h0 h90 h36'
  refine ⟨by linarith [hT.1], fun hal => ?_⟩
  have hR := specRs_le_max b hv.2.2.1.1 h0 h90 h36'
  have hmul : b.albedo * specRs realMath b ≤ b.albedo * max 0.0685 (1.0685 - b.ba) :=
    mul_le_mul_of_nonneg_left hR hv.2.2.2.2.1.1
  linarith

/-- Witness of the amended C13: the call of the example program. -/
theorem divisors_pos_witness :
    validated (exampleInput : bird ℝ)
    ∧ fullGeometry (exampleInput : bird ℝ)
    ∧ (exampleInput : bird ℝ).zenith ≤ 88
    ∧ (exampleInput : bird ℝ).albedo * max 0.0685 (1.0685 - (exampleInput : bird ℝ).ba) ≤ 0.999
    ∧ (Calculate realMath (exampleInput : bird ℝ)).2.amass ≤ 36
    ∧ 0 < specTaa realMath (exampleInput : bird ℝ)
    ∧ 0 < 1 - (exampleInput : bird ℝ).albedo * specRs realMath (exampleInput : bird ℝ) :=
  have h88 : (exampleInput : bird ℝ).zenith ≤ 88 := by
    unfold exampleInput
    norm_num
  have hal : (exampleInput : bird ℝ).albedo
      * max 0.0685 (1.0685 - (exampleInput : bird ℝ).ba) ≤ 0.999 := by
    unfold exampleInput
    norm_num
  have h := divisors_pos (exampleInput : bird ℝ) exampleInput_validated
    exampleInput_fullGeometry.1 exampleInput_fullGeometry.2.1 exampleInput_fullGeometry.2.2
  ⟨exampleInput_validated, exampleInput_fullGeometry, h88, hal, h.1 h88, (h.2.1 (h.1 h88)).1,
   (h.2.1 (h.1 h88)).2 hal⟩

/-- C20: for `0 ≤ zenith < 90` the air mass formula of `Calculate` is positive and the divisor
`1 - amass + amass^1.02` of the sky-diffuse term ias is strictly positive; and on a validated
input with `r > 0` this air mass is the amass output of `Calculate`, whose globalHoriz is
computed from the quotient by that divisor. -/
theorem Calculate_ias_divisor_pos (b : bird ℝ) (h0 : 0 ≤ b.zenith) (h90 : b.zenith < 90) :
    0 < 1 / (Real.cos (b.zenith * Real.pi / 180)
              + 0.50572 * Real.rpow (96.07995 - b.zenith) (-1.6364))
    ∧ 0 < 1 - 1 / (Real.cos (b.zenith * Real.pi / 180)
                    + 0.50572 * Real.rpow (96.07995 - b.zenith) (-1.6364))
          + Real.rpow (1 / (Real.cos (b.zenith * Real.pi / 180)
                    + 0.50572 * Real.rpow (96.07995 - b.zenith) (-1.6364))) 1.02
    ∧ (validated b → b.r > 0 →
        (Calculate realMath b).2.amass
            = 1 / (Real.cos (b.zenith * Real.pi / 180)
                    + 0.50572 * Real.rpow (96.07995 - b.zenith) (-1.6364))
        ∧ 0 < 1 - (Calculate realMath b).2.amass
              + Real.rpow (Calculate realMath b).2.amass 1.02
        ∧ (Calculate realMath b).2.globalHoriz
            = ((Calculate realMath b).2.directNormal * specCoszen realMath b
                + specEtrn b * specCoszen realMath b * 0.79 * specTOzone realMath b
                    * specTGases realMath b * specTWater realMath b * specTaa realMath b
                    * (0.5 * (1 - specTRayleigh realMath b)
                        + b.ba * (1 - specTAerosol realMath b / specTaa realMath b))
                  / (1 - (Calculate realMath b).2.amass
                      + Real.rpow (Calculate realMath b).2.amass 1.02))
              / (1 - b.albedo * specRs realMath b)) := by
  have ha : 0 < specAmass realMath b := specAmass_pos b h0 h90
  have hd : 0 < 1 - specAmass realMath b + Real.rpow (specAmass realMath b) 1.02 :=
    one_sub_add_rpow_pos (specAmass realMath b) 1.02 ha (by norm_num)
  refine ⟨ha, hd, fun hv hr => ?_⟩
  rw [Calculate_of_full_validated realMath b hv ⟨h0, h90, hr⟩]
  exact ⟨rfl, hd, rfl⟩

/-- Witness of C20: the call of the example program. -/
theorem Calculate_ias_divisor_pos_witness :
    (0 : ℝ) ≤ (exampleInput : bird ℝ).zenith ∧ (exampleInput : bird ℝ).zenith < 90
    ∧ validated (exampleInput : bird ℝ) ∧ (exampleInput : bird ℝ).r > 0
    ∧ 0 < 1 - (Calculate realMath (exampleInput : bird ℝ)).2.amass
          + Real.rpow (Calculate realMath (exampleInput : bird ℝ)).2.amass 1.02 :=
  ⟨exampleInput_fullGeometry.1, exampleInput_fullGeometry.2.1, exampleInput_validated,
   exampleInput_fullGeometry.2.2,
   ((Calculate_ias_divisor_pos (exampleInput : bird ℝ) exampleInput_fullGeometry.1
      exampleInput_fullGeometry.2.1).2.2 exampleInput_validated
      exampleInput_fullGeometry.2.2).2.1⟩

end RealClaims

section ReferenceScenario

/-- The cosine of the example zenith angle, by ten angle doublings from a small angle. -/
theorem example_coszen_between :
    0.641293958 ≤ specCoszen realMath (exampleInput : bird ℝ)
      ∧ specCoszen realMath (exampleInput : bird ℝ) ≤ 0.64129401 := by
  have hpi1 := Real.pi_gt_d20
  have hpi2 := Real.pi_lt_d20
  have t0 :
      0.000854114060384984 ≤ (50.11162202402973 * Real.pi / 180 / 1024)
      ∧ (50.11162202402973 * Real.pi / 180 / 1024) ≤ 0.000854114060384985 :=
    ⟨by linarith, by linarith⟩
  have c0 :
      0.999999635244558208 ≤ Real.cos (50.11162202402973 * Real.pi / 180 / 1024)
      ∧ Real.cos (50.11162202402973 * Real.pi / 180 / 1024) ≤ 0.999999635244613645 := by
    have h := cos_small_between _ 0.000854114060384984 0.000854114060384985
      (by norm_num) t0.1 t0.2 (by norm_num)
    exact ⟨le_trans (by norm_num) h.1, le_trans h.2 (by norm_num)⟩
  have c1 := cos_double_between _ 0.999999635244558208 0.999999635244613645
    0.999998540978498925 0.999998540978720673
    (by norm_num) c0 (by norm_num) (by norm_num)
  have c2 := cos_double_between _ 0.999998540978498925 0.999998540978720673
    0.999994163918253187 0.999994163919140179
    (by norm_num) c1 (by norm_num) (by norm_num)
  have c3 := cos_double_between _ 0.999994163918253187 0.999994163919140179
    0.999976655741132448 0.999976655744680396
    (by norm_num) c2 (by norm_num) (by norm_num)
  have c4 := cos_double_between _ 0.999976655741132448 0.999976655744680396
    0.999906624054438636 0.999906624068630097
    (by norm_num) c3 (by norm_num) (by norm_num)
  have c5 := cos_double_between _ 0.999906624054438636 0.999906624068630097
    0.999626513655888962 0.999626513712649507
    (by norm_num) c4 (by norm_num) (by norm_num)
  have c6 := cos_double_between _ 0.999626513655888962 0.999626513712649507
    0.998506333607654322 0.998506333834611706
    (by norm_num) c5 (by norm_num) (by norm_num)
  have c7 := cos_double_between _ 0.998506333607654322 0.998506333834611706
    0.994029796509200533 0.994029797415674076
    (by norm_num) c6 (by norm_num) (by norm_num)
  have c8 := cos_double_between _ 0.994029796509200533 0.994029797415674076
    0.97619047269624524 0.976190476300492088
    (by norm_num) c7 (by norm_num) (by norm_num)
  have c9 := cos_double_between _ 0.97619047269624524 0.976190476300492088
    0.905895677965837446 0.90589569203956321
    (by norm_num) c8 (by norm_num) (by norm_num)
  have c10 := cos_double_between _ 0.905895677965837446 0.90589569203956321
    0.641293958714368527 0.641294009711678295
    (by norm_num) c9 (by norm_num) (by norm_num)
  have hang :
      (2 * (2 * (2 * (2 * (2 * (2 * (2 * (2 * (2 * (2 * (50.11162202402973 * Real.pi / 180 / 1024)))))))))))
        = 50.11162202402973 * Real.pi / 180 := by ring
  rw [hang] at c10
  exact ⟨le_trans (by norm_num) c10.1, le_trans c10.2 (by norm_num)⟩

/-- The power term of the air mass for the example zenith angle. -/
theorem example_kasten_between :
    0.001903498 ≤ realMath.Pow (96.07995 - (exampleInput : bird ℝ).zenith) (-1.6364)
      ∧ realMath.Pow (96.07995 - (exampleInput : bird ℝ).zenith) (-1.6364) ≤ 0.001903499 := by
  have hb :
      45.96832797597027 ≤ (96.07995 : ℝ) - (exampleInput : bird ℝ).zenith
      ∧ (96.07995 : ℝ) - (exampleInput : bird ℝ).zenith ≤ 45.96832797597027 := by
    unfold exampleInput
    norm_num
  have hb2 :
      45.968327975 ≤ 96.07995 - (exampleInput : bird ℝ).zenith
      ∧ 96.07995 - (exampleInput : bird ℝ).zenith ≤ 45.968327976 :=
    ⟨le_trans (by norm_num) hb.1, le_trans hb.2 (by norm_num)⟩
  have s1 :
      0.001903498 ≤ realMath.Pow (96.07995 - (exampleInput : bird ℝ).zenith) (-1.6364)
      ∧ realMath.Pow (96.07995 - (exampleInput : bird ℝ).zenith) (-1.6364) ≤ 0.001903499 :=
    rpow_neg_between _ 45.968327975 45.968327976 525.348417731 525.348417753
      0.001903498 0.001903499 (-1.6364) 4091 2500
      (by norm_num) (by norm_num) (by norm_num) hb2 (by norm_num) (by norm_num)
      (by norm_num) (by norm_num) (by norm_num) (by norm_num)
  exact s1

/-- The air mass of the example call. -/
theorem example_amass_between :
    1.557009963 ≤ specAmass realMath (exampleInput : bird ℝ)
      ∧ specAmass realMath (exampleInput : bird ℝ) ≤ 1.557010092 := by
  have s2 := example_coszen_between
  have s3 := example_kasten_between
  have s4 :
      0.642256595 ≤ specCoszen realMath (exampleInput : bird ℝ) + 0.50572 * realMath.Pow (96.07995 - (exampleInput : bird ℝ).zenith) (-1.6364)
      ∧ specCoszen realMath (exampleInput : bird ℝ) + 0.50572 * realMath.Pow (96.07995 - (exampleInput : bird ℝ).zenith) (-1.6364) ≤ 0.642256648 :=
    ⟨by linarith [s2.1, s2.2, s3.1, s3.2], by linarith [s2.1, s2.2, s3.1, s3.2]⟩
  have s5 := div_between 1 _ 1 1 0.642256595 0.642256648 1.557009963 1.557010092
    (by norm_num) (by norm_num) ⟨le_refl 1, le_refl 1⟩ s4 (by norm_num) (by norm_num)
  exact s5

/-- The pressure path of the example call. -/
theorem example_press_between :
    1.260363444 ≤ specPress realMath (exampleInput : bird ℝ)
      ∧ specPress realMath (exampleInput : bird ℝ) ≤ 1.26036355 := by
  have s6 := example_amass_between
  have s7 :
      1.260363444 ≤ 820 * specAmass realMath (exampleInput : bird ℝ) / 1013
      ∧ 820 * specAmass realMath (exampleInput : bird ℝ) / 1013 ≤ 1.26036355 :=
    ⟨by linarith [s6.1, s6.2], by linarith [s6.1, s6.2]⟩
  exact s7

/-- The ozone path of the example call. -/
theorem example_oz_between :
    0.467102988 ≤ specOz realMath (exampleInput : bird ℝ)
      ∧ specOz realMath (exampleInput : bird ℝ) ≤ 0.467103028 := by
  have s8 := example_amass_between
  have s9 :
      0.467102988 ≤ 0.3 * specAmass realMath (exampleInput : bird ℝ)
      ∧ 0.3 * specAmass realMath (exampleInput : bird ℝ) ≤ 0.467103028 :=
    ⟨by linarith [s8.1, s8.2], by linarith [s8.1, s8.2]⟩
  exact s9

/-- The water path of the example call. -/
theorem example_wat_between :
    2.335514944 ≤ specWat realMath (exampleInput : bird ℝ)
      ∧ specWat realMath (exampleInput : bird ℝ) ≤ 2.335515138 := by
  have s10 := example_amass_between
  have s11 :
      2.335514944 ≤ 1.5 * specAmass realMath (exampleInput : bird ℝ)
      ∧ 1.5 * specAmass realMath (exampleInput : bird ℝ) ≤ 2.335515138 :=
    ⟨by linarith [s10.1, s10.2], by linarith [s10.1, s10.2]⟩
  exact s11

/-- The Rayleigh transmittance of the example call. -/
theorem example_tRayleigh_between :
    0.8964131 ≤ specTRayleigh realMath (exampleInput : bird ℝ)
      ∧ specTRayleigh realMath (exampleInput : bird ℝ) ≤ 0.89641313 := by
  have s12 := example_press_between
  have s13 :
      1.214552997 ≤ realMath.Pow (specPress realMath (exampleInput : bird ℝ)) 0.84
      ∧ realMath.Pow (specPress realMath (exampleInput : bird ℝ)) 0.84 ≤ 1.214553086 :=
    rpow_between _ 1.260363444 1.26036355 1.214552997 1.214553086 0.84 21 25
      (by norm_num) (by norm_num)
      (by norm_num) s12 (by norm_num) (by norm_num) (by norm_num) (by norm_num)
  have s14 :
      1.263283302 ≤ realMath.Pow (specPress realMath (exampleInput : bird ℝ)) 1.01
      ∧ realMath.Pow (specPress realMath (exampleInput : bird ℝ)) 1.01 ≤ 1.263283412 :=
    rpow_between _ 1.260363444 1.26036355 1.263283302 1.263283412 1.01 101 100
      (by norm_num) (by norm_num)
      (by norm_num) s12 (by norm_num) (by norm_num) (by norm_num) (by norm_num)
  have s15 :
      0.997080032 ≤ 1 + specPress realMath (exampleInput : bird ℝ) - realMath.Pow (specPress realMath (exampleInput : bird ℝ)) 1.01
      ∧ 1 + specPress realMath (exampleInput : bird ℝ) - realMath.Pow (specPress realMath (exampleInput : bird ℝ)) 1.01 ≤ 0.997080248 :=
    ⟨by linarith [s12.1, s12.2, s14.1, s14.2], by linarith [s12.1, s12.2, s14.1, s14.2]⟩
  have s16 := mul_between _ _ 1.214552997 1.214553086 0.997080032 0.997080248
    1.211006541 1.211006893
    (by norm_num) (by norm_num) s13 s15 (by norm_num) (by norm_num)
  have s17 :
      (-0.109353923) ≤ -0.0903 * realMath.Pow (specPress realMath (exampleInput : bird ℝ)) 0.84 * (1 + specPress realMath (exampleInput : bird ℝ) - realMath.Pow (specPress realMath (exampleInput : bird ℝ)) 1.01)
      ∧ -0.0903 * realMath.Pow (specPress realMath (exampleInput : bird ℝ)) 0.84 * (1 + specPress realMath (exampleInput : bird ℝ) - realMath.Pow (specPress realMath (exampleInput : bird ℝ)) 1.01) ≤ (-0.10935389) :=
    ⟨by linarith [s16.1, s16.2], by linarith [s16.1, s16.2]⟩
  have s18 :
      0.8964131 ≤ realMath.Exp (-0.0903 * realMath.Pow (specPress realMath (exampleInput : bird ℝ)) 0.84 * (1 + specPress realMath (exampleInput : bird ℝ) - realMath.Pow (specPress realMath (exampleInput : bird ℝ)) 1.01))
      ∧ realMath.Exp (-0.0903 * realMath.Pow (specPress realMath (exampleInput : bird ℝ)) 0.84 * (1 + specPress realMath (exampleInput : bird ℝ) - realMath.Pow (specPress realMath (exampleInput : bird ℝ)) 1.01)) ≤ 0.89641313 :=
    exp_between _ (-0.109353923) (-0.10935389) 0.8964131 0.89641313 s17
      (by norm_num) (by norm_num)
      (by unfold expTaylor; norm_num) (by unfold expTaylor; norm_num)
  exact s18

/-- The mixed-gas transmittance of the example call. -/
theorem example_tGases_between :
    0.986603012 ≤ specTGases realMath (exampleInput : bird ℝ)
      ∧ specTGases realMath (exampleInput : bird ℝ) ≤ 0.986603014 := by
  have s19 := example_press_between
  have s20 :
      1.062010736 ≤ realMath.Pow (specPress realMath (exampleInput : bird ℝ)) 0.26
      ∧ realMath.Pow (specPress realMath (exampleInput : bird ℝ)) 0.26 ≤ 1.062010762 :=
    rpow_between _ 1.260363444 1.26036355 1.062010736 1.062010762 0.26 13 50
      (by norm_num) (by norm_num)
      (by norm_num) s19 (by norm_num) (by norm_num) (by norm_num) (by norm_num)
  have s21 :
      (-0.013487537) ≤ -0.0127 * realMath.Pow (specPress realMath (exampleInput : bird ℝ)) 0.26
      ∧ -0.0127 * realMath.Pow (specPress realMath (exampleInput : bird ℝ)) 0.26 ≤ (-0.013487536) :=
    ⟨by linarith [s20.1, s20.2], by linarith [s20.1, s20.2]⟩
  have s22 :
      0.986603012 ≤ realMath.Exp (-0.0127 * realMath.Pow (specPress realMath (exampleInput : bird ℝ)) 0.26)
      ∧ realMath.Exp (-0.0127 * realMath.Pow (specPress realMath (exampleInput : bird ℝ)) 0.26) ≤ 0.986603014 :=
    exp_between _ (-0.013487537) (-0.013487536) 0.986603012 0.986603014 s21
      (by norm_num) (by norm_num)
      (by unfold expTaylor; norm_num) (by unfold expTaylor; norm_num)
  exact s22

/-- The ozone transmittance of the example call. -/
theorem example_tOzone_between :
    0.977663555 ≤ specTOzone realMath (exampleInput : bird ℝ)
      ∧ specTOzone realMath (exampleInput : bird ℝ) ≤ 0.977663561 := by
  have s23 := example_oz_between
  have s24 :
      66.151524766 ≤ 1 + 139.48 * specOz realMath (exampleInput : bird ℝ)
      ∧ 1 + 139.48 * specOz realMath (exampleInput : bird ℝ) ≤ 66.151530346 :=
    ⟨by linarith [s23.1, s23.2], by linarith [s23.1, s23.2]⟩
  have s25 :
      0.280316198 ≤ realMath.Pow (1 + 139.48 * specOz realMath (exampleInput : bird ℝ)) (-0.3034)
      ∧ realMath.Pow (1 + 139.48 * specOz realMath (exampleInput : bird ℝ)) (-0.3034) ≤ 0.280316207 :=
    rpow_neg_between _ 66.151524766 66.151530346 3.567399877 3.567399971
      0.280316198 0.280316207 (-0.3034) 1517 5000
      (by norm_num) (by norm_num) (by norm_num) s24 (by norm_num) (by norm_num)
      (by norm_num) (by norm_num) (by norm_num) (by norm_num)
  have s26 :
      0.075250291 ≤ 0.1611 * specOz realMath (exampleInput : bird ℝ)
      ∧ 0.1611 * specOz realMath (exampleInput : bird ℝ) ≤ 0.075250298 :=
    ⟨by linarith [s23.1, s23.2], by linarith [s23.1, s23.2]⟩
  have s27 := mul_between _ _ 0.075250291 0.075250298 0.280316198 0.280316207
    0.021093875 0.021093879
    (by norm_num) (by norm_num) s26 s25 (by norm_num) (by norm_num)
  have s28 :
      0.001268184 ≤ 0.002715 * specOz realMath (exampleInput : bird ℝ)
      ∧ 0.002715 * specOz realMath (exampleInput : bird ℝ) ≤ 0.001268185 :=
    ⟨by linarith [s23.1, s23.2], by linarith [s23.1, s23.2]⟩
  have s29 := mul_between _ _ 0.467102988 0.467103028 0.467102988 0.467103028
    0.218185201 0.218185239
    (by norm_num) (by norm_num) s23 s23 (by norm_num) (by norm_num)
  have s30 :
      0.218185201 ≤ specOz realMath (exampleInput : bird ℝ) ^ 2
      ∧ specOz realMath (exampleInput : bird ℝ) ^ 2 ≤ 0.218185239 := by
    rw [pow_two]
    exact s29
  have s31 :
      1.020617987 ≤ 1 + 0.044 * specOz realMath (exampleInput : bird ℝ) + 0.0003 * specOz realMath (exampleInput : bird ℝ) ^ 2
      ∧ 1 + 0.044 * specOz realMath (exampleInput : bird ℝ) + 0.0003 * specOz realMath (exampleInput : bird ℝ) ^ 2 ≤ 1.020617989 :=
    ⟨by linarith [s23.1, s23.2, s30.1, s30.2], by linarith [s23.1, s23.2, s30.1, s30.2]⟩
  have s32 := div_between _ _ 0.001268184 0.001268185 1.020617987 1.020617989
    0.001242564 0.001242566
    (by norm_num) (by norm_num) s28 s31 (by norm_num) (by norm_num)
  have s33 :
      0.977663555 ≤ 1 - (0.1611 * specOz realMath (exampleInput : bird ℝ)) * (realMath.Pow (1 + 139.48 * specOz realMath (exampleInput : bird ℝ)) (-0.3034)) - 0.002715 * specOz realMath (exampleInput : bird ℝ) / (1 + 0.044 * specOz realMath (exampleInput : bird ℝ) + 0.0003 * specOz realMath (exampleInput : bird ℝ) ^ 2)
      ∧ 1 - (0.1611 * specOz realMath (exampleInput : bird ℝ)) * (realMath.Pow (1 + 139.48 * specOz realMath (exampleInput : bird ℝ)) (-0.3034)) - 0.002715 * specOz realMath (exampleInput : bird ℝ) / (1 + 0.044 * specOz realMath (exampleInput : bird ℝ) + 0.0003 * specOz realMath (exampleInput : bird ℝ) ^ 2) ≤ 0.977663561 :=
    ⟨by linarith [s27.1, s27.2, s32.1, s32.2], by linarith [s27.1, s27.2, s32.1, s32.2]⟩
  exact s33

/-- The water-vapour transmittance of the example call. -/
theorem example_tWater_between :
    0.884131442 ≤ specTWater realMath (exampleInput : bird ℝ)
      ∧ specTWater realMath (exampleInput : bird ℝ) ≤ 0.88413146 := by
  have s34 := example_wat_between
  have s35 :
      185.585088084 ≤ 1 + 79.034 * specWat realMath (exampleInput : bird ℝ)
      ∧ 1 + 79.034 * specWat realMath (exampleInput : bird ℝ) ≤ 185.585103417 :=
    ⟨by linarith [s34.1, s34.2], by linarith [s34.1, s34.2]⟩
  have s36 :
      35.396572703 ≤ realMath.Pow (1 + 79.034 * specWat realMath (exampleInput : bird ℝ)) 0.6828
      ∧ realMath.Pow (1 + 79.034 * specWat realMath (exampleInput : bird ℝ)) 0.6828 ≤ 35.396574703 :=
    rpow_between _ 185.585088084 185.585103417 35.396572703 35.396574703 0.6828 1707 2500
      (by norm_num) (by norm_num)
      (by norm_num) s35 (by norm_num) (by norm_num) (by norm_num) (by norm_num)
  have s37 :
      5.829211748 ≤ 2.4959 * specWat realMath (exampleInput : bird ℝ)
      ∧ 2.4959 * specWat realMath (exampleInput : bird ℝ) ≤ 5.829212233 :=
    ⟨by linarith [s34.1, s34.2], by linarith [s34.1, s34.2]⟩
  have s38 :
      50.30883562 ≤ realMath.Pow (1 + 79.034 * specWat realMath (exampleInput : bird ℝ)) 0.6828 + 6.385 * specWat realMath (exampleInput : bird ℝ)
      ∧ realMath.Pow (1 + 79.034 * specWat realMath (exampleInput : bird ℝ)) 0.6828 + 6.385 * specWat realMath (exampleInput : bird ℝ) ≤ 50.30883886 :=
    ⟨by linarith [s36.1, s36.2, s34.1, s34.2], by linarith [s36.1, s36.2, s34.1, s34.2]⟩
  have s39 := div_between _ _ 5.829211748 5.829212233 50.30883562 50.30883886
    0.11586854 0.115868558
    (by norm_num) (by norm_num) s37 s38 (by norm_num) (by norm_num)
  have s40 :
      0.884131442 ≤ 1 - 2.4959 * specWat realMath (exampleInput : bird ℝ) / (realMath.Pow (1 + 79.034 * specWat realMath (exampleInput : bird ℝ)) 0.6828 + 6.385 * specWat realMath (exampleInput : bird ℝ))
      ∧ 1 - 2.4959 * specWat realMath (exampleInput : bird ℝ) / (realMath.Pow (1 + 79.034 * specWat realMath (exampleInput : bird ℝ)) 0.6828 + 6.385 * specWat realMath (exampleInput : bird ℝ)) ≤ 0.88413146 :=
    ⟨by linarith [s39.1, s39.2], by linarith [s39.1, s39.2]⟩
  exact s40

/-- The aerosol transmittance of the example call. -/
theorem example_tAerosol_between :
    0.860126029 ≤ specTAerosol realMath (exampleInput : bird ℝ)
      ∧ specTAerosol realMath (exampleInput : bird ℝ) ≤ 0.860126046 := by
  have s41 := example_amass_between
  have ht :
      0.08 ≤ (exampleInput : bird ℝ).taua ∧ (exampleInput : bird ℝ).taua ≤ 0.08 := by
    unfold exampleInput
    norm_num
  have s42 :
      0.110254812 ≤ realMath.Pow ((exampleInput : bird ℝ).taua) 0.873
      ∧ realMath.Pow ((exampleInput : bird ℝ).taua) 0.873 ≤ 0.110254815 :=
    rpow_between _ 0.08 0.08 0.110254812 0.110254815 0.873 873 1000
      (by norm_num) (by norm_num)
      (by norm_num) ht (by norm_num) (by norm_num) (by norm_num) (by norm_num)
  have s43 :
      0.166920693 ≤ realMath.Pow ((exampleInput : bird ℝ).taua) 0.7088
      ∧ realMath.Pow ((exampleInput : bird ℝ).taua) 0.7088 ≤ 0.166920696 :=
    rpow_between _ 0.08 0.08 0.166920693 0.166920696 0.7088 443 625
      (by norm_num) (by norm_num)
      (by norm_num) ht (by norm_num) (by norm_num) (by norm_num) (by norm_num)
  have s44 :
      1.496714613 ≤ realMath.Pow (specAmass realMath (exampleInput : bird ℝ)) 0.9108
      ∧ realMath.Pow (specAmass realMath (exampleInput : bird ℝ)) 0.9108 ≤ 1.496714729 :=
    rpow_between _ 1.557009963 1.557010092 1.496714613 1.496714729 0.9108 2277 2500
      (by norm_num) (by norm_num)
      (by norm_num) s41 (by norm_num) (by norm_num) (by norm_num) (by norm_num)
  have s45 :
      0.913079304 ≤ 1 + (exampleInput : bird ℝ).taua - realMath.Pow ((exampleInput : bird ℝ).taua) 0.7088
      ∧ 1 + (exampleInput : bird ℝ).taua - realMath.Pow ((exampleInput : bird ℝ).taua) 0.7088 ≤ 0.913079307 :=
    ⟨by linarith [ht.1, ht.2, s43.1, s43.2], by linarith [ht.1, ht.2, s43.1, s43.2]⟩
  have s46 := mul_between _ _ 0.110254812 0.110254815 0.913079304 0.913079307
    0.100671387 0.100671391
    (by norm_num) (by norm_num) s42 s45 (by norm_num) (by norm_num)
  have s47 := mul_between _ _ 0.100671387 0.100671391 1.496714613 1.496714729
    0.150676336 0.150676354
    (by norm_num) (by norm_num) s46 s44 (by norm_num) (by norm_num)
  have s48 :
      (-0.150676354) ≤ -(realMath.Pow ((exampleInput : bird ℝ).taua) 0.873) * (1 + (exampleInput : bird ℝ).taua - realMath.Pow ((exampleInput : bird ℝ).taua) 0.7088) * realMath.Pow (specAmass realMath (exampleInput : bird ℝ)) 0.9108
      ∧ -(realMath.Pow ((exampleInput : bird ℝ).taua) 0.873) * (1 + (exampleInput : bird ℝ).taua - realMath.Pow ((exampleInput : bird ℝ).taua) 0.7088) * realMath.Pow (specAmass realMath (exampleInput : bird ℝ)) 0.9108 ≤ (-0.150676336) :=
    ⟨by linarith [s47.1, s47.2], by linarith [s47.1, s47.2]⟩
  have s49 :
      0.860126029 ≤ realMath.Exp (-(realMath.Pow ((exampleInput : bird ℝ).taua) 0.873) * (1 + (exampleInput : bird ℝ).taua - realMath.Pow ((exampleInput : bird ℝ).taua) 0.7088) * realMath.Pow (specAmass realMath (exampleInput : bird ℝ)) 0.9108)
      ∧ realMath.Exp (-(realMath.Pow ((exampleInput : bird ℝ).taua) 0.873) * (1 + (exampleInput : bird ℝ).taua - realMath.Pow ((exampleInput : bird ℝ).taua) 0.7088) * realMath.Pow (specAmass realMath (exampleInput : bird ℝ)) 0.9108) ≤ 0.860126046 :=
    exp_between _ (-0.150676354) (-0.150676336) 0.860126029 0.860126046 s48
      (by norm_num) (by norm_num)
      (by unfold expTaylor; norm_num) (by unfold expTaylor; norm_num)
  exact s49

/-- The extraterrestrial irradiance of the example call. -/
theorem example_etrn_between :
    1376.502616415 ≤ specEtrn (exampleInput : bird ℝ)
      ∧ specEtrn (exampleInput : bird ℝ) ≤ 1376.502616416 := by
  unfold specEtrn exampleInput
  norm_num

/-- The direct-normal irradiance of the example call. -/
theorem example_directNormal_between :
    874.506532278 ≤ specDirectNormal realMath (exampleInput : bird ℝ)
      ∧ specDirectNormal realMath (exampleInput : bird ℝ) ≤ 874.506603779 := by
  have s50 := example_etrn_between
  have s51 := example_tAerosol_between
  have s52 := example_tWater_between
  have s53 := example_tGases_between
  have s54 := example_tOzone_between
  have s55 := example_tRayleigh_between
  have s56 :
      1329.97682798 ≤ 0.9662 * specEtrn (exampleInput : bird ℝ)
      ∧ 0.9662 * specEtrn (exampleInput : bird ℝ) ≤ 1329.976827982 :=
    ⟨by linarith [s50.1, s50.2], by linarith [s50.1, s50.2]⟩
  have s57 := mul_between _ _ 1329.97682798 1329.976827982 0.860126029 0.860126046
    1143.947687712 1143.947710324
    (by norm_num) (by norm_num) s56 s51 (by norm_num) (by norm_num)
  have s58 := mul_between _ _ 1143.947687712 1143.947710324 0.884131442 0.88413146
    1011.400118709 1011.400159293
    (by norm_num) (by norm_num) s57 s52 (by norm_num) (by norm_num)
  have s59 := mul_between _ _ 1011.400118709 1011.400159293 0.986603012 0.986603014
    997.850403455 997.850445519
    (by norm_num) (by norm_num) s58 s53 (by norm_num) (by norm_num)
  have s60 := mul_between _ _ 997.850403455 997.850445519 0.977663555 0.977663561
    975.561972799 975.562019912
    (by norm_num) (by norm_num) s59 s54 (by norm_num) (by norm_num)
  have s61 := mul_between _ _ 975.561972799 975.562019912 0.8964131 0.89641313
    874.506532278 874.506603779
    (by norm_num) (by norm_num) s60 s55 (by norm_num) (by norm_num)
  exact s61

/-- The term taa of the example call. -/
theorem example_taa_between :
    0.985426278 ≤ specTaa realMath (exampleInput : bird ℝ)
      ∧ specTaa realMath (exampleInput : bird ℝ) ≤ 0.985426285 := by
  have s62 := example_amass_between
  have s63 := example_tAerosol_between
  have s64 :
      1.598927878 ≤ realMath.Pow (specAmass realMath (exampleInput : bird ℝ)) 1.06
      ∧ realMath.Pow (specAmass realMath (exampleInput : bird ℝ)) 1.06 ≤ 1.598928021 :=
    rpow_between _ 1.557009963 1.557010092 1.598927878 1.598928021 1.06 53 50
      (by norm_num) (by norm_num)
      (by norm_num) s62 (by norm_num) (by norm_num) (by norm_num) (by norm_num)
  have s65 :
      1.041917786 ≤ 1 - specAmass realMath (exampleInput : bird ℝ) + realMath.Pow (specAmass realMath (exampleInput : bird ℝ)) 1.06
      ∧ 1 - specAmass realMath (exampleInput : bird ℝ) + realMath.Pow (specAmass realMath (exampleInput : bird ℝ)) 1.06 ≤ 1.041918058 :=
    ⟨by linarith [s62.1, s62.2, s64.1, s64.2], by linarith [s62.1, s62.2, s64.1, s64.2]⟩
  have s66 :
      0.104191778 ≤ 0.1 * (1 - specAmass realMath (exampleInput : bird ℝ) + realMath.Pow (specAmass realMath (exampleInput : bird ℝ)) 1.06)
      ∧ 0.1 * (1 - specAmass realMath (exampleInput : bird ℝ) + realMath.Pow (specAmass realMath (exampleInput : bird ℝ)) 1.06) ≤ 0.104191806 :=
    ⟨by linarith [s65.1, s65.2], by linarith [s65.1, s65.2]⟩
  have s67 :
      0.139873954 ≤ 1 - specTAerosol realMath (exampleInput : bird ℝ)
      ∧ 1 - specTAerosol realMath (exampleInput : bird ℝ) ≤ 0.139873971 :=
    ⟨by linarith [s63.1, s63.2], by linarith [s63.1, s63.2]⟩
  have s68 := mul_between _ _ 0.104191778 0.104191806 0.139873954 0.139873971
    0.014573715 0.014573722
    (by norm_num) (by norm_num) s66 s67 (by norm_num) (by norm_num)
  have s69 :
      0.985426278 ≤ 1 - 0.1 * (1 - specAmass realMath (exampleInput : bird ℝ) + realMath.Pow (specAmass realMath (exampleInput : bird ℝ)) 1.06) * (1 - specTAerosol realMath (exampleInput : bird ℝ))
      ∧ 1 - 0.1 * (1 - specAmass realMath (exampleInput : bird ℝ) + realMath.Pow (specAmass realMath (exampleInput : bird ℝ)) 1.06) * (1 - specTAerosol realMath (exampleInput : bird ℝ)) ≤ 0.985426285 :=
    ⟨by linarith [s68.1, s68.2], by linarith [s68.1, s68.2]⟩
  exact s69

/-- The term 1 - tAerosol/taa of the example call. -/
theorem example_ratio_between :
    0.127153329 ≤ 1 - specTAerosol realMath (exampleInput : bird ℝ) / specTaa realMath (exampleInput : bird ℝ)
      ∧ 1 - specTAerosol realMath (exampleInput : bird ℝ) / specTaa realMath (exampleInput : bird ℝ) ≤ 0.127153353 := by
  have s70 := example_tAerosol_between
  have s71 := example_taa_between
  have s72 := div_between _ _ 0.860126029 0.860126046 0.985426278 0.985426285
    0.872846647 0.872846671
    (by norm_num) (by norm_num) s70 s71 (by norm_num) (by norm_num)
  have s73 :
      0.127153329 ≤ 1 - specTAerosol realMath (exampleInput : bird ℝ) / specTaa realMath (exampleInput : bird ℝ)
      ∧ 1 - specTAerosol realMath (exampleInput : bird ℝ) / specTaa realMath (exampleInput : bird ℝ) ≤ 0.127153353 :=
    ⟨by linarith [s72.1, s72.2], by linarith [s72.1, s72.2]⟩
  exact s73

/-- The sky albedo rs of the example call. -/
theorem example_rs_between :
    0.087572999 ≤ specRs realMath (exampleInput : bird ℝ)
      ∧ specRs realMath (exampleInput : bird ℝ) ≤ 0.087573003 := by
  have s74 := example_ratio_between
  have s75 :
      0.087572999 ≤ 0.0685 + (1 - 0.85) * (1 - specTAerosol realMath (exampleInput : bird ℝ) / specTaa realMath (exampleInput : bird ℝ))
      ∧ 0.0685 + (1 - 0.85) * (1 - specTAerosol realMath (exampleInput : bird ℝ) / specTaa realMath (exampleInput : bird ℝ)) ≤ 0.087573003 :=
    ⟨by linarith [s74.1, s74.2], by linarith [s74.1, s74.2]⟩
  exact s75

/-- The sky-diffuse term ias of the example call. -/
theorem example_ias_between :
    92.41403754 ≤ specIas realMath (exampleInput : bird ℝ)
      ∧ specIas realMath (exampleInput : bird ℝ) ≤ 92.414093872 := by
  have s76 := example_etrn_between
  have s77 := example_coszen_between
  have s78 := example_tOzone_between
  have s79 := example_tGases_between
  have s80 := example_tWater_between
  have s81 := example_taa_between
  have s82 := example_tRayleigh_between
  have s83 := example_ratio_between
  have s84 := example_amass_between
  have s85 := mul_between _ _ 1376.502616415 1376.502616416 0.641293958 0.64129401
    882.742811078 882.742882657
    (by norm_num) (by norm_num) s76 s77 (by norm_num) (by norm_num)
  have s86 :
      697.366820751 ≤ (specEtrn (exampleInput : bird ℝ)) * (specCoszen realMath (exampleInput : bird ℝ)) * 0.79
      ∧ (specEtrn (exampleInput : bird ℝ)) * (specCoszen realMath (exampleInput : bird ℝ)) * 0.79 ≤ 697.3668773 :=
    ⟨by linarith [s85.1, s85.2], by linarith [s85.1, s85.2]⟩
  have s87 := mul_between _ _ 697.366820751 697.3668773 0.977663555 0.977663561
    681.790125114 681.790184585
    (by norm_num) (by norm_num) s86 s78 (by norm_num) (by norm_num)
  have s88 := mul_between _ _ 681.790125114 681.790184585 0.986603012 0.986603014
    672.656190989 672.656251028
    (by norm_num) (by norm_num) s87 s79 (by norm_num) (by norm_num)
  have s89 := mul_between _ _ 672.656190989 672.656251028 0.884131442 0.88413146
    594.716488109 594.7165533
    (by norm_num) (by norm_num) s88 s80 (by norm_num) (by norm_num)
  have s90 := mul_between _ _ 594.716488109 594.7165533 0.985426278 0.985426285
    586.049255342 586.049323747
    (by norm_num) (by norm_num) s89 s81 (by norm_num) (by norm_num)
  have s91 :
      0.159873764 ≤ 0.5 * (1 - specTRayleigh realMath (exampleInput : bird ℝ)) + 0.85 * (1 - specTAerosol realMath (exampleInput : bird ℝ) / specTaa realMath (exampleInput : bird ℝ))
      ∧ 0.5 * (1 - specTRayleigh realMath (exampleInput : bird ℝ)) + 0.85 * (1 - specTAerosol realMath (exampleInput : bird ℝ) / specTaa realMath (exampleInput : bird ℝ)) ≤ 0.159873801 :=
    ⟨by linarith [s82.1, s82.2, s83.1, s83.2], by linarith [s82.1, s82.2, s83.1, s83.2]⟩
  have s92 := mul_between _ _ 586.049255342 586.049323747 0.159873764 0.159873801
    93.69390034 93.693932961
    (by norm_num) (by norm_num) s90 s91 (by norm_num) (by norm_num)
  have s93 :
      1.570859052 ≤ realMath.Pow (specAmass realMath (exampleInput : bird ℝ)) 1.02
      ∧ realMath.Pow (specAmass realMath (exampleInput : bird ℝ)) 1.02 ≤ 1.570859188 :=
    rpow_between _ 1.557009963 1.557010092 1.570859052 1.570859188 1.02 51 50
      (by norm_num) (by norm_num)
      (by norm_num) s84 (by norm_num) (by norm_num) (by norm_num) (by norm_num)
  have s94 :
      1.01384896 ≤ 1 - specAmass realMath (exampleInput : bird ℝ) + realMath.Pow (specAmass realMath (exampleInput : bird ℝ)) 1.02
      ∧ 1 - specAmass realMath (exampleInput : bird ℝ) + realMath.Pow (specAmass realMath (exampleInput : bird ℝ)) 1.02 ≤ 1.013849225 :=
    ⟨by linarith [s84.1, s84.2, s93.1, s93.2], by linarith [s84.1, s84.2, s93.1, s93.2]⟩
  have s95 := div_between _ _ 93.69390034 93.693932961 1.01384896 1.013849225
    92.41403754 92.414093872
    (by norm_num) (by norm_num) s92 s94 (by norm_num) (by norm_num)
  exact s95

/-- The direct horizontal irradiance directNormal * coszen of the example call. -/
theorem example_dirHoriz_between :
    560.815755381 ≤ (specDirectNormal realMath (exampleInput : bird ℝ)) * (specCoszen realMath (exampleInput : bird ℝ))
      ∧ (specDirectNormal realMath (exampleInput : bird ℝ)) * (specCoszen realMath (exampleInput : bird ℝ)) ≤ 560.815846709 := by
  have s96 := example_directNormal_between
  have s97 := example_coszen_between
  have s98 := mul_between _ _ 874.506532278 874.506603779 0.641293958 0.64129401
    560.815755381 560.815846709
    (by norm_num) (by norm_num) s96 s97 (by norm_num) (by norm_num)
  exact s98

/-- The global horizontal irradiance of the example call. -/
theorem example_globalHoriz_between :
    664.874808578 ≤ specGlobalHoriz realMath (exampleInput : bird ℝ) (specDirectNormal realMath (exampleInput : bird ℝ))
      ∧ specGlobalHoriz realMath (exampleInput : bird ℝ) (specDirectNormal realMath (exampleInput : bird ℝ)) ≤ 664.874960225 := by
  have s99 := example_dirHoriz_between
  have s100 := example_ias_between
  have s101 := example_rs_between
  have s102 :
      653.229792921 ≤ (specDirectNormal realMath (exampleInput : bird ℝ)) * (specCoszen realMath (exampleInput : bird ℝ)) + specIas realMath (exampleInput : bird ℝ)
      ∧ (specDirectNormal realMath (exampleInput : bird ℝ)) * (specCoszen realMath (exampleInput : bird ℝ)) + specIas realMath (exampleInput : bird ℝ) ≤ 653.229940581 :=
    ⟨by linarith [s99.1, s99.2, s100.1, s100.2], by linarith [s99.1, s99.2, s100.1, s100.2]⟩
  have s103 :
      0.982485399 ≤ 1 - 0.2 * specRs realMath (exampleInput : bird ℝ)
      ∧ 1 - 0.2 * specRs realMath (exampleInput : bird ℝ) ≤ 0.982485401 :=
    ⟨by linarith [s101.1, s101.2], by linarith [s101.1, s101.2]⟩
  have s104 := div_between _ _ 653.229792921 653.229940581 0.982485399 0.982485401
    664.874808578 664.874960225
    (by norm_num) (by norm_num) s102 s103 (by norm_num) (by norm_num)
  exact s104

/-- The diffuse horizontal irradiance of the example call. -/
theorem example_diffuseHoriz_between :
    104.058961869 ≤ specDiffuseHoriz realMath (exampleInput : bird ℝ) (specDirectNormal realMath (exampleInput : bird ℝ))
      ∧ specDiffuseHoriz realMath (exampleInput : bird ℝ) (specDirectNormal realMath (exampleInput : bird ℝ)) ≤ 104.059204844 := by
  have s105 := example_globalHoriz_between
  have s106 := example_dirHoriz_between
  have s107 :
      104.058961869 ≤ specGlobalHoriz realMath (exampleInput : bird ℝ) (specDirectNormal realMath (exampleInput : bird ℝ)) - (specDirectNormal realMath (exampleInput : bird ℝ)) * (specCoszen realMath (exampleInput : bird ℝ))
      ∧ specGlobalHoriz realMath (exampleInput : bird ℝ) (specDirectNormal realMath (exampleInput : bird ℝ)) - (specDirectNormal realMath (exampleInput : bird ℝ)) * (specCoszen realMath (exampleInput : bird ℝ)) ≤ 104.059204844 :=
    ⟨by linarith [s105.1, s105.2, s106.1, s106.2], by linarith [s105.1, s105.2, s106.1, s106.2]⟩
  exact s107

theorem NewBird_example_eq :
    NewBird realMath 50.11162202402973 0.9965422973539708 820 0.3 1.5 0.08 0.85 0.2 0
      = (({ (exampleInput : bird ℝ) with
            amass := specAmass realMath exampleInput
            directNormal := specDirectNormal realMath exampleInput
            globalHoriz := specGlobalHoriz realMath exampleInput
              (specDirectNormal realMath exampleInput)
            diffuseHoriz := specDiffuseHoriz realMath exampleInput
              (specDirectNormal realMath exampleInput)
            directNormalMod := specDirectNormal realMath exampleInput * 0
            globalHorizMod := specGlobalHoriz realMath exampleInput
              (specDirectNormal realMath exampleInput * 0)
            diffuseHorizMod := specDiffuseHoriz realMath exampleInput
              (specDirectNormal realMath exampleInput * 0) } : bird ℝ), none) := by
  have hfresh : freshRecord 50.11162202402973 0.9965422973539708 820 0.3 1.5 0.08 0.85 0.2 0
      = (exampleInput : bird ℝ) := rfl
  rw [NewBird_eq, hfresh,
    Calculate_of_full_validated realMath _ exampleInput_validated exampleInput_fullGeometry]
  rfl

/-- C15: the reference scenario.  `NewBird(50.11162202402973, 0.9965422973539708, 820, 0.3,
1.5, 0.08, 0.85, 0.2, 0)` returns no error, and directNormal, globalHoriz and diffuseHoriz are
within relative tolerance 1e-3 of 874.5066, 664.8749 and 104.0591. -/
theorem NewBird_reference_scenario :
    (NewBird realMath 50.11162202402973 0.9965422973539708 820 0.3 1.5 0.08 0.85 0.2 0).2 = none
    ∧ |GetDirectNormal
          (NewBird realMath 50.11162202402973 0.9965422973539708 820 0.3 1.5 0.08 0.85 0.2 0).1
        - 874.5066| ≤ 0.001 * 874.5066
    ∧ |GetGlobalHoriz
          (NewBird realMath 50.11162202402973 0.9965422973539708 820 0.3 1.5 0.08 0.85 0.2 0).1
        - 664.8749| ≤ 0.001 * 664.8749
    ∧ |GetDiffuseHoriz
          (NewBird realMath 50.11162202402973 0.9965422973539708 820 0.3 1.5 0.08 0.85 0.2 0).1
        - 104.0591| ≤ 0.001 * 104.0591 := by
  rw [NewBird_example_eq]
  have hd := example_directNormal_between
  have hg := example_globalHoriz_between
  have hf := example_diffuseHoriz_between
  refine ⟨rfl, ?_, ?_, ?_⟩
  · show |specDirectNormal realMath (exampleInput : bird ℝ) - 874.5066| ≤ 0.001 * 874.5066
    rw [abs_le]
    constructor <;> linarith [hd.1, hd.2]
  · show |specGlobalHoriz realMath (exampleInput : bird ℝ)
        (specDirectNormal realMath (exampleInput : bird ℝ)) - 664.8749| ≤ 0.001 * 664.8749
    rw [abs_le]
    constructor <;> linarith [hg.1, hg.2]
  · show |specDiffuseHoriz realMath (exampleInput : bird ℝ)
        (specDirectNormal realMath (exampleInput : bird ℝ)) - 104.0591| ≤ 0.001 * 104.0591
    rw [abs_le]
    constructor <;> linarith [hf.1, hf.2]

end ReferenceScenario

section MachineLemmas

variable {F : Type} [FloatOps F]

/-- The nested tests of `Machine.validate` and the search through the ordered list give the
same message. -/
theorem machine_validate_eq_firstRejected (b : bird F) :
    Machine.validate b = Machine.firstRejected b := by
  unfold Machine.validate Machine.firstRejected Machine.checkedFields
  by_cases h1 : Machine.rejected b.ozone <;> by_cases h2 : Machine.rejected b.water <;>
    by_cases h3 : Machine.rejected b.taua <;> by_cases h4 : Machine.rejected b.ba <;>
    by_cases h5 : Machine.rejected b.albedo <;> by_cases h6 : Machine.rejected b.dniMod <;>
    simp only [Machine.rejected] at h1 h2 h3 h4 h5 h6 <;>
    simp [List.find?, Machine.rejected, h1, h2, h3, h4, h5, h6]

theorem machine_validate_eq_none_iff (b : bird F) :
    Machine.validate b = none ↔
      ¬ Machine.rejected b.ozone ∧ ¬ Machine.rejected b.water ∧ ¬ Machine.rejected b.taua
        ∧ ¬ Machine.rejected b.ba ∧ ¬ Machine.rejected b.albedo
        ∧ ¬ Machine.rejected b.dniMod := by
  unfold Machine.validate
  by_cases h1 : Machine.rejected b.ozone <;> by_cases h2 : Machine.rejected b.water <;>
    by_cases h3 : Machine.rejected b.taua <;> by_cases h4 : Machine.rejected b.ba <;>
    by_cases h5 : Machine.rejected b.albedo <;> by_cases h6 : Machine.rejected b.dniMod <;>
    simp only [Machine.rejected] at h1 h2 h3 h4 h5 h6 <;>
    simp [Machine.rejected, h1, h2, h3, h4, h5, h6]

theorem machine_Calculate_fst (m : MathFns F) (b : bird F) :
    (Machine.Calculate m b).1 = Machine.validate b := by
  unfold Machine.Calculate
  cases h : Machine.validate b with
  | some err => rfl
  | none =>
    dsimp only
    split <;> rfl

theorem machine_Calculate_of_degenerate (m : MathFns F) (b : bird F)
    (hv : Machine.validate b = none) (hg : ¬ Machine.fullGeometry b) :
    Machine.Calculate m b
      = (none, { b with
          amass := 0, directNormal := 0, globalHoriz := 0, diffuseHoriz := 0,
          directNormalMod := 0, globalHorizMod := 0, diffuseHorizMod := 0 }) := by
  unfold Machine.fullGeometry at hg
  unfold Machine.Calculate
  rw [hv]
  dsimp only
  rw [if_neg hg]

/-- The whole of `Machine.Calculate` on the full-model branch, in terms of the values of the
source lines 234 to 253. -/
theorem machine_Calculate_of_full (m : MathFns F) (b : bird F)
    (hv : Machine.validate b = none) (hg : Machine.fullGeometry b) :
    Machine.Calculate m b =
      (none,
        if b.dniMod ≥ 0 then
          { b with
            amass := Machine.amass m b
            directNormal := Machine.directNormal m b
            globalHoriz := (Machine.birdHoriz (Machine.directNormal m b) (Machine.coszen m b)
              (Machine.ias m b) b.albedo (Machine.rs m b)).1
            diffuseHoriz := (Machine.birdHoriz (Machine.directNormal m b) (Machine.coszen m b)
              (Machine.ias m b) b.albedo (Machine.rs m b)).2
            directNormalMod := Machine.directNormal m b * b.dniMod
            globalHorizMod := (Machine.birdHoriz (Machine.directNormal m b * b.dniMod)
              (Machine.coszen m b) (Machine.ias m b) b.albedo (Machine.rs m b)).1
            diffuseHorizMod := (Machine.birdHoriz (Machine.directNormal m b * b.dniMod)
              (Machine.coszen m b) (Machine.ias m b) b.albedo (Machine.rs m b)).2 }
        else
          { b with
            amass := Machine.amass m b
            directNormal := Machine.directNormal m b
            globalHoriz := (Machine.birdHoriz (Machine.directNormal m b) (Machine.coszen m b)
              (Machine.ias m b) b.albedo (Machine.rs m b)).1
            diffuseHoriz := (Machine.birdHoriz (Machine.directNormal m b) (Machine.coszen m b)
              (Machine.ias m b) b.albedo (Machine.rs m b)).2 }) := by
  unfold Machine.fullGeometry at hg
  unfold Machine.Calculate
  rw [hv]
  dsimp only
  rw [if_pos hg]
  rfl

end MachineLemmas

section F64Lemmas

namespace F64

theorem zero_eq_fin : (0 : F64) = fin 0 := rfl

theorem one_eq_fin : (1 : F64) = fin 1 := rfl

theorem ofNat_eq_fin (n : ℕ) [n.AtLeastTwo] : (OfNat.ofNat n : F64) = fin (OfNat.ofNat n) := by
  show fin ((OfNat.ofNat n : ℕ) : ℝ) = fin (OfNat.ofNat n)
  rw [Nat.cast_ofNat]

theorem ofScientific_eq_fin (m : ℕ) (s : Bool) (e : ℕ) :
    (OfScientific.ofScientific m s e : F64) = fin (OfScientific.ofScientific m s e) := rfl

theorem neg_fin (a : ℝ) : -fin a = fin (-a) := rfl

theorem fin_add_fin (a b : ℝ) : fin a + fin b = fin (a + b) := rfl

theorem fin_sub_fin (a b : ℝ) : fin a - fin b = fin (a - b) := by
  show fin (a + -b) = fin (a - b)
  rw [sub_eq_add_neg]

theorem fin_mul_fin (a b : ℝ) : fin a * fin b = fin (flush (a * b)) := rfl

theorem fin_div_fin (a b : ℝ) (h : b ≠ 0) : fin a / fin b = fin (flush (a / b)) := by
  show div (fin a) (fin b) = fin (flush (a / b))
  simp [div, h]

theorem fin_lt_fin (a b : ℝ) : fin a < fin b ↔ a < b := Iff.rfl

theorem fin_le_fin (a b : ℝ) : fin a ≤ fin b ↔ a ≤ b := Iff.rfl

theorem not_nan_lt (x : F64) : ¬ nan < x := by
  intro h
  cases x <;> exact h

theorem not_lt_nan (x : F64) : ¬ x < nan := by
  intro h
  cases x <;> exact h

theorem not_nan_le (x : F64) : ¬ nan ≤ x := by
  intro h
  cases x <;> exact h

theorem not_le_nan (x : F64) : ¬ x ≤ nan := by
  intro h
  cases x <;> exact h

theorem nan_mul (x : F64) : nan * x = nan := by
  cases x <;> rfl

theorem mul_nan (x : F64) : x * nan = nan := by
  cases x <;> rfl

theorem nan_div (x : F64) : nan / x = nan := by
  cases x <;> rfl

theorem nan_add (x : F64) : nan + x = nan := by
  cases x <;> rfl

theorem add_nan (x : F64) : x + nan = nan := by
  cases x <;> rfl

theorem nan_sub (x : F64) : nan - x = nan := by
  cases x <;> rfl

theorem sub_nan (x : F64) : x - nan = nan := by
  cases x <;> rfl

theorem flush_zero : flush 0 = 0 := by
  unfold flush
  simp

/-- A real number of magnitude above a thousandth is not flushed. -/
theorem flush_of_le (x : ℝ) (h : 1 / 1024 ≤ x ∨ x ≤ -(1 / 1024)) : flush x = x := by
  unfold flush
  have h1 : (1 : ℝ) / 2 ^ 1075 < 1 / 1024 := by norm_num
  rw [if_neg]
  rintro ⟨h2, h3⟩
  rcases h with h | h <;> linarith

end F64

end F64Lemmas

section F64Samples

theorem machine_exampleInput_accepted :
    Machine.validate (Machine.exampleInput : bird F64) = none := by
  rw [machine_validate_eq_none_iff]
  simp only [Machine.rejected, Machine.exampleInput, F64.zero_eq_fin, F64.ofNat_eq_fin,
    F64.ofScientific_eq_fin, gt_iff_lt, F64.fin_lt_fin]
  norm_num

theorem machine_exampleInput_geometry :
    Machine.fullGeometry (Machine.exampleInput : bird F64) := by
  simp only [Machine.fullGeometry, Machine.exampleInput, F64.zero_eq_fin, F64.ofNat_eq_fin,
    F64.ofScientific_eq_fin, gt_iff_lt, ge_iff_le, F64.fin_lt_fin, F64.fin_le_fin]
  norm_num

theorem machine_nanDniModInput_accepted (b : bird F64) (h : b = F64.nanDniModInput) :
    Machine.validate (Machine.staleOutputs b) = none ∧ Machine.validate b = none := by
  subst h
  constructor <;>
  · rw [machine_validate_eq_none_iff]
    simp only [Machine.rejected, F64.nanDniModInput, Machine.staleOutputs, Machine.exampleInput,
      F64.zero_eq_fin, F64.ofNat_eq_fin, F64.ofScientific_eq_fin, gt_iff_lt, F64.fin_lt_fin,
      F64.not_nan_lt, F64.not_lt_nan]
    norm_num

end F64Samples

section F64Arithmetic

namespace F64

theorem zero_add_eq (x : F64) : 0 + x = x := by
  cases x with
  | fin a =>
    rw [zero_eq_fin, fin_add_fin, zero_add]
  | _ => rfl

theorem sub_zero_eq (x : F64) : x - 0 = x := by
  cases x with
  | fin a =>
    rw [zero_eq_fin, fin_sub_fin, sub_zero]
  | _ => rfl

theorem mul_zero_of_isFinite (x : F64) (h : isFinite x) : x * 0 = 0 := by
  cases x with
  | fin a =>
    rw [zero_eq_fin, fin_mul_fin, mul_zero, flush_zero]
  | _ => exact absurd h id

theorem zero_mul_of_isFinite (x : F64) (h : isFinite x) : 0 * x = 0 := by
  cases x with
  | fin a =>
    rw [zero_eq_fin, fin_mul_fin, zero_mul, flush_zero]
  | _ => exact absurd h id

theorem not_rejected_of_inRange (x : F64) (h : Machine.inRange x) : ¬ Machine.rejected x := by
  cases x with
  | nan => exact absurd h.1 (not_le_nan _)
  | posInf => exact absurd h.2 id
  | negInf => exact absurd h.1 id
  | fin a =>
    simp only [Machine.rejected, Machine.inRange, gt_iff_lt, zero_eq_fin, ofNat_eq_fin,
      fin_lt_fin, fin_le_fin, not_or, not_lt] at h ⊢
    exact h

theorem goMath_Pow_nan (e : ℝ) (he : e ≠ 0) : goMath.Pow nan (fin e) = nan := by
  show pow nan (fin e) = nan
  simp [pow, he]

end F64

end F64Arithmetic

section F64Evaluation

namespace F64

theorem flush_bounds (x : ℝ) (h : 0 ≤ x) : 0 ≤ flush x ∧ flush x ≤ x := by
  unfold flush
  split
  · exact ⟨le_refl 0, h⟩
  · exact ⟨h, le_refl x⟩

theorem goMath_Pow_zero (e : ℝ) (he : 0 < e) : goMath.Pow (fin 0) (fin e) = fin 0 := by
  show pow (fin 0) (fin e) = fin 0
  simp [pow, he, ne_of_gt he]

theorem goMath_Pow_one (e : ℝ) : goMath.Pow (fin 1) (fin e) = fin 1 := by
  show pow (fin 1) (fin e) = fin 1
  simp [pow]

theorem goMath_Pow_pos (a e : ℝ) (ha : 0 < a) (he : e ≠ 0) :
    goMath.Pow (fin a) (fin e) = fin (flush (Real.rpow a e)) := by
  show (if e = 0 then fin 1 else if a = 1 then fin 1
    else if a = 0 then (if 0 < e then fin 0 else posInf)
    else if a < 0 ∧ ¬ isInteger e then nan else fin (flush (Real.rpow a e))) = _
  rw [if_neg he]
  by_cases h : a = 1
  · rw [if_pos h, h]
    show fin 1 = fin (flush ((1 : ℝ) ^ e))
    rw [Real.one_rpow, flush_of_le _ (Or.inl (by norm_num))]
  · rw [if_neg h, if_neg (ne_of_gt ha), if_neg (fun h => absurd h.1 (not_lt.mpr ha.le))]

/-- The power of a base in `[1/2, 1]` with a positive exponent up to 2: the real power, which
lies between the square of the base and 1. -/
theorem goMath_Pow_mid (a e : ℝ) (ha : 1 / 2 ≤ a) (ha1 : a ≤ 1) (he : 0 < e) (he2 : e ≤ 2) :
    goMath.Pow (fin a) (fin e) = fin (Real.rpow a e)
    ∧ a ^ 2 ≤ Real.rpow a e ∧ Real.rpow a e ≤ 1 := by
  have ha0 : 0 < a := by linarith
  have h1 : Real.rpow a e ≤ 1 := Real.rpow_le_one ha0.le ha1 he.le
  have h2 : a ^ 2 ≤ Real.rpow a e := by
    have h := Real.rpow_le_rpow_of_exponent_ge ha0 ha1 he2
    rw [Real.rpow_two] at h
    exact h
  have h3 : (1 : ℝ) / 1024 ≤ Real.rpow a e := by nlinarith
  refine ⟨?_, h2, h1⟩
  rw [goMath_Pow_pos a e ha0 (ne_of_gt he), flush_of_le _ (Or.inl h3)]

theorem goMath_Exp_zero : goMath.Exp (fin 0) = fin 1 := by
  show fin (flush (Real.exp 0)) = fin 1
  rw [Real.exp_zero, flush_of_le _ (Or.inl (by norm_num))]

theorem fin_mul_fin_zero (a : ℝ) : fin a * fin 0 = fin 0 := by
  rw [fin_mul_fin, mul_zero, flush_zero]

theorem fin_zero_mul_fin (a : ℝ) : fin 0 * fin a = fin 0 := by
  rw [fin_mul_fin, zero_mul, flush_zero]

theorem fin_mul_fin_of_le (a b : ℝ) (h : 1 / 1024 ≤ a * b ∨ a * b ≤ -(1 / 1024)) :
    fin a * fin b = fin (a * b) := by
  rw [fin_mul_fin, flush_of_le _ h]

theorem fin_div_fin_of_le (a b : ℝ) (hb : b ≠ 0) (h : 1 / 1024 ≤ a / b ∨ a / b ≤ -(1 / 1024)) :
    fin a / fin b = fin (a / b) := by
  rw [fin_div_fin _ _ hb, flush_of_le _ h]

theorem fin_zero_div_fin (b : ℝ) (hb : b ≠ 0) : fin 0 / fin b = fin 0 := by
  rw [fin_div_fin _ _ hb, zero_div, flush_zero]

/-- With the sun at the zenith the cosine of the zenith angle is 1. -/
theorem coszen_zenith_zero (b : bird F64) (hz : b.zenith = 0) :
    Machine.coszen goMath b = fin 1 := by
  unfold Machine.coszen
  rw [hz, ofScientific_eq_fin, zero_eq_fin]
  show goMath.Cos (fin 0 * fin Real.pi / _) = _
  rw [fin_zero_mul_fin, fin_zero_div_fin _ (by norm_num)]
  show fin (Real.cos 0) = fin 1
  rw [Real.cos_zero]

/-- With the sun at the zenith the air mass is a finite value between 13/20 and 1. -/
theorem amass_zenith_zero :
    ∃ A : ℝ, 13 / 20 ≤ A ∧ A ≤ 1
      ∧ ∀ b : bird F64, b.zenith = 0 → Machine.amass goMath b = fin A := by
  have hk0 : 0 ≤ Real.rpow 96.07995 (-1.6364) := Real.rpow_nonneg (by norm_num) _
  have hk1 : Real.rpow 96.07995 (-1.6364) ≤ 1 :=
    Real.rpow_le_one_of_one_le_of_nonpos (by norm_num) (by norm_num)
  obtain ⟨hf0, hf1⟩ := flush_bounds _ hk0
  obtain ⟨hg0, hg1⟩ := flush_bounds _
    (mul_nonneg (by norm_num) hf0 : 0 ≤ 0.50572 * flush (Real.rpow 96.07995 (-1.6364)))
  have hK1 : flush (0.50572 * flush (Real.rpow 96.07995 (-1.6364))) ≤ 51 / 100 := by linarith
  generalize hK : flush (0.50572 * flush (Real.rpow 96.07995 (-1.6364))) = K at hg0 hK1
  have hs0 : (0 : ℝ) < 1 + K := by linarith
  have hA1 : 1 / (1 + K) ≤ 1 := by
    rw [div_le_one hs0]
    linarith
  have hA2 : 13 / 20 ≤ 1 / (1 + K) := by
    rw [le_div_iff₀ hs0]
    linarith
  refine ⟨1 / (1 + K), hA2, hA1, ?_⟩
  intro b hz
  unfold Machine.amass
  rw [coszen_zenith_zero b hz, hz]
  simp only [ofScientific_eq_fin, zero_eq_fin, neg_fin, fin_sub_fin, sub_zero]
  rw [goMath_Pow_pos _ _ (by norm_num) (by norm_num), fin_mul_fin]
  have h10 : (OfScientific.ofScientific 10 true 1 : ℝ) = 1 := by norm_num
  rw [hK, fin_add_fin, fin_div_fin _ _ (ne_of_gt hs0), h10,
    flush_of_le _ (Or.inl (by linarith))]

end F64

end F64Evaluation

section F64ClearSky

namespace F64

theorem fin_zero_div_one : fin 0 / fin 1 = fin 0 :=
  fin_zero_div_fin 1 one_ne_zero

/-- With no pressure, ozone or water vapour, and a finite air mass, the Rayleigh, ozone,
mixed-gas and water-vapour transmittances are exactly 1. -/
theorem clear_transmittances (b : bird F64) (A : ℝ) (hA : Machine.amass goMath b = fin A)
    (hp : b.pressure = 0) (ho : b.ozone = 0) (hw : b.water = 0) :
    Machine.tRayliegh goMath b = fin 1 ∧ Machine.tOzone goMath b = fin 1
    ∧ Machine.tGases goMath b = fin 1 ∧ Machine.tWater goMath b = fin 1 := by
  have hpress : Machine.press goMath b = fin 0 := by
    unfold Machine.press
    rw [hp, hA, zero_eq_fin, fin_zero_mul_fin, ofNat_eq_fin, fin_zero_div_fin _ (by norm_num)]
  have hoz : Machine.oz goMath b = fin 0 := by
    unfold Machine.oz
    rw [ho, hA, zero_eq_fin, fin_zero_mul_fin]
  have hwat : Machine.wat goMath b = fin 0 := by
    unfold Machine.wat
    rw [hw, hA, zero_eq_fin, fin_zero_mul_fin]
  refine ⟨?_, ?_, ?_, ?_⟩
  · unfold Machine.tRayliegh
    rw [hpress]
    simp only [ofScientific_eq_fin, one_eq_fin, neg_fin]
    rw [goMath_Pow_zero _ (by norm_num), goMath_Pow_zero _ (by norm_num)]
    simp only [fin_add_fin, fin_sub_fin, fin_mul_fin_zero, fin_zero_mul_fin, goMath_Exp_zero]
  · unfold Machine.tOzone
    rw [hoz]
    simp only [ofScientific_eq_fin, one_eq_fin, neg_fin, fin_mul_fin_zero, fin_zero_mul_fin,
      fin_add_fin, add_zero, goMath_Pow_one, fin_zero_div_one, fin_sub_fin, sub_zero]
  · unfold Machine.tGases
    rw [hpress]
    simp only [ofScientific_eq_fin, neg_fin]
    rw [goMath_Pow_zero _ (by norm_num), fin_mul_fin_zero, goMath_Exp_zero]
  · unfold Machine.tWater
    rw [hwat]
    simp only [ofScientific_eq_fin, one_eq_fin, fin_mul_fin_zero, fin_add_fin, add_zero,
      goMath_Pow_one, fin_zero_div_one, fin_sub_fin, sub_zero]

theorem isFinite_fin (a : ℝ) : isFinite (fin a) := trivial

/-- On the empty-atmosphere input every transmittance is 1 and directNormal is finite. -/
theorem emptyAtmosphere_directNormal_finite :
    isFinite (Machine.directNormal goMath (Machine.emptyAtmosphereInput : bird F64)) := by
  obtain ⟨A, hA0, hA1, hA⟩ := amass_zenith_zero
  have hAm := hA (Machine.emptyAtmosphereInput : bird F64) rfl
  obtain ⟨hR, hO, hG, hW⟩ := clear_transmittances _ A hAm rfl rfl rfl
  have hT : Machine.tAerosol goMath (Machine.emptyAtmosphereInput : bird F64) = fin 1 := by
    unfold Machine.tAerosol
    rw [hAm]
    show goMath.Exp (-(goMath.Pow 0 _) * (1 + 0 - goMath.Pow 0 _) * _) = _
    simp only [ofScientific_eq_fin, zero_eq_fin, one_eq_fin]
    rw [(goMath_Pow_mid A _ (by linarith) hA1 (by norm_num) (by norm_num)).1]
    rw [goMath_Pow_zero _ (by norm_num), goMath_Pow_zero _ (by norm_num)]
    simp only [neg_fin, neg_zero, fin_add_fin, fin_sub_fin, fin_zero_mul_fin, goMath_Exp_zero]
  have hE : Machine.etrn (Machine.emptyAtmosphereInput : bird F64) = fin 1367 := by
    unfold Machine.etrn
    show _ / ((1 : F64) * 1) = _
    rw [ofScientific_eq_fin, one_eq_fin, fin_mul_fin, mul_one,
      flush_of_le _ (Or.inl (by norm_num)), fin_div_fin _ _ one_ne_zero,
      flush_of_le _ (Or.inl (by norm_num))]
    norm_num
  unfold Machine.directNormal
  rw [hE, hT, hW, hG, hO, hR]
  simp only [ofScientific_eq_fin, fin_mul_fin]
  exact trivial

end F64

end F64ClearSky

section F64Intervals

namespace F64

theorem between_fin (a : ℝ) : between (fin a) a a := ⟨a, rfl, le_refl a, le_refl a⟩

theorem between_mono {x : F64} {l u : ℝ} (l' u' : ℝ) (h : between x l u) (hl : l' ≤ l)
    (hu : u ≤ u') : between x l' u' := by
  obtain ⟨a, rfl, h1, h2⟩ := h
  exact ⟨a, rfl, hl.trans h1, h2.trans hu⟩

theorem between_add {x y : F64} {l1 u1 l2 u2 : ℝ} (hx : between x l1 u1)
    (hy : between y l2 u2) : between (x + y) (l1 + l2) (u1 + u2) := by
  obtain ⟨a, rfl, h1, h2⟩ := hx
  obtain ⟨b, rfl, h3, h4⟩ := hy
  exact ⟨a + b, fin_add_fin a b, by linarith, by linarith⟩

theorem between_sub {x y : F64} {l1 u1 l2 u2 : ℝ} (hx : between x l1 u1)
    (hy : between y l2 u2) : between (x - y) (l1 - u2) (u1 - l2) := by
  obtain ⟨a, rfl, h1, h2⟩ := hx
  obtain ⟨b, rfl, h3, h4⟩ := hy
  exact ⟨a - b, fin_sub_fin a b, by linarith, by linarith⟩

theorem between_mul {x y : F64} {l1 u1 l2 u2 : ℝ} (hx : between x l1 u1)
    (hy : between y l2 u2) (h1 : 0 ≤ l1) (h2 : 0 ≤ l2) (h : 1 / 1024 ≤ l1 * l2) :
    between (x * y) (l1 * l2) (u1 * u2) := by
  obtain ⟨a, rfl, ha1, ha2⟩ := hx
  obtain ⟨b, rfl, hb1, hb2⟩ := hy
  have hl : l1 * l2 ≤ a * b := mul_le_mul ha1 hb1 h2 (h1.trans ha1)
  have hu : a * b ≤ u1 * u2 := mul_le_mul ha2 hb2 (h2.trans hb1) ((h1.trans ha1).trans ha2)
  exact ⟨a * b, fin_mul_fin_of_le a b (Or.inl (h.trans hl)), hl, hu⟩

theorem between_div {x y : F64} {l1 u1 l2 u2 : ℝ} (hx : between x l1 u1)
    (hy : between y l2 u2) (h1 : 0 ≤ l1) (h2 : 0 < l2) (h : 1 / 1024 ≤ l1 / u2) :
    between (x / y) (l1 / u2) (u1 / l2) := by
  obtain ⟨a, rfl, ha1, ha2⟩ := hx
  obtain ⟨b, rfl, hb1, hb2⟩ := hy
  have hb0 : 0 < b := lt_of_lt_of_le h2 hb1
  have hl : l1 / u2 ≤ a / b := div_le_div₀ (h1.trans ha1) ha1 hb0 hb2
  have hu : a / b ≤ u1 / l2 := div_le_div₀ ((h1.trans ha1).trans ha2) ha2 h2 hb1
  exact ⟨a / b, fin_div_fin_of_le a b (ne_of_gt hb0) (Or.inl (h.trans hl)), hl, hu⟩

theorem between_pow {x : F64} {l u : ℝ} (hx : between x l u) (hl : 1 / 2 ≤ l) (hu : u ≤ 1)
    (e : ℝ) (he : 0 < e) (he2 : e ≤ 2) : between (goMath.Pow x (fin e)) (l ^ 2) 1 := by
  obtain ⟨a, rfl, ha1, ha2⟩ := hx
  obtain ⟨h1, h2, h3⟩ := goMath_Pow_mid a e (hl.trans ha1) (ha2.trans hu) he he2
  refine ⟨Real.rpow a e, h1, ?_, h3⟩
  have : l ^ 2 ≤ a ^ 2 := pow_le_pow_left₀ (by linarith) ha1 2
  linarith

/-- The exponential of the opposite of a value in `[0,1]`. -/
theorem between_exp_neg {x : F64} {l u : ℝ} (hx : between x l u) (hl : 1 / 1024 ≤ l)
    (hu : u ≤ 1) : between (goMath.Exp (fin (-1) * x)) (1 / 3) (1 / (1 + l)) := by
  obtain ⟨a, rfl, ha1, ha2⟩ := hx
  have ha0 : 0 < a := by linarith
  have e1 : fin (-1) * fin a = fin (-a) := by
    rw [fin_mul_fin_of_le _ _ (Or.inr (by linarith)), neg_one_mul]
  have hexp1 : Real.exp a ≤ 3 := by
    have h1 : Real.exp a ≤ Real.exp 1 := Real.exp_le_exp.mpr (ha2.trans hu)
    have h2 := Real.exp_one_lt_d9
    linarith
  have hexp2 : 1 + l ≤ Real.exp a := by
    have := Real.add_one_le_exp a
    linarith
  have hpos : 0 < Real.exp a := Real.exp_pos a
  have hlo : 1 / 3 ≤ Real.exp (-a) := by
    rw [Real.exp_neg, ← one_div]
    exact div_le_div₀ zero_le_one (le_refl 1) hpos hexp1
  have hhi : Real.exp (-a) ≤ 1 / (1 + l) := by
    rw [Real.exp_neg, ← one_div]
    exact div_le_div₀ zero_le_one (le_refl 1) (by linarith) hexp2
  refine ⟨Real.exp (-a), ?_, hlo, hhi⟩
  rw [e1]
  show fin (flush (Real.exp (-a))) = fin (Real.exp (-a))
  rw [flush_of_le _ (Or.inl (by linarith))]

theorem posInf_mul_between {y : F64} {l u : ℝ} (hy : between y l u) (hl : 0 < l) :
    posInf * y = posInf := by
  obtain ⟨a, rfl, ha1, ha2⟩ := hy
  have ha : 0 < a := lt_of_lt_of_le hl ha1
  show infTimes true a = posInf
  simp [infTimes, ha, ne_of_gt ha]

theorem fin_mul_posInf (a : ℝ) (ha : 0 < a) : fin a * posInf = posInf := by
  show infTimes true a = posInf
  simp [infTimes, ha, ne_of_gt ha]

theorem posInf_div_between {y : F64} {l u : ℝ} (hy : between y l u) (hl : 0 ≤ l) :
    posInf / y = posInf := by
  obtain ⟨a, rfl, ha1, ha2⟩ := hy
  show (if 0 ≤ a then posInf else negInf) = posInf
  rw [if_pos (hl.trans ha1)]

end F64

end F64Intervals

section F64TinyRadius

namespace F64

theorem posInf_mul_fin (a : ℝ) (ha : 0 < a) : posInf * fin a = posInf :=
  posInf_mul_between (between_fin a) ha

theorem fin_zero_add (x : F64) : fin 0 + x = x := zero_add_eq x

/-- The values that `Calculate` computes on `tinyRadiusInput`: the square of the earth radius
vector underflows to zero, so `etrn`, directNormal and `ias` are +Inf, while the cosine of the
zenith angle is 1 and the divisor `1 - albedo*rs` is finite and positive. -/
theorem tinyRadius_values :
    Machine.etrn tinyRadiusInput = posInf
    ∧ Machine.coszen goMath tinyRadiusInput = fin 1
    ∧ Machine.directNormal goMath tinyRadiusInput = posInf
    ∧ Machine.ias goMath tinyRadiusInput = posInf
    ∧ between (1 - tinyRadiusInput.albedo * Machine.rs goMath tinyRadiusInput) (9 / 10) 1 := by
  obtain ⟨A, hA0, hA1, hA⟩ := amass_zenith_zero
  have hAm := hA tinyRadiusInput rfl
  have bA : between (Machine.amass goMath tinyRadiusInput) (13 / 20) 1 := ⟨A, hAm, hA0, hA1⟩
  obtain ⟨hR, hO, hG, hW⟩ := clear_transmittances _ A hAm rfl rfl rfl
  have hC := coszen_zenith_zero tinyRadiusInput rfl
  have hE : Machine.etrn tinyRadiusInput = posInf := by
    unfold Machine.etrn
    show (1367.0 : F64) / ((1e-200 : F64) * 1e-200) = posInf
    rw [ofScientific_eq_fin, ofScientific_eq_fin, fin_mul_fin]
    have hz : flush (1e-200 * 1e-200) = 0 := by
      unfold flush
      rw [if_pos]
      constructor <;> norm_num
    rw [hz]
    show (if (0 : ℝ) = 0 then
        (if (1367.0 : ℝ) = 0 then nan else if 0 < (1367.0 : ℝ) then posInf else negInf)
      else fin (flush (1367.0 / 0))) = posInf
    rw [if_pos rfl, if_neg (by norm_num), if_pos (by norm_num)]
  have bP : between (goMath.Pow (Machine.amass goMath tinyRadiusInput) (fin 0.9108))
      ((13 / 20) ^ 2) 1 :=
    between_pow bA (by norm_num) (le_refl 1) _ (by norm_num) (by norm_num)
  have bQ : between (goMath.Pow (Machine.amass goMath tinyRadiusInput) (fin 1.06))
      ((13 / 20) ^ 2) 1 :=
    between_pow bA (by norm_num) (le_refl 1) _ (by norm_num) (by norm_num)
  have bQ2 : between (goMath.Pow (Machine.amass goMath tinyRadiusInput) (fin 1.02))
      ((13 / 20) ^ 2) 1 :=
    between_pow bA (by norm_num) (le_refl 1) _ (by norm_num) (by norm_num)
  have bT : between (Machine.tAerosol goMath tinyRadiusInput) (1 / 3) (3 / 4) := by
    have e : Machine.tAerosol goMath tinyRadiusInput
        = goMath.Exp (fin (-1)
            * goMath.Pow (Machine.amass goMath tinyRadiusInput) (fin 0.9108)) := by
      unfold Machine.tAerosol
      show goMath.Exp (-(goMath.Pow 1 _) * (1 + 1 - goMath.Pow 1 _) * _) = _
      simp only [ofScientific_eq_fin, one_eq_fin, goMath_Pow_one, neg_fin, fin_add_fin,
        fin_sub_fin]
      rw [fin_mul_fin_of_le (-1) (1 + 1 - 1) (Or.inr (by norm_num))]
      norm_num
    rw [e]
    exact between_mono _ _ (between_exp_neg bP (by norm_num) (le_refl 1)) (le_refl _)
      (by norm_num)
  have bTaa : between (Machine.taa goMath tinyRadiusInput) (9 / 10) 1 := by
    have h : between (fin 1 - fin 0.1
        * (fin 1 - Machine.amass goMath tinyRadiusInput
            + goMath.Pow (Machine.amass goMath tinyRadiusInput) (fin 1.06))
        * (fin 1 - Machine.tAerosol goMath tinyRadiusInput)) _ _ :=
      between_sub (between_fin 1)
        (between_mul
          (between_mul (between_fin 0.1) (between_add (between_sub (between_fin 1) bA) bQ)
            (by norm_num) (by norm_num) (by norm_num))
          (between_sub (between_fin 1) bT) (by norm_num) (by norm_num) (by norm_num))
    exact between_mono _ _ h (by norm_num) (by norm_num)
  have bW : between (fin 1 - Machine.tAerosol goMath tinyRadiusInput
      / Machine.taa goMath tinyRadiusInput) (1 / 6) (2 / 3) :=
    between_mono _ _
      (between_sub (between_fin 1)
        (between_div bT bTaa (by norm_num) (by norm_num) (by norm_num)))
      (by norm_num) (by norm_num)
  have bRs : between (Machine.rs goMath tinyRadiusInput) (9 / 100) (17 / 100) := by
    have h : between (fin 0.0685 + (fin 1 - fin 0.85)
        * (fin 1 - Machine.tAerosol goMath tinyRadiusInput
            / Machine.taa goMath tinyRadiusInput)) _ _ :=
      between_add (between_fin 0.0685)
        (between_mul (between_sub (between_fin 1) (between_fin 0.85)) bW (by norm_num)
          (by norm_num) (by norm_num))
    exact between_mono _ _ h (by norm_num) (by norm_num)
  have bD : between (1 - tinyRadiusInput.albedo * Machine.rs goMath tinyRadiusInput)
      (9 / 10) 1 := by
    have h : between (fin 1 - fin 0.2 * Machine.rs goMath tinyRadiusInput) _ _ :=
      between_sub (between_fin 1)
        (between_mul (between_fin 0.2) bRs (by norm_num) (by norm_num) (by norm_num))
    exact between_mono _ _ h (by norm_num) (by norm_num)
  have hDN : Machine.directNormal goMath tinyRadiusInput = posInf := by
    unfold Machine.directNormal
    rw [hE, hW, hG, hO, hR, ofScientific_eq_fin, fin_mul_posInf _ (by norm_num),
      posInf_mul_between bT (by norm_num)]
    simp only [posInf_mul_fin 1 one_pos]
  have hI : Machine.ias goMath tinyRadiusInput = posInf := by
    have hbr : between (fin 0.85 * (fin 1 - Machine.tAerosol goMath tinyRadiusInput
        / Machine.taa goMath tinyRadiusInput)) (0.85 * (1 / 6)) (0.85 * (2 / 3)) :=
      between_mul (between_fin 0.85) bW (by norm_num) (by norm_num) (by norm_num)
    have hden : between (fin 1 - Machine.amass goMath tinyRadiusInput
        + goMath.Pow (Machine.amass goMath tinyRadiusInput) (fin 1.02))
        (1 - 1 + (13 / 20) ^ 2) (1 - 13 / 20 + 1) :=
      between_add (between_sub (between_fin 1) bA) bQ2
    unfold Machine.ias
    rw [hE, hC, hO, hG, hW, hR]
    show posInf * fin 1 * fin 0.79 * fin 1 * fin 1 * fin 1 * Machine.taa goMath tinyRadiusInput
      * (fin 0.5 * (fin 1 - fin 1) + fin 0.85 * (fin 1 - Machine.tAerosol goMath tinyRadiusInput
          / Machine.taa goMath tinyRadiusInput))
      / (fin 1 - Machine.amass goMath tinyRadiusInput
          + goMath.Pow (Machine.amass goMath tinyRadiusInput) (fin 1.02)) = posInf
    rw [fin_sub_fin 1 1, sub_self, fin_mul_fin_zero, fin_zero_add]
    simp only [posInf_mul_fin 1 one_pos]
    rw [posInf_mul_fin _ (by norm_num)]
    simp only [posInf_mul_fin 1 one_pos]
    rw [posInf_mul_between bTaa (by norm_num), posInf_mul_between hbr (by norm_num),
      posInf_div_between hden (by norm_num)]
  exact ⟨hE, hC, hDN, hI, bD⟩

end F64

end F64TinyRadius

section MachineClaims

/-- C1 as stated fails: on the example inputs with a NaN ozone thickness, ozone does not lie in
`[0,100]` and yet `Calculate` returns no error. -/
theorem Calculate_nan_ozone_accepted :
    ¬ Machine.inRange F64.nanOzoneInput.ozone
    ∧ (Machine.Calculate F64.goMath F64.nanOzoneInput).1 = none := by
  constructor
  · intro h
    exact F64.not_le_nan _ h.1
  · rw [machine_Calculate_fst, machine_validate_eq_none_iff]
    simp only [Machine.rejected, F64.nanOzoneInput, Machine.exampleInput, F64.zero_eq_fin,
      F64.ofNat_eq_fin, F64.ofScientific_eq_fin, gt_iff_lt, F64.fin_lt_fin, F64.not_nan_lt,
      F64.not_lt_nan]
    norm_num

/-- C1, amended: `Calculate` returns an error if and only if at least one of ozone, water, taua,
ba, albedo, dniMod satisfies the test `x < 0 || x > 100` of `validate`, whatever the arithmetic
of the numbers; replacing zenith, r and pressure by any values never changes the error; and on
`float64` values the test holds of `x` exactly when `x` is not NaN and lies outside `[0,100]`,
so a NaN field is accepted. -/
theorem Calculate_error_iff_rejected {F : Type} [FloatOps F] (m : MathFns F) (b : bird F) :
    ((Machine.Calculate m b).1 ≠ none ↔
      (Machine.rejected b.ozone ∨ Machine.rejected b.water ∨ Machine.rejected b.taua
        ∨ Machine.rejected b.ba ∨ Machine.rejected b.albedo ∨ Machine.rejected b.dniMod))
    ∧ (∀ z r p : F,
        (Machine.Calculate m { b with zenith := z, r := r, pressure := p }).1
          = (Machine.Calculate m b).1)
    ∧ (∀ x : F64, Machine.rejected x ↔ (x ≠ F64.nan ∧ ¬ Machine.inRange x)) := by
  refine ⟨?_, ?_, ?_⟩
  · rw [machine_Calculate_fst, Ne, machine_validate_eq_none_iff]
    generalize Machine.rejected b.ozone = p1
    generalize Machine.rejected b.water = p2
    generalize Machine.rejected b.taua = p3
    generalize Machine.rejected b.ba = p4
    generalize Machine.rejected b.albedo = p5
    generalize Machine.rejected b.dniMod = p6
    tauto
  · intro z r p
    rw [machine_Calculate_fst, machine_Calculate_fst]
    rfl
  · intro x
    cases x with
    | nan =>
      simp only [Machine.rejected, Machine.inRange, gt_iff_lt, F64.not_nan_lt, F64.not_lt_nan]
      tauto
    | posInf =>
      simp only [Machine.rejected, Machine.inRange, gt_iff_lt, F64.zero_eq_fin,
        F64.ofNat_eq_fin]
      constructor
      · intro _
        exact ⟨by simp, fun h => h.2⟩
      · intro _
        exact Or.inr trivial
    | negInf =>
      simp only [Machine.rejected, Machine.inRange, gt_iff_lt, F64.zero_eq_fin,
        F64.ofNat_eq_fin]
      constructor
      · intro _
        exact ⟨by simp, fun h => h.1⟩
      · intro _
        exact Or.inl trivial
    | fin a =>
      simp only [Machine.rejected, Machine.inRange, gt_iff_lt, F64.zero_eq_fin,
        F64.ofNat_eq_fin, F64.fin_lt_fin, F64.fin_le_fin]
      constructor
      · intro h
        refine ⟨by simp, fun h2 => ?_⟩
        rcases h with h | h <;> linarith [h2.1, h2.2]
      · rintro ⟨_, h⟩
        by_contra h2
        rw [not_or, not_lt, not_lt] at h2
        exact h h2

/-- C2 as stated fails: on the example inputs with a NaN ozone thickness and water vapour `-1`,
the first field outside `[0,100]` is ozone, and the error of `Calculate` is the water message. -/
theorem Calculate_error_not_first_violation :
    ¬ Machine.inRange F64.nanOzoneNegativeWaterInput.ozone
    ∧ Machine.firstViolation F64.nanOzoneNegativeWaterInput
        = some "invalid ozone thickness [cm]"
    ∧ (Machine.Calculate F64.goMath F64.nanOzoneNegativeWaterInput).1
        = some "invalid water vapor [cm]" := by
  have h : ¬ Machine.inRange F64.nanOzoneNegativeWaterInput.ozone := fun h =>
    F64.not_le_nan _ h.1
  refine ⟨h, ?_, ?_⟩
  · unfold Machine.firstViolation Machine.checkedFields
    simp [List.find?, h]
  · rw [machine_Calculate_fst]
    unfold Machine.validate
    have h1 : ¬ (F64.nanOzoneNegativeWaterInput.ozone < 0
        ∨ F64.nanOzoneNegativeWaterInput.ozone > 100) := by
      rintro (h1 | h1)
      · exact F64.not_nan_lt _ h1
      · exact F64.not_lt_nan _ h1
    have h2 : F64.nanOzoneNegativeWaterInput.water < 0 := by
      show -(1 : F64) < 0
      rw [F64.one_eq_fin, F64.neg_fin, F64.zero_eq_fin, F64.fin_lt_fin]
      norm_num
    rw [if_neg h1, if_pos (Or.inl h2)]

/-- C2, amended: the error of `Calculate` is the message of the first field, in the order
ozone, water, taua, ba, albedo, dniMod, that satisfies the test `x < 0 || x > 100` (none when
there is no such field), whatever the arithmetic of the numbers; the six messages are pairwise
distinct; and on `float64` values with none of the six fields NaN this is the first field that
lies outside `[0,100]`. -/
theorem Calculate_error_first_rejected {F : Type} [FloatOps F] (m : MathFns F) (b : bird F) :
    (Machine.Calculate m b).1 = Machine.firstRejected b
    ∧ ((Machine.checkedFields b).map Prod.snd).Nodup
    ∧ (∀ c : bird F64, c.ozone ≠ F64.nan → c.water ≠ F64.nan → c.taua ≠ F64.nan →
        c.ba ≠ F64.nan → c.albedo ≠ F64.nan → c.dniMod ≠ F64.nan →
        Machine.firstRejected c = Machine.firstViolation c) := by
  refine ⟨?_, ?_, ?_⟩
  · rw [machine_Calculate_fst, machine_validate_eq_firstRejected]
  · unfold Machine.checkedFields
    simp only [List.map]
    decide
  · intro c h1 h2 h3 h4 h5 h6
    have key : ∀ x : F64, x ≠ F64.nan → (Machine.rejected x ↔ ¬ Machine.inRange x) := by
      intro x hx
      cases x with
      | nan => exact absurd rfl hx
      | posInf =>
        simp only [Machine.rejected, Machine.inRange, gt_iff_lt, F64.zero_eq_fin,
          F64.ofNat_eq_fin]
        exact ⟨fun _ h => h.2, fun _ => Or.inr trivial⟩
      | negInf =>
        simp only [Machine.rejected, Machine.inRange, gt_iff_lt, F64.zero_eq_fin,
          F64.ofNat_eq_fin]
        exact ⟨fun _ h => h.1, fun _ => Or.inl trivial⟩
      | fin a =>
        simp only [Machine.rejected, Machine.inRange, gt_iff_lt, F64.zero_eq_fin,
          F64.ofNat_eq_fin, F64.fin_lt_fin, F64.fin_le_fin]
        rw [not_and_or, not_le, not_le]
    unfold Machine.firstRejected Machine.firstViolation Machine.checkedFields
    simp only [List.find?, key _ h1, key _ h2, key _ h3, key _ h4, key _ h5, key _ h6]

end MachineClaims

section MachineStateClaims

/-- C9 as stated fails: the example inputs with a NaN dniMod, on a fresh record and on one with
stale outputs 1 to 7.  The two records agree on the nine inputs and `Calculate` succeeds on
both, but it leaves directNormalMod at 0 on the first and at 5 on the second. -/
theorem Calculate_nan_dniMod_keeps_stale_outputs :
    Machine.sameInputs F64.nanDniModInput (Machine.staleOutputs F64.nanDniModInput)
    ∧ (Machine.Calculate F64.goMath F64.nanDniModInput).1 = none
    ∧ (Machine.Calculate F64.goMath (Machine.staleOutputs F64.nanDniModInput)).1 = none
    ∧ (Machine.Calculate F64.goMath F64.nanDniModInput).2.directNormalMod = 0
    ∧ (Machine.Calculate F64.goMath (Machine.staleOutputs F64.nanDniModInput)).2.directNormalMod
        = 5
    ∧ (Machine.Calculate F64.goMath F64.nanDniModInput).2.directNormalMod
        ≠ (Machine.Calculate F64.goMath
            (Machine.staleOutputs F64.nanDniModInput)).2.directNormalMod := by
  obtain ⟨hs, hf⟩ := machine_nanDniModInput_accepted _ rfl
  have hg : Machine.fullGeometry F64.nanDniModInput := machine_exampleInput_geometry
  have hgs : Machine.fullGeometry (Machine.staleOutputs F64.nanDniModInput) :=
    machine_exampleInput_geometry
  have hd : ¬ F64.nanDniModInput.dniMod ≥ 0 := F64.not_le_nan _
  have hds : ¬ (Machine.staleOutputs F64.nanDniModInput).dniMod ≥ 0 := F64.not_le_nan _
  have e1 : (Machine.Calculate F64.goMath F64.nanDniModInput).2.directNormalMod = 0 := by
    rw [machine_Calculate_of_full F64.goMath _ hf hg]
    dsimp only
    rw [if_neg hd]
    rfl
  have e2 : (Machine.Calculate F64.goMath
      (Machine.staleOutputs F64.nanDniModInput)).2.directNormalMod = 5 := by
    rw [machine_Calculate_of_full F64.goMath _ hs hgs]
    dsimp only
    rw [if_neg hds]
    rfl
  refine ⟨⟨rfl, rfl, rfl, rfl, rfl, rfl, rfl, rfl, rfl⟩, ?_, ?_, e1, e2, ?_⟩
  · rw [machine_Calculate_fst]
    exact hf
  · rw [machine_Calculate_fst]
    exact hs
  · rw [e1, e2, F64.zero_eq_fin, F64.ofNat_eq_fin]
    intro h
    have h2 : (0 : ℝ) = 5 := F64.fin.inj h
    norm_num at h2

/-- C9, amended: two records that agree on the nine inputs, whatever their outputs and whatever
the arithmetic of the numbers.  If `Calculate` succeeds on the first it succeeds on the second,
and the two results agree on amass, directNormal, globalHoriz and diffuseHoriz.  They agree on
the three modified outputs when the test `dniMod >= 0` holds or the geometry test fails; when
the geometry test holds and `dniMod >= 0` fails, each record keeps the modified outputs it had.
On `float64` values that pass `validate`, `dniMod >= 0` fails exactly for NaN. -/
theorem Calculate_outputs_from_inputs {F : Type} [FloatOps F] (m : MathFns F) (b c : bird F)
    (hi : Machine.sameInputs b c) (hs : (Machine.Calculate m b).1 = none) :
    (Machine.Calculate m c).1 = none
    ∧ (Machine.Calculate m b).2.amass = (Machine.Calculate m c).2.amass
    ∧ (Machine.Calculate m b).2.directNormal = (Machine.Calculate m c).2.directNormal
    ∧ (Machine.Calculate m b).2.globalHoriz = (Machine.Calculate m c).2.globalHoriz
    ∧ (Machine.Calculate m b).2.diffuseHoriz = (Machine.Calculate m c).2.diffuseHoriz
    ∧ ((b.dniMod ≥ 0 ∨ ¬ Machine.fullGeometry b) →
        (Machine.Calculate m b).2.directNormalMod = (Machine.Calculate m c).2.directNormalMod
        ∧ (Machine.Calculate m b).2.globalHorizMod = (Machine.Calculate m c).2.globalHorizMod
        ∧ (Machine.Calculate m b).2.diffuseHorizMod
            = (Machine.Calculate m c).2.diffuseHorizMod)
    ∧ ((¬ b.dniMod ≥ 0 ∧ Machine.fullGeometry b) →
        (Machine.Calculate m b).2.directNormalMod = b.directNormalMod
        ∧ (Machine.Calculate m b).2.globalHorizMod = b.globalHorizMod
        ∧ (Machine.Calculate m b).2.diffuseHorizMod = b.diffuseHorizMod
        ∧ (Machine.Calculate m c).2.directNormalMod = c.directNormalMod
        ∧ (Machine.Calculate m c).2.globalHorizMod = c.globalHorizMod
        ∧ (Machine.Calculate m c).2.diffuseHorizMod = c.diffuseHorizMod)
    ∧ (∀ x : F64, ¬ Machine.rejected x → (x ≥ 0 ↔ x ≠ F64.nan)) := by
  obtain ⟨z, r, p, o, w, t, ba, al, dm, a1, a2, a3, a4, a5, a6, a7⟩ := b
  obtain ⟨z', r', p', o', w', t', ba', al', dm', c1, c2, c3, c4, c5, c6, c7⟩ := c
  obtain ⟨h1, h2, h3, h4, h5, h6, h7, h8, h9⟩ := hi
  dsimp only at h1 h2 h3 h4 h5 h6 h7 h8 h9
  subst h1 h2 h3 h4 h5 h6 h7 h8 h9
  rw [machine_Calculate_fst] at hs
  have hc : Machine.validate (bird.mk z r p o w t ba al dm c1 c2 c3 c4 c5 c6 c7) = none := hs
  have last : ∀ x : F64, ¬ Machine.rejected x → (x ≥ 0 ↔ x ≠ F64.nan) := by
    intro x hx
    cases x with
    | nan => exact ⟨fun h => absurd h (F64.not_le_nan _), fun h => absurd rfl h⟩
    | posInf => exact absurd (Or.inr trivial) hx
    | negInf => exact absurd (Or.inl trivial) hx
    | fin a =>
      simp only [Machine.rejected, gt_iff_lt, ge_iff_le, F64.zero_eq_fin, F64.ofNat_eq_fin,
        F64.fin_lt_fin, F64.fin_le_fin, not_or, not_lt] at hx ⊢
      exact ⟨fun _ => by simp, fun _ => hx.1⟩
  refine ⟨by rw [machine_Calculate_fst]; exact hc, ?_⟩
  by_cases hg : Machine.fullGeometry (bird.mk z r p o w t ba al dm a1 a2 a3 a4 a5 a6 a7)
  · have hg' : Machine.fullGeometry (bird.mk z r p o w t ba al dm c1 c2 c3 c4 c5 c6 c7) := hg
    rw [machine_Calculate_of_full m _ hs hg, machine_Calculate_of_full m _ hc hg']
    by_cases hd : dm ≥ 0
    · dsimp only
      rw [if_pos hd, if_pos hd]
      exact ⟨rfl, rfl, rfl, rfl, fun _ => ⟨rfl, rfl, rfl⟩, fun h => absurd hd h.1, last⟩
    · dsimp only
      rw [if_neg hd, if_neg hd]
      exact ⟨rfl, rfl, rfl, rfl, fun h => h.elim (fun h => absurd h hd) (fun h => absurd hg h),
        fun _ => ⟨rfl, rfl, rfl, rfl, rfl, rfl⟩, last⟩
  · have hg' : ¬ Machine.fullGeometry (bird.mk z r p o w t ba al dm c1 c2 c3 c4 c5 c6 c7) := hg
    rw [machine_Calculate_of_degenerate m _ hs hg, machine_Calculate_of_degenerate m _ hc hg']
    exact ⟨rfl, rfl, rfl, rfl, fun _ => ⟨rfl, rfl, rfl⟩, fun h => absurd h.2 hg, last⟩

/-- Witness of the amended C9: the example inputs on a fresh record and on one with stale
outputs 1 to 7. -/
theorem Calculate_outputs_from_inputs_witness :
    Machine.sameInputs (Machine.exampleInput : bird F64)
      (Machine.staleOutputs Machine.exampleInput)
    ∧ (Machine.Calculate F64.goMath (Machine.exampleInput : bird F64)).1 = none
    ∧ (Machine.Calculate F64.goMath (Machine.exampleInput : bird F64)).2.globalHoriz
        = (Machine.Calculate F64.goMath
            (Machine.staleOutputs (Machine.exampleInput : bird F64))).2.globalHoriz
    ∧ (Machine.Calculate F64.goMath (Machine.exampleInput : bird F64)).2.globalHorizMod
        = (Machine.Calculate F64.goMath
            (Machine.staleOutputs (Machine.exampleInput : bird F64))).2.globalHorizMod :=
  have hi : Machine.sameInputs (Machine.exampleInput : bird F64)
      (Machine.staleOutputs Machine.exampleInput) :=
    ⟨rfl, rfl, rfl, rfl, rfl, rfl, rfl, rfl, rfl⟩
  have hs : (Machine.Calculate F64.goMath (Machine.exampleInput : bird F64)).1 = none := by
    rw [machine_Calculate_fst]
    exact machine_exampleInput_accepted
  have hd : (Machine.exampleInput : bird F64).dniMod ≥ 0 := by
    show (0 : F64) ≤ 0
    rw [F64.zero_eq_fin, F64.fin_le_fin]
  have h := Calculate_outputs_from_inputs F64.goMath _ _ hi hs
  ⟨hi, hs, h.2.2.2.1, (h.2.2.2.2.2.1 (Or.inl hd)).2.1⟩

/-- C6, amended: when `Calculate` succeeds on an input with `0 ≤ zenith < 90` and `r > 0`,
diffuseHoriz is the machine difference globalHoriz - directNormal * cos(zenith*pi/180),
globalHoriz being the machine quotient (directNormal*coszen + ias) / (1 - albedo*rs); and
likewise for the modified outputs when the test `dniMod >= 0` holds.  This holds whatever the
arithmetic of the numbers. -/
theorem Calculate_diffuse_is_difference {F : Type} [FloatOps F] (m : MathFns F) (b : bird F)
    (hs : (Machine.Calculate m b).1 = none) (h0 : b.zenith ≥ 0) (h90 : b.zenith < 90)
    (hr : b.r > 0) :
    (Machine.Calculate m b).2.diffuseHoriz
        = (Machine.Calculate m b).2.globalHoriz
          - (Machine.Calculate m b).2.directNormal * m.Cos (b.zenith * m.Pi / 180.0)
    ∧ (Machine.Calculate m b).2.globalHoriz
        = ((Machine.Calculate m b).2.directNormal * m.Cos (b.zenith * m.Pi / 180.0)
            + Machine.ias m b) / (1 - b.albedo * Machine.rs m b)
    ∧ (b.dniMod ≥ 0 →
        (Machine.Calculate m b).2.diffuseHorizMod
          = (Machine.Calculate m b).2.globalHorizMod
            - (Machine.Calculate m b).2.directNormalMod * m.Cos (b.zenith * m.Pi / 180.0)
        ∧ (Machine.Calculate m b).2.globalHorizMod
          = ((Machine.Calculate m b).2.directNormalMod * m.Cos (b.zenith * m.Pi / 180.0)
              + Machine.ias m b) / (1 - b.albedo * Machine.rs m b)) := by
  rw [machine_Calculate_fst] at hs
  rw [machine_Calculate_of_full m b hs ⟨h0, h90, hr⟩]
  by_cases hd : b.dniMod ≥ 0
  · rw [if_pos hd]
    exact ⟨rfl, rfl, fun _ => ⟨rfl, rfl⟩⟩
  · rw [if_neg hd]
    exact ⟨rfl, rfl, fun h => absurd h hd⟩

/-- Witness of the amended C6: the call of the example program. -/
theorem Calculate_diffuse_is_difference_witness :
    (Machine.Calculate F64.goMath (Machine.exampleInput : bird F64)).1 = none
    ∧ Machine.fullGeometry (Machine.exampleInput : bird F64)
    ∧ (Machine.Calculate F64.goMath (Machine.exampleInput : bird F64)).2.diffuseHoriz
        = (Machine.Calculate F64.goMath (Machine.exampleInput : bird F64)).2.globalHoriz
          - (Machine.Calculate F64.goMath (Machine.exampleInput : bird F64)).2.directNormal
            * F64.goMath.Cos
                ((Machine.exampleInput : bird F64).zenith * F64.goMath.Pi / 180.0) :=
  have hs : (Machine.Calculate F64.goMath (Machine.exampleInput : bird F64)).1 = none := by
    rw [machine_Calculate_fst]
    exact machine_exampleInput_accepted
  ⟨hs, machine_exampleInput_geometry,
   (Calculate_diffuse_is_difference F64.goMath (Machine.exampleInput : bird F64) hs
      machine_exampleInput_geometry.1 machine_exampleInput_geometry.2.1
      machine_exampleInput_geometry.2.2).1⟩

end MachineStateClaims

section MachineModClaims

/-- C19 as stated fails: on the example inputs, whose dniMod is 0, with a NaN pressure (the five
other validated fields in `[0,100]`, `0 ≤ zenith < 90`, `r > 0`), `Calculate` succeeds and
directNormalMod is NaN, not 0: the Rayleigh transmittance is NaN, so directNormal is. -/
theorem Calculate_dniMod_zero_nan_pressure :
    Machine.inRange F64.nanPressureInput.ozone
    ∧ Machine.inRange F64.nanPressureInput.water
    ∧ Machine.inRange F64.nanPressureInput.taua
    ∧ Machine.inRange F64.nanPressureInput.ba
    ∧ Machine.inRange F64.nanPressureInput.albedo
    ∧ F64.nanPressureInput.dniMod = 0
    ∧ Machine.fullGeometry F64.nanPressureInput
    ∧ (Machine.Calculate F64.goMath F64.nanPressureInput).1 = none
    ∧ (Machine.Calculate F64.goMath F64.nanPressureInput).2.directNormalMod = F64.nan
    ∧ (Machine.Calculate F64.goMath F64.nanPressureInput).2.directNormalMod ≠ 0 := by
  have hv : Machine.validate F64.nanPressureInput = none := machine_exampleInput_accepted
  have hg : Machine.fullGeometry F64.nanPressureInput := machine_exampleInput_geometry
  have hd : F64.nanPressureInput.dniMod ≥ 0 := by
    show (0 : F64) ≤ 0
    rw [F64.zero_eq_fin, F64.fin_le_fin]
  have hp : Machine.press F64.goMath F64.nanPressureInput = F64.nan := by
    unfold Machine.press
    show F64.nan * _ / _ = F64.nan
    rw [F64.nan_mul, F64.nan_div]
  have hR : Machine.tRayliegh F64.goMath F64.nanPressureInput = F64.nan := by
    unfold Machine.tRayliegh
    rw [hp, F64.ofScientific_eq_fin 84, F64.goMath_Pow_nan _ (by norm_num), F64.mul_nan,
      F64.nan_mul]
    rfl
  have hN : Machine.directNormal F64.goMath F64.nanPressureInput = F64.nan := by
    unfold Machine.directNormal
    rw [hR, F64.mul_nan]
  have e : (Machine.Calculate F64.goMath F64.nanPressureInput).2.directNormalMod = F64.nan := by
    rw [machine_Calculate_of_full F64.goMath _ hv hg, if_pos hd]
    show Machine.directNormal F64.goMath F64.nanPressureInput * _ = F64.nan
    rw [hN, F64.nan_mul]
  have hin : ∀ x : ℝ, 0 ≤ x → x ≤ 100 → Machine.inRange (F64.fin x) := by
    intro x h1 h2
    simp only [Machine.inRange, F64.zero_eq_fin, F64.ofNat_eq_fin, F64.fin_le_fin]
    exact ⟨h1, h2⟩
  refine ⟨?_, ?_, ?_, ?_, ?_, rfl, hg, ?_, e, ?_⟩
  · exact hin 0.3 (by norm_num) (by norm_num)
  · exact hin 1.5 (by norm_num) (by norm_num)
  · exact hin 0.08 (by norm_num) (by norm_num)
  · exact hin 0.85 (by norm_num) (by norm_num)
  · exact hin 0.2 (by norm_num) (by norm_num)
  · rw [machine_Calculate_fst]
    exact hv
  · rw [e]
    intro h
    cases h

/-- C19, amended: with dniMod = 0, the other five validated fields in `[0,100]`,
`0 ≤ zenith < 90` and `r > 0`, on `float64` values, with whatever `math` functions:
directNormalMod is directNormal * 0; and when directNormal and cos(zenith*pi/180) are finite
(neither NaN nor an infinity), directNormalMod = 0 and
globalHorizMod = diffuseHorizMod = ias / (1 - albedo * rs). -/
theorem Calculate_dniMod_zero_of_finite (m : MathFns F64) (b : bird F64)
    (ho : Machine.inRange b.ozone) (hw : Machine.inRange b.water) (ht : Machine.inRange b.taua)
    (hb : Machine.inRange b.ba) (ha : Machine.inRange b.albedo) (hd : b.dniMod = 0)
    (h0 : b.zenith ≥ 0) (h90 : b.zenith < 90) (hr : b.r > 0) :
    (Machine.Calculate m b).1 = none
    ∧ (Machine.Calculate m b).2.directNormalMod = (Machine.Calculate m b).2.directNormal * 0
    ∧ (F64.isFinite (Machine.Calculate m b).2.directNormal →
        F64.isFinite (m.Cos (b.zenith * m.Pi / 180.0)) →
        (Machine.Calculate m b).2.directNormalMod = 0
        ∧ (Machine.Calculate m b).2.globalHorizMod
            = Machine.ias m b / (1 - b.albedo * Machine.rs m b)
        ∧ (Machine.Calculate m b).2.diffuseHorizMod
            = Machine.ias m b / (1 - b.albedo * Machine.rs m b)) := by
  have hz : Machine.inRange (0 : F64) := by
    simp only [Machine.inRange, F64.zero_eq_fin, F64.ofNat_eq_fin, F64.fin_le_fin]
    norm_num
  have hv : Machine.validate b = none := by
    rw [machine_validate_eq_none_iff, hd]
    exact ⟨F64.not_rejected_of_inRange _ ho, F64.not_rejected_of_inRange _ hw,
      F64.not_rejected_of_inRange _ ht, F64.not_rejected_of_inRange _ hb,
      F64.not_rejected_of_inRange _ ha, F64.not_rejected_of_inRange _ hz⟩
  have hge : b.dniMod ≥ 0 := by
    rw [hd]
    exact hz.1
  rw [machine_Calculate_of_full m b hv ⟨h0, h90, hr⟩, if_pos hge]
  refine ⟨rfl, ?_, ?_⟩
  · show Machine.directNormal m b * b.dniMod = Machine.directNormal m b * 0
    rw [hd]
  · intro hf hc
    have hf' : F64.isFinite (Machine.directNormal m b) := hf
    have hc' : F64.isFinite (Machine.coszen m b) := hc
    have e1 : Machine.directNormal m b * b.dniMod = 0 := by
      rw [hd]
      exact F64.mul_zero_of_isFinite _ hf'
    refine ⟨e1, ?_, ?_⟩
    · show (Machine.directNormal m b * b.dniMod * Machine.coszen m b + Machine.ias m b)
          / (1 - b.albedo * Machine.rs m b) = _
      rw [e1, F64.zero_mul_of_isFinite _ hc', F64.zero_add_eq]
    · show (Machine.directNormal m b * b.dniMod * Machine.coszen m b + Machine.ias m b)
          / (1 - b.albedo * Machine.rs m b)
          - Machine.directNormal m b * b.dniMod * Machine.coszen m b = _
      rw [e1, F64.zero_mul_of_isFinite _ hc', F64.zero_add_eq, F64.sub_zero_eq]

end MachineModClaims

section MachineModWitness

/-- Witness of the amended C19: sun at the zenith and an empty atmosphere, where every
transmittance is 1 and directNormal is finite. -/
theorem Calculate_dniMod_zero_of_finite_witness :
    (Machine.emptyAtmosphereInput : bird F64).dniMod = 0
    ∧ F64.isFinite
        (Machine.Calculate F64.goMath (Machine.emptyAtmosphereInput : bird F64)).2.directNormal
    ∧ (Machine.Calculate F64.goMath (Machine.emptyAtmosphereInput : bird F64)).2.directNormalMod
        = 0
    ∧ (Machine.Calculate F64.goMath (Machine.emptyAtmosphereInput : bird F64)).2.globalHorizMod
        = (Machine.Calculate F64.goMath
            (Machine.emptyAtmosphereInput : bird F64)).2.diffuseHorizMod :=
  have hin : ∀ x : ℝ, 0 ≤ x → x ≤ 100 → Machine.inRange (F64.fin x) := by
    intro x h1 h2
    simp only [Machine.inRange, F64.zero_eq_fin, F64.ofNat_eq_fin, F64.fin_le_fin]
    exact ⟨h1, h2⟩
  have h0 : (Machine.emptyAtmosphereInput : bird F64).zenith ≥ 0 := by
    show (0 : F64) ≤ 0
    rw [F64.zero_eq_fin, F64.fin_le_fin]
  have h90 : (Machine.emptyAtmosphereInput : bird F64).zenith < 90 := by
    show (0 : F64) < 90
    rw [F64.zero_eq_fin, F64.ofNat_eq_fin, F64.fin_lt_fin]
    norm_num
  have hr : (Machine.emptyAtmosphereInput : bird F64).r > 0 := by
    show (0 : F64) < 1
    rw [F64.zero_eq_fin, F64.one_eq_fin, F64.fin_lt_fin]
    norm_num
  have h := Calculate_dniMod_zero_of_finite F64.goMath
    (Machine.emptyAtmosphereInput : bird F64) (hin 0 (le_refl 0) (by norm_num))
    (hin 0 (le_refl 0) (by norm_num)) (hin 0 (le_refl 0) (by norm_num))
    (hin 0.85 (by norm_num) (by norm_num)) (hin 0.2 (by norm_num) (by norm_num)) rfl h0 h90 hr
  have hf : F64.isFinite
      (Machine.Calculate F64.goMath (Machine.emptyAtmosphereInput : bird F64)).2.directNormal := by
    have hv : Machine.validate (Machine.emptyAtmosphereInput : bird F64) = none := by
      rw [← machine_Calculate_fst F64.goMath]
      exact h.1
    have hd : (Machine.emptyAtmosphereInput : bird F64).dniMod ≥ 0 := h0
    rw [machine_Calculate_of_full F64.goMath _ hv ⟨h0, h90, hr⟩, if_pos hd]
    exact F64.emptyAtmosphere_directNormal_finite
  have hc : F64.isFinite (F64.goMath.Cos
      ((Machine.emptyAtmosphereInput : bird F64).zenith * F64.goMath.Pi / 180.0)) := by
    have e := F64.coszen_zenith_zero (Machine.emptyAtmosphereInput : bird F64) rfl
    unfold Machine.coszen at e
    rw [e]
    exact trivial
  ⟨rfl, hf, (h.2.2 hf hc).1, (h.2.2 hf hc).2.1.trans (h.2.2 hf hc).2.2.symm⟩

end MachineModWitness

section MachineClosureClaims

/-- C6 as stated fails: sun at the zenith, no pressure, ozone or water vapour, aerosol optical
depth 1 and an earth radius vector of `1e-200` (all six validated fields in `[0,100]`,
`0 ≤ zenith < 90`, `r > 0`).  The square of `r` underflows to zero, so directNormal and
globalHoriz are +Inf and diffuseHoriz, the difference of two infinities, is NaN:
directNormal * cos(zenith*pi/180) + diffuseHoriz is NaN, not globalHoriz. -/
theorem Calculate_tiny_radius_not_closed :
    Machine.inRange F64.tinyRadiusInput.ozone
    ∧ Machine.inRange F64.tinyRadiusInput.water
    ∧ Machine.inRange F64.tinyRadiusInput.taua
    ∧ Machine.inRange F64.tinyRadiusInput.ba
    ∧ Machine.inRange F64.tinyRadiusInput.albedo
    ∧ Machine.inRange F64.tinyRadiusInput.dniMod
    ∧ Machine.fullGeometry F64.tinyRadiusInput
    ∧ (Machine.Calculate F64.goMath F64.tinyRadiusInput).1 = none
    ∧ (Machine.Calculate F64.goMath F64.tinyRadiusInput).2.globalHoriz = F64.posInf
    ∧ (Machine.Calculate F64.goMath F64.tinyRadiusInput).2.diffuseHoriz = F64.nan
    ∧ (Machine.Calculate F64.goMath F64.tinyRadiusInput).2.directNormal
          * F64.goMath.Cos (F64.tinyRadiusInput.zenith * F64.goMath.Pi / 180.0)
        + (Machine.Calculate F64.goMath F64.tinyRadiusInput).2.diffuseHoriz = F64.nan
    ∧ (Machine.Calculate F64.goMath F64.tinyRadiusInput).2.globalHoriz
        ≠ (Machine.Calculate F64.goMath F64.tinyRadiusInput).2.directNormal
            * F64.goMath.Cos (F64.tinyRadiusInput.zenith * F64.goMath.Pi / 180.0)
          + (Machine.Calculate F64.goMath F64.tinyRadiusInput).2.diffuseHoriz := by
  have hin : ∀ x : ℝ, 0 ≤ x → x ≤ 100 → Machine.inRange (F64.fin x) := by
    intro x h1 h2
    simp only [Machine.inRange, F64.zero_eq_fin, F64.ofNat_eq_fin, F64.fin_le_fin]
    exact ⟨h1, h2⟩
  have i1 : Machine.inRange F64.tinyRadiusInput.ozone := hin 0 (le_refl 0) (by norm_num)
  have i2 : Machine.inRange F64.tinyRadiusInput.water := hin 0 (le_refl 0) (by norm_num)
  have i3 : Machine.inRange F64.tinyRadiusInput.taua := hin 1 (by norm_num) (by norm_num)
  have i4 : Machine.inRange F64.tinyRadiusInput.ba := hin 0.85 (by norm_num) (by norm_num)
  have i5 : Machine.inRange F64.tinyRadiusInput.albedo := hin 0.2 (by norm_num) (by norm_num)
  have i6 : Machine.inRange F64.tinyRadiusInput.dniMod := hin 0 (le_refl 0) (by norm_num)
  have hv : Machine.validate F64.tinyRadiusInput = none := by
    rw [machine_validate_eq_none_iff]
    exact ⟨F64.not_rejected_of_inRange _ i1, F64.not_rejected_of_inRange _ i2,
      F64.not_rejected_of_inRange _ i3, F64.not_rejected_of_inRange _ i4,
      F64.not_rejected_of_inRange _ i5, F64.not_rejected_of_inRange _ i6⟩
  have hg : Machine.fullGeometry F64.tinyRadiusInput := by
    refine ⟨?_, ?_, ?_⟩
    · show (0 : F64) ≤ 0
      rw [F64.zero_eq_fin, F64.fin_le_fin]
    · show (0 : F64) < 90
      rw [F64.zero_eq_fin, F64.ofNat_eq_fin, F64.fin_lt_fin]
      norm_num
    · show (0 : F64) < 1e-200
      rw [F64.zero_eq_fin, F64.ofScientific_eq_fin, F64.fin_lt_fin]
      norm_num
  have hd : F64.tinyRadiusInput.dniMod ≥ 0 := i6.1
  obtain ⟨_, hC, hDN, hI, D, hD, hD1, _⟩ := F64.tinyRadius_values
  have e1 : (Machine.Calculate F64.goMath F64.tinyRadiusInput).2.directNormal = F64.posInf := by
    rw [machine_Calculate_of_full F64.goMath _ hv hg, if_pos hd]
    exact hDN
  have e2 : (Machine.Calculate F64.goMath F64.tinyRadiusInput).2.globalHoriz = F64.posInf := by
    rw [machine_Calculate_of_full F64.goMath _ hv hg, if_pos hd]
    show (Machine.directNormal F64.goMath F64.tinyRadiusInput
        * Machine.coszen F64.goMath F64.tinyRadiusInput
        + Machine.ias F64.goMath F64.tinyRadiusInput)
      / (1 - F64.tinyRadiusInput.albedo * Machine.rs F64.goMath F64.tinyRadiusInput)
      = F64.posInf
    rw [hDN, hC, hI, hD, F64.posInf_mul_fin 1 one_pos]
    exact F64.posInf_div_between (F64.between_fin D) (by linarith)
  have e3 : (Machine.Calculate F64.goMath F64.tinyRadiusInput).2.diffuseHoriz = F64.nan := by
    have e : (Machine.Calculate F64.goMath F64.tinyRadiusInput).2.diffuseHoriz
        = (Machine.Calculate F64.goMath F64.tinyRadiusInput).2.globalHoriz
          - Machine.directNormal F64.goMath F64.tinyRadiusInput
            * Machine.coszen F64.goMath F64.tinyRadiusInput := by
      rw [machine_Calculate_of_full F64.goMath _ hv hg, if_pos hd]
      rfl
    rw [e, e2, hDN, hC, F64.posInf_mul_fin 1 one_pos]
    rfl
  have e4 : (Machine.Calculate F64.goMath F64.tinyRadiusInput).2.directNormal
        * F64.goMath.Cos (F64.tinyRadiusInput.zenith * F64.goMath.Pi / 180.0)
      + (Machine.Calculate F64.goMath F64.tinyRadiusInput).2.diffuseHoriz = F64.nan := by
    rw [e3, F64.add_nan]
  refine ⟨i1, i2, i3, i4, i5, i6, hg, ?_, e2, e3, e4, ?_⟩
  · rw [machine_Calculate_fst]
    exact hv
  · rw [e4, e2]
    intro h
    cases h

end MachineClosureClaims

end Bird
